import Mathlib

set_option maxRecDepth 4000000

/-!
Verification development for the text-normalization core of wiktextract
(src/wiktextract/clean.py): the markup stripper `clean_value`, the emphasis
state machine `remove_italic_and_bold`, the LaTeX-subset math renderer
`to_math`, and the superscript/subscript/chemical converters.

Python strings are modelled as lists of Unicode codepoints (`Str`).  Python
regular expressions are modelled by an explicit backtracking engine over a
regex AST (`RE`), with Python's leftmost / first-alternative / greedy-first
match order.  Fallible Python operations (list indexing, chr) are modelled
in an `Except PyErr` monad.  Unbounded `while` loops and recursion are
modelled with explicit fuel; running out of fuel yields the distinguished
error `PyErr.fuelOut`, which never occurs in any of the concrete runs below.
-/

namespace WxrClean

/-- Python `str` values are modelled as lists of Unicode codepoints. -/
abbrev Str := List Nat

/-- Codepoints of a Lean string literal. -/
def strOf (s : String) : Str := s.data.map Char.toNat

/-- Python `s.startswith(p)`. -/
def pyStartsWith : Str → Str → Bool
  | _, [] => true
  | [], _ :: _ => false
  | c :: s, p :: ps => c == p && pyStartsWith s ps

/-- Membership test for a sorted list of inclusive codepoint ranges. -/
def inRanges : List (Nat × Nat) → Nat → Bool
  | [], _ => false
  | (lo, hi) :: rest, c => if c < lo then false else if c ≤ hi then true else inRanges rest c

/-- Codepoint of the apostrophe. -/
def apos : Nat := 39

/-- Codepoint of the newline. -/
def nl : Nat := 10

/-- Splits a packed data string on the separator codepoint 0. -/
def splitSepGo : Str → Str → List Str
  | acc, [] => [acc.reverse]
  | acc, c :: t =>
    if c == 0 then acc.reverse :: splitSepGo [] t
    else splitSepGo (c :: acc) t

/-- Splits a packed data string on the separator codepoint 0. -/
def splitSep (s : Str) : List Str := splitSepGo [] s

/-- Decodes a packed table of string pairs: entries separated by codepoint 0,
    key and value separated by codepoint 1. -/
def decodePairs (data : String) : List (Str × Str) :=
  (splitSep (strOf data)).map (fun e =>
    (e.takeWhile (fun c => c != 1), (e.dropWhile (fun c => c != 1)).drop 1))

/-- Decodes a packed table whose entries are one key character followed by a
    value string, entries separated by codepoint 0. -/
def decodeKeyed (data : String) : List (Nat × Str) :=
  (splitSep (strOf data)).map (fun e => (e.headD 0, e.drop 1))

/-- Decodes consecutive character triples. -/
def decodeTriplesGo : Str → List (Nat × Nat × Nat)
  | a :: b :: c :: t => (a, b, c) :: decodeTriplesGo t
  | _ => []

/-- Decodes a packed table of consecutive character triples. -/
def decodeTriples (data : String) : List (Nat × Nat × Nat) := decodeTriplesGo (strOf data)

/-- Decodes consecutive character doubles. -/
def decodeDoublesGo : Str → List (Nat × Nat)
  | a :: b :: t => (a, b) :: decodeDoublesGo t
  | _ => []

/-- Decodes a packed table of consecutive character doubles. -/
def decodeDoubles (data : String) : List (Nat × Nat) := decodeDoublesGo (strOf data)

/-- Decodes consecutive character triples as pair-keyed entries. -/
def decodePairTriplesGo : Str → List ((Nat × Nat) × Nat)
  | a :: b :: c :: t => ((a, b), c) :: decodePairTriplesGo t
  | _ => []

/-- Decodes a packed table of pair-keyed character triples. -/
def decodePairTriples (data : String) : List ((Nat × Nat) × Nat) := decodePairTriplesGo (strOf data)
def superscript_ht : List (Str × Str) := [
  ([48], [8304]),  -- "0" to "⁰"
  ([49], [185]),  -- "1" to "¹"
  ([50], [178]),  -- "2" to "²"
  ([51], [179]),  -- "3" to "³"
  ([52], [8308]),  -- "4" to "⁴"
  ([53], [8309]),  -- "5" to "⁵"
  ([54], [8310]),  -- "6" to "⁶"
  ([55], [8311]),  -- "7" to "⁷"
  ([56], [8312]),  -- "8" to "⁸"
  ([57], [8313]),  -- "9" to "⁹"
  ([43], [8314]),  -- "+" to "⁺"
  ([45], [8315]),  -- "-" to "⁻"
  ([8722], [8315]),  -- "−" to "⁻"
  ([8208], [8315]),  -- "‐" to "⁻"
  ([8211], [8315]),  -- "–" to "⁻"
  ([8212], [8315]),  -- "—" to "⁻"
  ([19968], [8315]),  -- "一" to "⁻"
  ([61], [8316]),  -- "=" to "⁼"
  ([40], [8317]),  -- "(" to "⁽"
  ([41], [8318]),  -- ")" to "⁾"
  ([65], [7468]),  -- "A" to "ᴬ"
  ([66], [7470]),  -- "B" to "ᴮ"
  ([68], [7472]),  -- "D" to "ᴰ"
  ([69], [7473]),  -- "E" to "ᴱ"
  ([71], [7475]),  -- "G" to "ᴳ"
  ([72], [7476]),  -- "H" to "ᴴ"
  ([73], [7477]),  -- "I" to "ᴵ"
  ([74], [7478]),  -- "J" to "ᴶ"
  ([75], [7479]),  -- "K" to "ᴷ"
  ([76], [7480]),  -- "L" to "ᴸ"
  ([77], [7481]),  -- "M" to "ᴹ"
  ([78], [7482]),  -- "N" to "ᴺ"
  ([79], [7484]),  -- "O" to "ᴼ"
  ([80], [7486]),  -- "P" to "ᴾ"
  ([82], [7487]),  -- "R" to "ᴿ"
  ([84], [7488]),  -- "T" to "ᵀ"
  ([85], [7489]),  -- "U" to "ᵁ"
  ([86], [11389]),  -- "V" to "ⱽ"
  ([87], [7490]),  -- "W" to "ᵂ"
  ([97], [7491]),  -- "a" to "ᵃ"
  ([98], [7495]),  -- "b" to "ᵇ"
  ([99], [7580]),  -- "c" to "ᶜ"
  ([100], [7496]),  -- "d" to "ᵈ"
  ([101], [7497]),  -- "e" to "ᵉ"
  ([102], [7584]),  -- "f" to "ᶠ"
  ([103], [7501]),  -- "g" to "ᵍ"
  ([104], [688]),  -- "h" to "ʰ"
  ([105], [8305]),  -- "i" to "ⁱ"
  ([106], [690]),  -- "j" to "ʲ"
  ([107], [7503]),  -- "k" to "ᵏ"
  ([108], [737]),  -- "l" to "ˡ"
  ([109], [7504]),  -- "m" to "ᵐ"
  ([110], [8319]),  -- "n" to "ⁿ"
  ([111], [7506]),  -- "o" to "ᵒ"
  ([112], [7510]),  -- "p" to "ᵖ"
  ([114], [691]),  -- "r" to "ʳ"
  ([115], [738]),  -- "s" to "ˢ"
  ([116], [7511]),  -- "t" to "ᵗ"
  ([117], [7512]),  -- "u" to "ᵘ"
  ([118], [7515]),  -- "v" to "ᵛ"
  ([119], [695]),  -- "w" to "ʷ"
  ([120], [739]),  -- "x" to "ˣ"
  ([121], [696]),  -- "y" to "ʸ"
  ([122], [7611]),  -- "z" to "ᶻ"
  ([946], [7517]),  -- "β" to "ᵝ"
  ([947], [7518]),  -- "γ" to "ᵞ"
  ([948], [7519]),  -- "δ" to "ᵟ"
  ([952], [7615]),  -- "θ" to "ᶿ"
  ([953], [7589]),  -- "ι" to "ᶥ"
  ([966], [7520]),  -- "φ" to "ᵠ"
  ([967], [7521]),  -- "χ" to "ᵡ"
  ([8734], [8194, 6834])  -- "∞" to " ᪲"
]
def subscript_ht : List (Str × Str) := [
  ([48], [8320]),  -- "0" to "₀"
  ([49], [8321]),  -- "1" to "₁"
  ([50], [8322]),  -- "2" to "₂"
  ([51], [8323]),  -- "3" to "₃"
  ([52], [8324]),  -- "4" to "₄"
  ([53], [8325]),  -- "5" to "₅"
  ([54], [8326]),  -- "6" to "₆"
  ([55], [8327]),  -- "7" to "₇"
  ([56], [8328]),  -- "8" to "₈"
  ([57], [8329]),  -- "9" to "₉"
  ([43], [8330]),  -- "+" to "₊"
  ([45], [8331]),  -- "-" to "₋"
  ([8722], [8331]),  -- "−" to "₋"
  ([61], [8332]),  -- "=" to "₌"
  ([40], [8333]),  -- "(" to "₍"
  ([41], [8334]),  -- ")" to "₎"
  ([97], [8336]),  -- "a" to "ₐ"
  ([101], [8337]),  -- "e" to "ₑ"
  ([104], [8341]),  -- "h" to "ₕ"
  ([105], [7522]),  -- "i" to "ᵢ"
  ([106], [11388]),  -- "j" to "ⱼ"
  ([107], [8342]),  -- "k" to "ₖ"
  ([108], [8343]),  -- "l" to "ₗ"
  ([109], [8344]),  -- "m" to "ₘ"
  ([110], [8345]),  -- "n" to "ₙ"
  ([111], [8338]),  -- "o" to "ₒ"
  ([112], [8346]),  -- "p" to "ₚ"
  ([114], [7523]),  -- "r" to "ᵣ"
  ([115], [8347]),  -- "s" to "ₛ"
  ([116], [8348]),  -- "t" to "ₜ"
  ([117], [7524]),  -- "u" to "ᵤ"
  ([118], [7525]),  -- "v" to "ᵥ"
  ([120], [8339]),  -- "x" to "ₓ"
  ([601], [8340]),  -- "ə" to "ₔ"
  ([961], [7528]),  -- "ρ" to "ᵨ"
  ([966], [7529]),  -- "φ" to "ᵩ"
  ([967], [7530])  -- "χ" to "ᵪ"
]
def mathcal_map : List (Str × Str) := [
  ([65], [119964]),  -- "A" to "𝒜"
  ([66], [8492]),  -- "B" to "ℬ"
  ([67], [119966]),  -- "C" to "𝒞"
  ([68], [119967]),  -- "D" to "𝒟"
  ([69], [8496]),  -- "E" to "ℰ"
  ([70], [8497]),  -- "F" to "ℱ"
  ([71], [119970]),  -- "G" to "𝒢"
  ([72], [8459]),  -- "H" to "ℋ"
  ([73], [8464]),  -- "I" to "ℐ"
  ([74], [119973]),  -- "J" to "𝒥"
  ([75], [119974]),  -- "K" to "𝒦"
  ([76], [8466]),  -- "L" to "ℒ"
  ([77], [8499]),  -- "M" to "ℳ"
  ([78], [119977]),  -- "N" to "𝒩"
  ([79], [119978]),  -- "O" to "𝒪"
  ([80], [119979]),  -- "P" to "𝒫"
  ([81], [119980]),  -- "Q" to "𝒬"
  ([82], [8475]),  -- "R" to "ℛ"
  ([83], [119982]),  -- "S" to "𝒮"
  ([84], [119983]),  -- "T" to "𝒯"
  ([85], [119984]),  -- "U" to "𝒰"
  ([86], [119985]),  -- "V" to "𝒱"
  ([87], [119986]),  -- "W" to "𝒲"
  ([88], [119987]),  -- "X" to "𝒳"
  ([89], [119988]),  -- "Y" to "𝒴"
  ([90], [119989]),  -- "Z" to "𝒵"
  ([97], [119990]),  -- "a" to "𝒶"
  ([98], [119991]),  -- "b" to "𝒷"
  ([99], [119992]),  -- "c" to "𝒸"
  ([100], [119993]),  -- "d" to "𝒹"
  ([101], [8495]),  -- "e" to "ℯ"
  ([102], [119995]),  -- "f" to "𝒻"
  ([103], [8458]),  -- "g" to "ℊ"
  ([104], [119997]),  -- "h" to "𝒽"
  ([105], [119998]),  -- "i" to "𝒾"
  ([106], [119999]),  -- "j" to "𝒿"
  ([107], [120000]),  -- "k" to "𝓀"
  ([108], [120001]),  -- "l" to "𝓁"
  ([109], [120002]),  -- "m" to "𝓂"
  ([110], [120003]),  -- "n" to "𝓃"
  ([111], [8500]),  -- "o" to "ℴ"
  ([112], [120005]),  -- "p" to "𝓅"
  ([113], [120006]),  -- "q" to "𝓆"
  ([114], [120007]),  -- "r" to "𝓇"
  ([115], [120008]),  -- "s" to "𝓈"
  ([116], [120009]),  -- "t" to "𝓉"
  ([117], [120010]),  -- "u" to "𝓊"
  ([118], [120011]),  -- "v" to "𝓋"
  ([119], [120012]),  -- "w" to "𝓌"
  ([120], [120013]),  -- "x" to "𝓍"
  ([121], [120014]),  -- "y" to "𝓎"
  ([122], [120015])  -- "z" to "𝓏"
]
def mathfrak_map : List (Str × Str) := [
  ([65], [120068]),  -- "A" to "𝔄"
  ([66], [120069]),  -- "B" to "𝔅"
  ([67], [8493]),  -- "C" to "ℭ"
  ([68], [120071]),  -- "D" to "𝔇"
  ([69], [120072]),  -- "E" to "𝔈"
  ([70], [120073]),  -- "F" to "𝔉"
  ([71], [120074]),  -- "G" to "𝔊"
  ([72], [8460]),  -- "H" to "ℌ"
  ([74], [120077]),  -- "J" to "𝔍"
  ([75], [120078]),  -- "K" to "𝔎"
  ([76], [120079]),  -- "L" to "𝔏"
  ([77], [120080]),  -- "M" to "𝔐"
  ([78], [120081]),  -- "N" to "𝔑"
  ([79], [120082]),  -- "O" to "𝔒"
  ([80], [120083]),  -- "P" to "𝔓"
  ([81], [120084]),  -- "Q" to "𝔔"
  ([83], [120086]),  -- "S" to "𝔖"
  ([84], [120087]),  -- "T" to "𝔗"
  ([85], [120088]),  -- "U" to "𝔘"
  ([86], [120089]),  -- "V" to "𝔙"
  ([87], [120090]),  -- "W" to "𝔚"
  ([88], [120091]),  -- "X" to "𝔛"
  ([89], [120092]),  -- "Y" to "𝔜"
  ([90], [8488])  -- "Z" to "ℨ"
]
def mathbb_map : List (Str × Str) := [
  ([65], [120120]),  -- "A" to "𝔸"
  ([66], [120121]),  -- "B" to "𝔹"
  ([67], [8450]),  -- "C" to "ℂ"
  ([68], [120123]),  -- "D" to "𝔻"
  ([69], [120124]),  -- "E" to "𝔼"
  ([70], [120125]),  -- "F" to "𝔽"
  ([71], [120126]),  -- "G" to "𝔾"
  ([72], [8461]),  -- "H" to "ℍ"
  ([73], [120128]),  -- "I" to "𝕀"
  ([74], [120129]),  -- "J" to "𝕁"
  ([75], [120130]),  -- "K" to "𝕂"
  ([76], [120131]),  -- "L" to "𝕃"
  ([77], [120132]),  -- "M" to "𝕄"
  ([78], [8469]),  -- "N" to "ℕ"
  ([79], [120134]),  -- "O" to "𝕆"
  ([80], [8473]),  -- "P" to "ℙ"
  ([81], [8474]),  -- "Q" to "ℚ"
  ([82], [8477]),  -- "R" to "ℝ"
  ([83], [120138]),  -- "S" to "𝕊"
  ([84], [120139]),  -- "T" to "𝕋"
  ([85], [120140]),  -- "U" to "𝕌"
  ([86], [120141]),  -- "V" to "𝕍"
  ([87], [120142]),  -- "W" to "𝕎"
  ([88], [120143]),  -- "X" to "𝕏"
  ([89], [120144]),  -- "Y" to "𝕐"
  ([90], [8484]),  -- "Z" to "ℤ"
  ([97], [120146]),  -- "a" to "𝕒"
  ([98], [120147]),  -- "b" to "𝕓"
  ([99], [120148]),  -- "c" to "𝕔"
  ([100], [120149]),  -- "d" to "𝕕"
  ([101], [120150]),  -- "e" to "𝕖"
  ([102], [120151]),  -- "f" to "𝕗"
  ([103], [120152]),  -- "g" to "𝕘"
  ([104], [120153]),  -- "h" to "𝕙"
  ([105], [120154]),  -- "i" to "𝕚"
  ([106], [120155]),  -- "j" to "𝕛"
  ([107], [120156]),  -- "k" to "𝕜"
  ([108], [120157]),  -- "l" to "𝕝"
  ([109], [120158]),  -- "m" to "𝕞"
  ([110], [120159]),  -- "n" to "𝕟"
  ([111], [120160]),  -- "o" to "𝕠"
  ([112], [120161]),  -- "p" to "𝕡"
  ([113], [120162]),  -- "q" to "𝕢"
  ([114], [120163]),  -- "r" to "𝕣"
  ([115], [120164]),  -- "s" to "𝕤"
  ([116], [120165]),  -- "t" to "𝕥"
  ([117], [120166]),  -- "u" to "𝕦"
  ([118], [120167]),  -- "v" to "𝕧"
  ([119], [120168]),  -- "w" to "𝕨"
  ([120], [120169]),  -- "x" to "𝕩"
  ([121], [120170]),  -- "y" to "𝕪"
  ([122], [120171]),  -- "z" to "𝕫"
  ([112, 105], [8508]),  -- "pi" to "ℼ"
  ([103, 97, 109, 109, 97], [8509]),  -- "gamma" to "ℽ"
  ([71, 97, 109, 109, 97], [8510]),  -- "Gamma" to "ℾ"
  ([80, 105], [8511]),  -- "Pi" to "ℿ"
  ([83, 105, 103, 109, 97], [8512]),  -- "Sigma" to "⅀"
  ([48], [120792]),  -- "0" to "𝟘"
  ([49], [120793]),  -- "1" to "𝟙"
  ([50], [120794]),  -- "2" to "𝟚"
  ([51], [120795]),  -- "3" to "𝟛"
  ([52], [120796]),  -- "4" to "𝟜"
  ([53], [120797]),  -- "5" to "𝟝"
  ([54], [120798]),  -- "6" to "𝟞"
  ([55], [120799]),  -- "7" to "𝟟"
  ([56], [120800]),  -- "8" to "𝟠"
  ([57], [120801])  -- "9" to "𝟡"
]
/-- Packed data for math_map. -/
def math_mapData : String :=
  "AC\x01∿\x00APLcomment\x01⍝\x00APLdownarrowbox\x01⍗\x00APLinput\x01⍞\x00APLinv\x01⌹\x00APLleftarrowbox\x01⍇\x00APLlog\x01⍟\x00APLrightarrowbox\x01⍈\x00APLuparrowbox\x01⍐\x00Angstroem\x01Å\x00Bot\x01⫫\x00Box\x01□\x00Bumpeq\x01≎\x00CIRCLE\x01●\x00Cap\x01⋒\x00CapitalDifferentialD\x01ⅅ\x00CheckedBox\x01☑\x00Circle\x01○\x00Coloneqq\x01⩴\x00ComplexI\x01ⅈ\x00ComplexJ\x01ⅉ\x00Cup\x01⋓\x00Delta\x01Δ\x00Diamond\x01◇\x00Diamondblack\x01◆\x00Diamonddot\x01⟐\x00DifferentialD\x01ⅆ\x00Digamma\x01Ϝ\x00Doteq\x01≑\x00DownArrowBar\x01⤓\x00DownLeftTeeVector\x01⥞\x00DownLeftVectorBar\x01⥖\x00DownRightTeeVector\x01⥟\x00DownRightVectorBar\x01⥗\x00Downarrow\x01⇓\x00Equal\x01⩵\x00Euler\x01Ɛ\x00ExponentialE\x01ⅇ\x00ExponetialE\x01ⅇ\x00Finv\x01Ⅎ\x00Gamma\x01Γ\x00Im\x01ℑ\x00Join\x01⨝\x00Koppa\x01Ϟ\x00LEFTCIRCLE\x01◖\x00LEFTcircle\x01◐\x00LHD\x01◀\x00LVec\x01x⃖\x00Lambda\x01Λ\x00Lbag\x01⟅\x00LeftArrowBar\x01⇤\x00LeftDownTeeVector\x01⥡\x00LeftDownVectorBar\x01⥙\x00LeftTeeVector\x01⥚\x00LeftTriangleBar\x01⧏\x00LeftUpTeeVector\x01⥠\x00LeftUpVectorBar\x01⥘\x00LeftVectorBar\x01⥒\x00Leftarrow\x01⇐\x00Leftrightarrow\x01⇔\x00Lleftarrow\x01⇚\x00Longleftarrow\x01⟸\x00Longleftrightarrow\x01⟺\x00Longmapsfrom\x01⟽\x00Longmapsto\x01⟾\x00Longrightarrow\x01⟹\x00Lparen\x01⦅\x00Lsh\x01↰\x00MapsDown\x01↧\x00MapsUp\x01↥\x00Mapsfrom\x01⤆\x00Mapsto\x01⤇\x00Micro\x01µ\x00Nearrow\x01⇗\x00NestedGreaterGreater\x01⪢\x00NestedLessLess\x01⪡\x00NotGreaterLess\x01≹\x00NotGreaterTilde\x01≵\x00NotLessTilde\x01≴\x00Nwarrow\x01⇖\x00Omega\x01Ω\x00Phi\x01Φ\x00Pi\x01Π\x00Proportion\x01∷\x00Psi\x01Ψ\x00Qoppa\x01Ϙ\x00RHD\x01▶\x00RIGHTCIRCLE\x01◗\x00RIGHTcircle\x01◑\x00Rbag\x01⟆\x00Re\x01ℜ\x00RightArrowBar\x01⇥\x00RightDownTeeVector\x01⥝\x00RightDownVectorBar\x01⥕\x00RightTeeVector\x01⥛\x00RightTriangleBar\x01⧐\x00RightUpTeeVector\x01⥜\x00RightUpVectorBar\x01⥔\x00RightVectorBar\x01⥓\x00Rightarrow\x01⇒\x00Rparen\x01⦆\x00Rrightarrow\x01⇛\x00Rsh\x01↱\x00S\x01§\x00Same\x01⩶\x00Sampi\x01Ϡ\x00Searrow\x01⇘\x00Sigma\x01Σ\x00Square\x01☐\x00Stigma\x01Ϛ\x00Subset\x01⋐\x00Sun\x01☉\x00Supset\x01⋑\x00Swarrow\x01⇙\x00Theta\x01Θ\x00Top\x01⫪\x00UpArrowBar\x01⤒\x00Uparrow\x01⇑\x00Updownarrow\x01⇕\x00Upsilon\x01Υ\x00VDash\x01⊫\x00VERT\x01⦀\x00Vdash\x01⊩\x00Vert\x01‖\x00Vvdash\x01⊪\x00XBox\x01☒\x00Xi\x01Ξ\x00Yup\x01⅄\x00_\x01_\x00aleph\x01א\x00alpha\x01α\x00amalg\x01⨿\x00anchor\x01⚓\x00angle\x01∠\x00approx\x01≈\x00approxeq\x01≊\x00aquarius\x01♒\x00arg\x01arg\x00aries\x01♈\x00arrowbullet\x01➢\x00ast\x01∗\x00asymp\x01≍\x00backepsilon\x01϶\x00backprime\x01‵\x00backsim\x01∽\x00backsimeq\x01⋍\x00backslash\x01\x00ballotx\x01✗\x00barin\x01⋶\x00barleftharpoon\x01⥫\x00barrightharpoon\x01⥭\x00barwedge\x01⊼\x00because\x01∵\x00beta\x01β\x00beth\x01ב\x00between\x01≬\x00bigcap\x01∩\x00bigcup\x01∪\x00biginterleave\x01⫼\x00bigodot\x01⨀\x00bigoplus\x01⨁\x00bigotimes\x01⨂\x00bigsqcap\x01⨅\x00bigsqcup\x01⨆\x00bigstar\x01★\x00bigtriangledown\x01▽\x00bigtriangleup\x01△\x00biguplus\x01⨄\x00bigvee\x01∨\x00bigwedge\x01∧\x00bij\x01⤖\x00biohazard\x01☣\x00blacklozenge\x01⧫\x00blacksmiley\x01☻\x00blacksquare\x01■\x00blacktriangledown\x01▾\x00blacktriangleleft\x01◂\x00blacktriangleright\x01▸\x00blacktriangleup\x01▴\x00bot\x01⊥\x00bowtie\x01⋈\x00boxast\x01⧆\x00boxbar\x01◫\x00boxbox\x01⧈\x00boxbslash\x01⧅\x00boxcircle\x01⧇\x00boxdot\x01⊡\x00boxminus\x01⊟\x00boxplus\x01⊞\x00boxslash\x01⧄\x00boxtimes\x01⊠\x00bullet\x01•\x00bumpeq\x01≏\x00cancer\x01♋\x00cap\x01∩\x00capricornus\x01♑\x00capwedge\x01⩄\x00cat\x01⁀\x00cdot\x01·\x00cdots\x01⋯\x00cent\x01¢\x00checkmark\x01✓\x00chi\x01χ\x00circ\x01∘\x00circeq\x01≗\x00circlearrowleft\x01↺\x00circlearrowright\x01↻\x00circledR\x01®\x00circledast\x01⊛\x00circledbslash\x01⦸\x00circledcirc\x01⊚\x00circleddash\x01⊝\x00circledgtr\x01⧁\x00circledless\x01⧀\x00clubsuit\x01♣\x00colon\x01:\x00coloneq\x01≔\x00complement\x01∁\x00cong\x01≅\x00coprod\x01∐\x00corresponds\x01≙\x00cup\x01∪\x00curlyeqprec\x01⋞\x00curlyeqsucc\x01⋟\x00curlyvee\x01⋎\x00curlywedge\x01⋏\x00curvearrowleft\x01↶\x00curvearrowright\x01↷\x00dagger\x01†\x00daleth\x01ד\x00dashleftarrow\x01⇠\x00dashrightarrow\x01⇢\x00dashv\x01⊣\x00ddagger\x01‡\x00delta\x01δ\x00diameter\x01∅\x00diamond\x01⋄\x00diamondsuit\x01♢\x00digamma\x01ϝ\x00div\x01÷\x00divideontimes\x01⋇\x00dlsh\x01↲\x00dot\\bigvee\x01⩒\x00dot\\cap\x01⩀\x00dot\\cup\x01⊍\x00dot\\lor\x01⩒\x00dot\\vee\x01⩒\x00doteq\x01≐\x00dotplus\x01∔\x00dots\x01…\x00doublebarwedge\x01⩞\x00downarrow\x01↓\x00downdownarrows\x01⇊\x00downdownharpoons\x01⥥\x00downharpoonleft\x01⇃\x00downharpoonright\x01⇂\x00downuparrows\x01⇵\x00downupharpoons\x01⥯\x00drsh\x01↳\x00dsub\x01⩤\x00earth\x01♁\x00eighthnote\x01♪\x00ell\x01ℓ\x00emptyset\x01∅\x00epsilon\x01ϵ\x00eqcirc\x01≖\x00eqcolon\x01∹\x00eqsim\x01≂\x00eqslantgtr\x01⪖\x00eqslantless\x01⪕\x00equiv\x01≡\x00eta\x01η\x00eth\x01ð\x00exists\x01∃\x00fallingdotseq\x01≒\x00fcmp\x01⨾\x00female\x01♀\x00ffun\x01⇻\x00finj\x01⤕\x00fint\x01⨏\x00flat\x01♭\x00footnotesize\x01\x00forall\x01∀\x00fourth\x01⁗\x00frown\x01⌢\x00frownie\x01☹\x00gamma\x01γ\x00ge\x01>\x00gemini\x01♊\x00geq\x01≥\x00geqq\x01≧\x00geqslant\x01⩾\x00gg\x01≫\x00ggcurly\x01⪼\x00ggg\x01⋙\x00gimel\x01ג\x00gnapprox\x01⪊\x00gneq\x01⪈\x00gneqq\x01≩\x00gnsim\x01⋧\x00gtrapprox\x01⪆\x00gtrdot\x01⋗\x00gtreqless\x01⋛\x00gtreqqless\x01⪌\x00gtrless\x01≷\x00gtrsim\x01≳\x00hash\x01⋕\x00heartsuit\x01♡\x00hookleftarrow\x01↩\x00hookrightarrow\x01↪\x00hslash\x01ℏ\x00iddots\x01⋰\x00iff\x01⟺\x00iiiint\x01⨌\x00iiint\x01∭\x00iint\x01∬\x00imath\x01ı\x00implies\x01⟹\x00in\x01∈\x00infty\x01∞\x00int\x01∫\x00intercal\x01⊺\x00interleave\x01⫴\x00invamp\x01⅋\x00invdiameter\x01⍉\x00invneg\x01⌐\x00iota\x01ι\x00jmath\x01ȷ\x00jupiter\x01♃\x00kappa\x01κ\x00koppa\x01ϟ\x00lambda\x01λ\x00land\x01∧\x00lang\x01⟪\x00langle\x01⟨\x00large\x01\x00lblot\x01⦉\x00lbrace\x01\x7b\x00lbrack\x01[\x00lceil\x01⌈\x00ldots\x01…\x00le\x01<\x00leadsto\x01⤳\x00leftarrow\x01←\x00leftarrowtail\x01↢\x00leftarrowtriangle\x01⇽\x00leftbarharpoon\x01⥪\x00leftharpoondown\x01↽\x00leftharpoonup\x01↼\x00leftleftarrows\x01⇇\x00leftleftharpoons\x01⥢\x00leftmoon\x01☾\x00leftrightarrow\x01↔\x00leftrightarrows\x01⇆\x00leftrightarrowtriangle\x01⇿\x00leftrightharpoon\x01⥊\x00leftrightharpoondown\x01⥐\x00leftrightharpoons\x01⇋\x00leftrightharpoonup\x01⥎\x00leftrightsquigarrow\x01↭\x00leftslice\x01⪦\x00leftsquigarrow\x01⇜\x00leftthreetimes\x01⋋\x00leftupdownharpoon\x01⥑\x00leo\x01♌\x00leq\x01≤\x00leqq\x01≦\x00leqslant\x01⩽\x00lessapprox\x01⪅\x00lessdot\x01⋖\x00lesseqgtr\x01⋚\x00lesseqqgtr\x01⪋\x00lessgtr\x01≶\x00lessim\x01≲\x00lesssim\x01≲\x00lfloor\x01⌊\x00lgroup\x01⟮\x00lhd\x01◁\x00libra\x01♎\x00lightning\x01↯\x00limg\x01⦇\x00ll\x01≪\x00llbracket\x01⟦\x00llcorner\x01⌞\x00llcurly\x01⪻\x00lll\x01⋘\x00lnapprox\x01⪉\x00lneq\x01⪇\x00lneqq\x01≨\x00lnot\x01¬\x00lnsim\x01⋦\x00longleftarrow\x01⟵\x00longleftrightarrow\x01⟷\x00longmapsfrom\x01⟻\x00longmapsto\x01⟼\x00longrightarrow\x01⟶\x00looparrowleft\x01↫\x00looparrowright\x01↬\x00lor\x01∨\x00lozenge\x01◊\x00lrcorner\x01⌟\x00ltimes\x01⋉\x00male\x01♂\x00maltese\x01✠\x00mapsfrom\x01↤\x00mapsto\x01↦\x00measuredangle\x01∡\x00medbullet\x01⚫\x00medcirc\x01⚪\x00mercury\x01☿\x00mho\x01℧\x00mid\x01∣\x00mlcp\x01⫛\x00mod\x01 mod \x00models\x01⊧\x00mp\x01∓\x00mu\x01μ\x00multimap\x01⊸\x00multimapboth\x01⧟\x00multimapdotbothA\x01⊶\x00multimapdotbothB\x01⊷\x00multimapinv\x01⟜\x00nLeftarrow\x01⇍\x00nLeftrightarrow\x01⇎\x00nRightarrow\x01⇏\x00nVDash\x01⊯\x00nVdash\x01⊮\x00nabla\x01∇\x00napprox\x01≉\x00natural\x01♮\x00ncong\x01≇\x00nearrow\x01↗\x00neg\x01¬\x00neptune\x01♆\x00neq\x01≠\x00nequiv\x01≢\x00nexists\x01∄\x00ngeq\x01≱\x00ngtr\x01≯\x00ni\x01∋\x00nleftarrow\x01↚\x00nleftrightarrow\x01↮\x00nleq\x01≰\x00nless\x01≮\x00nmid\x01∤\x00nni\x01∌\x00normalsize\x01\x00not\\in\x01∉\x00not\\ni\x01∌\x00not\\preceq\x01⋠\x00not\\subset\x01⊄\x00not\\subseteq\x01⊈\x00not\\succeq\x01⋡\x00not\\supset\x01⊅\x00not\\supseteq\x01⊉\x00not\\trianglelefteq\x01⋬\x00not\\trianglerighteq\x01⋭\x00not\\vartriangleleft\x01⋪\x00not\\vartriangleright\x01⋫\x00notasymp\x01≭\x00notbackslash\x01⍀\x00notin\x01∉\x00notslash\x01⌿\x00nparallel\x01∦\x00nprec\x01⊀\x00npreceq\x01⋠\x00nrightarrow\x01↛\x00nsim\x01≁\x00nsimeq\x01≄\x00nsqsubseteq\x01⋢\x00nsqsupseteq\x01⋣\x00nsubset\x01⊄\x00nsubseteq\x01⊈\x00nsucc\x01⊁\x00nsucceq\x01⋡\x00nsupset\x01⊅\x00nsupseteq\x01⊉\x00ntriangleleft\x01⋪\x00ntrianglelefteq\x01⋬\x00ntriangleright\x01⋫\x00ntrianglerighteq\x01⋭\x00nu\x01ν\x00nvDash\x01⊭\x00nvdash\x01⊬\x00nwarrow\x01↖\x00odot\x01⊙\x00oiiint\x01∰\x00oiint\x01∯\x00oint\x01∮\x00ointctrclockwise\x01∳\x00omega\x01ω\x00ominus\x01⊖\x00oplus\x01⊕\x00oslash\x01⊘\x00otimes\x01⊗\x00over\x01/\x00overbrace\x01⏞\x00overleftrightarrow\x01x⃡\x00overparen\x01⏜\x00overset?=\x01≟\x00overset\x7b?\x7d\x7b=\x7d\x01≟\x00overset\x7b\\operatorname\x7bdef\x7d\x7d\x7b=\x7d\x01≝\x00parallel\x01∥\x00partial\x01∂\x00pencil\x01✎\x00perp\x01⊥\x00pfun\x01⇸\x00phi\x01ϕ\x00pi\x01π\x00pinj\x01⤔\x00pisces\x01♓\x00pitchfork\x01⋔\x00pluto\x01♇\x00pm\x01±\x00pointright\x01☞\x00pounds\x01£\x00prec\x01≺\x00precapprox\x01⪷\x00preccurlyeq\x01≼\x00preceq\x01⪯\x00preceqq\x01⪳\x00precnapprox\x01⪹\x00precnsim\x01⋨\x00precsim\x01≾\x00prime\x01′\x00prod\x01∏\x00propto\x01∝\x00psi\x01ψ\x00psur\x01⤀\x00qoppa\x01ϙ\x00quad\x01 \x00quarternote\x01♩\x00radiation\x01☢\x00rang\x01⟫\x00rangle\x01⟩\x00rarr\x01→\x00rblot\x01⦊\x00rbrace\x01\x7d\x00rbrack\x01]\x00rceil\x01⌉\x00recycle\x01♻\x00rfloor\x01⌋\x00rgroup\x01⟯\x00rhd\x01▷\x00rho\x01ρ\x00rightangle\x01∟\x00rightarrow\x01→\x00rightarrowtail\x01↣\x00rightarrowtriangle\x01⇾\x00rightbarharpoon\x01⥬\x00rightharpoondown\x01⇁\x00rightharpoonup\x01⇀\x00rightleftarrows\x01⇄\x00rightleftharpoon\x01⥋\x00rightleftharpoons\x01⇌\x00rightmoon\x01☽\x00rightrightarrows\x01⇉\x00rightrightharpoons\x01⥤\x00rightslice\x01⪧\x00rightsquigarrow\x01⇝\x00rightthreetimes\x01⋌\x00rightupdownharpoon\x01⥏\x00rimg\x01⦈\x00risingdotseq\x01≓\x00rrbracket\x01⟧\x00rsub\x01⩥\x00rtimes\x01⋊\x00sagittarius\x01♐\x00sampi\x01ϡ\x00saturn\x01♄\x00scorpio\x01♏\x00scriptsize\x01\x00searrow\x01↘\x00second\x01″\x00setminus\x01⧵\x00sharp\x01♯\x00sigma\x01σ\x00sim\x01∼\x00simeq\x01≃\x00sixteenthnote\x01♬\x00skull\x01☠\x00slash\x01∕\x00small\x01\x00smallsetminus\x01∖\x00smalltriangledown\x01▿\x00smalltriangleleft\x01◃\x00smalltriangleright\x01▹\x00smalltriangleup\x01▵\x00smile\x01⌣\x00smiley\x01☺\x00spadesuit\x01♠\x00spddot\x01¨\x00sphat\x01^\x00sphericalangle\x01∢\x00spot\x01⦁\x00sptilde\x01~\x00sqcap\x01⊓\x00sqcup\x01⊔\x00sqint\x01⨖\x00sqrt\x01√\x00sqrt[3]\x01∛\x00sqrt[4]\x01∜\x00sqsubset\x01⊏\x00sqsubseteq\x01⊑\x00sqsupset\x01⊐\x00sqsupseteq\x01⊒\x00square\x01□\x00sslash\x01⫽\x00star\x01⋆\x00steaming\x01☕\x00stigma\x01ϛ\x00strictfi\x01⥼\x00strictif\x01⥽\x00subset\x01⊂\x00subseteq\x01⊆\x00subseteqq\x01⫅\x00subsetneq\x01⊊\x00subsetneqq\x01⫋\x00succ\x01≻\x00succapprox\x01⪸\x00succcurlyeq\x01≽\x00succeq\x01⪰\x00succeqq\x01⪴\x00succnapprox\x01⪺\x00succnsim\x01⋩\x00succsim\x01≿\x00sum\x01∑\x00sun\x01☼\x00supset\x01⊃\x00supseteq\x01⊇\x00supseteqq\x01⫆\x00supsetneq\x01⊋\x00supsetneqq\x01⫌\x00swarrow\x01↙\x00swords\x01⚔\x00talloblong\x01⫾\x00tau\x01τ\x00taurus\x01♉\x00tcohm\x01Ω\x00textbackslash\x01\\\x00textbar\x01|\x00textbullet\x01•\x00textgreater\x01>\x00textless\x01<\x00textprime\x01′\x00therefore\x01∴\x00theta\x01θ\x00third\x01‴\x00times\x01×\x00tiny\x01\x00to\x01→\x00top\x01⊤\x00triangle\x01∆\x00trianglelefteq\x01⊴\x00triangleq\x01≜\x00trianglerighteq\x01⊵\x00twoheadleftarrow\x01↞\x00twoheadrightarrow\x01↠\x00twonotes\x01♫\x00ulcorner\x01⌜\x00underbar\x01\u00a0̱\x00underbrace\x01⏟\x00underleftarrow\x01x⃮\x00underline\x01\u00a0̲\x00underparen\x01⏝\x00underrightarrow\x01x⃯\x00uparrow\x01↑\x00updownarrow\x01↕\x00updownarrows\x01⇅\x00updownharpoons\x01⥮\x00upharpoonleft\x01↿\x00upharpoonright\x01↾\x00uplus\x01⊎\x00upsilon\x01υ\x00upuparrows\x01⇈\x00upupharpoons\x01⥣\x00uranus\x01♅\x00urcorner\x01⌝\x00utilde\x01\u00a0̰\x00vDash\x01⊨\x00varbeta\x01β\x00varclubsuit\x01♧\x00vardiamondsuit\x01♦\x00varepsilon\x01ε\x00varheartsuit\x01♥\x00varkappa\x01ϰ\x00varnothing\x01∅\x00varointclockwise\x01∲\x00varphi\x01φ\x00varpi\x01ϖ\x00varprod\x01⨉\x00varrho\x01ϱ\x00varsigma\x01ς\x00varspadesuit\x01♤\x00vartheta\x01θ\x00vartriangleleft\x01⊲\x00vartriangleright\x01⊳\x00vdash\x01⊢\x00vdots\x01⋮\x00vee\x01∨\x00veebar\x01⊻\x00vert\x01|\x00virgo\x01♍\x00warning\x01⚠\x00wasylozenge\x01⌑\x00wedge\x01∧\x00widehat=\x01≙\x00widehat\x7b=\x7d\x01≙\x00wp\x01℘\x00wr\x01≀\x00xi\x01ξ\x00yen\x01¥\x00yinyang\x01☯\x00zcmp\x01⨟\x00zeta\x01ζ\x00zhide\x01⧹\x00zpipe\x01⨠\x00zproject\x01⨡\x00|\x01‖\x00acute\x01́\x00bar\x01̄\x00breve\x01̆\x00check\x01̌\x00ddddot\x01⃜\x00dddot\x01⃛\x00ddot\x01̈\x00ddots\x01⋱\x00dot\x01̇\x00grave\x01̀\x00hat\x01̂\x00lvec\x01⃐\x00mathring\x01̊\x00not\x01̸\x00overline\x01◌̅\x00tilde\x01̃\x00vec\x01⃑\x00bigl\x01\x00bigr\x01\x00left\x01\x00right\x01\x00style\x01\x00textstyle\x01\x00mathrm\x01"

/-- clean.py math_map: the mapping from Latex names to Unicode strings -/
def math_map : List (Str × Str) := decodePairs math_mapData
/-- Packed data for wordRanges: two characters per entry (lo, hi). -/
def wordRangesData : String :=
  "09AZ__azªª²³µµ¹º¼¾ÀÖØöøˁˆˑˠˤˬˬˮˮͰʹͶͷͺͽͿͿΆΆΈΊΌΌΎΡΣϵϷҁҊԯԱՖՙՙՠֈאתׯײؠي٠٩ٮٯٱۓەەۥۦۮۼۿۿܐܐܒܯݍޥޱޱ߀ߪߴߵߺߺࠀࠕࠚࠚࠤࠤࠨࠨࡀࡘࡠࡪࡰࢇࢉࢎࢠࣉऄहऽऽॐॐक़ॡ०९ॱঀঅঌএঐওনপরললশহঽঽৎৎড়ঢ়য়ৡ০ৱ৴৹ৼৼਅਊਏਐਓਨਪਰਲਲ਼ਵਸ਼ਸਹਖ਼ੜਫ਼ਫ਼੦੯ੲੴઅઍએઑઓનપરલળવહઽઽૐૐૠૡ૦૯ૹૹଅଌଏଐଓନପରଲଳଵହଽଽଡ଼ଢ଼ୟୡ୦୯ୱ୷ஃஃஅஊஎஐஒகஙசஜஜஞடணதநபமஹௐௐ௦௲అఌఎఐఒనపహఽఽౘౚౝౝౠౡ౦౯౸౾ಀಀಅಌಎಐಒನಪಳವಹಽಽೝೞೠೡ೦೯ೱೲഄഌഎഐഒഺഽഽൎൎൔൖ൘ൡ൦൸ൺൿඅඖකනඳරලලවෆ෦෯กะาำเๆ๐๙ກຂຄຄຆຊຌຣລລວະາຳຽຽເໄໆໆ໐໙ໜໟༀༀ༠༳ཀཇཉཬྈྌကဪဿ၉ၐၕၚၝၡၡၥၦၮၰၵႁႎႎ႐႙ႠჅჇჇჍჍაჺჼቈቊቍቐቖቘቘቚቝበኈኊኍነኰኲኵኸኾዀዀዂዅወዖዘጐጒጕጘፚ፩፼ᎀᎏᎠᏵᏸᏽᐁᙬᙯᙿᚁᚚᚠᛪᛮᛸᜀᜑᜟᜱᝀᝑᝠᝬᝮᝰកឳៗៗៜៜ០៩៰៹᠐᠙ᠠᡸᢀᢄᢇᢨᢪᢪᢰᣵᤀᤞ᥆ᥭᥰᥴᦀᦫᦰᧉ᧐᧚ᨀᨖᨠᩔ᪀᪉᪐᪙ᪧᪧᬅᬳᭅᭌ᭐᭙ᮃᮠᮮᯥᰀᰣ᱀᱉ᱍᱽᲀᲈᲐᲺᲽᲿᳩᳬᳮᳳᳵᳶᳺᳺᴀᶿḀἕἘἝἠὅὈὍὐὗὙὙὛὛὝὝὟώᾀᾴᾶᾼιιῂῄῆῌῐΐῖΊῠῬῲῴῶῼ⁰ⁱ⁴⁹ⁿ₉ₐₜℂℂℇℇℊℓℕℕℙℝℤℤΩΩℨℨKℭℯℹℼℿⅅⅉⅎⅎ⅐↉①⒛⓪⓿❶➓ⰀⳤⳫⳮⳲⳳ⳽⳽ⴀⴥⴧⴧⴭⴭⴰⵧⵯⵯⶀⶖⶠⶦⶨⶮⶰⶶⶸⶾⷀⷆⷈⷎⷐⷖⷘⷞⸯⸯ々〇〡〩〱〵〸〼ぁゖゝゟァヺーヿㄅㄯㄱㆎ㆒㆕ㆠㆿㇰㇿ㈠㈩㉈㉏㉑㉟㊀㊉㊱㊿㐀䶿一ꒌꓐꓽꔀꘌꘐꘫꙀꙮꙿꚝꚠꛯꜗꜟꜢꞈꞋꟊꟐꟑꟓꟓꟕꟙꟲꠁꠃꠅꠇꠊꠌꠢ꠰꠵ꡀꡳꢂꢳ꣐꣙ꣲꣷꣻꣻꣽꣾ꤀ꤥꤰꥆꥠꥼꦄꦲꧏ꧙ꧠꧤꧦꧾꨀꨨꩀꩂꩄꩋ꩐꩙ꩠꩶꩺꩺꩾꪯꪱꪱꪵꪶꪹꪽꫀꫀꫂꫂꫛꫝꫠꫪꫲꫴꬁꬆꬉꬎꬑꬖꬠꬦꬨꬮꬰꭚꭜꭩꭰꯢ꯰꯹가힣ힰퟆퟋퟻ豈舘並龎ﬀﬆﬓﬗיִיִײַﬨשׁזּטּלּמּמּנּסּףּפּצּﮱﯓﴽﵐﶏﶒﷇﷰﷻﹰﹴﹶﻼ０９ＡＺａｚｦﾾￂￇￊￏￒￗￚￜ𐀀𐀋𐀍𐀦𐀨𐀺𐀼𐀽𐀿𐁍𐁐𐁝𐂀𐃺𐄇𐄳𐅀𐅸𐆊𐆋𐊀𐊜𐊠𐋐𐋡𐋻𐌀𐌣𐌭𐍊𐍐𐍵𐎀𐎝𐎠𐏃𐏈𐏏𐏑𐏕𐐀𐒝𐒠𐒩𐒰𐓓𐓘𐓻𐔀𐔧𐔰𐕣𐕰𐕺𐕼𐖊𐖌𐖒𐖔𐖕𐖗𐖡𐖣𐖱𐖳𐖹𐖻𐖼𐘀𐜶𐝀𐝕𐝠𐝧𐞀𐞅𐞇𐞰𐞲𐞺𐠀𐠅𐠈𐠈𐠊𐠵𐠷𐠸𐠼𐠼𐠿𐡕𐡘𐡶𐡹𐢞𐢧𐢯𐣠𐣲𐣴𐣵𐣻𐤛𐤠𐤹𐦀𐦷𐦼𐧏𐧒𐨀𐨐𐨓𐨕𐨗𐨙𐨵𐩀𐩈𐩠𐩾𐪀𐪟𐫀𐫇𐫉𐫤𐫫𐫯𐬀𐬵𐭀𐭕𐭘𐭲𐭸𐮑𐮩𐮯𐰀𐱈𐲀𐲲𐳀𐳲𐳺𐴣𐴰𐴹𐹠𐹾𐺀𐺩𐺰𐺱𐼀𐼧𐼰𐽅𐽑𐽔𐽰𐾁𐾰𐿋𐿠𐿶𑀃𑀷𑁒𑁯𑁱𑁲𑁵𑁵𑂃𑂯𑃐𑃨𑃰𑃹𑄃𑄦𑄶𑄿𑅄𑅄𑅇𑅇𑅐𑅲𑅶𑅶𑆃𑆲𑇁𑇄𑇐𑇚𑇜𑇜𑇡𑇴𑈀𑈑𑈓𑈫𑊀𑊆𑊈𑊈𑊊𑊍𑊏𑊝𑊟𑊨𑊰𑋞𑋰𑋹𑌅𑌌𑌏𑌐𑌓𑌨𑌪𑌰𑌲𑌳𑌵𑌹𑌽𑌽𑍐𑍐𑍝𑍡𑐀𑐴𑑇𑑊𑑐𑑙𑑟𑑡𑒀𑒯𑓄𑓅𑓇𑓇𑓐𑓙𑖀𑖮𑗘𑗛𑘀𑘯𑙄𑙄𑙐𑙙𑚀𑚪𑚸𑚸𑛀𑛉𑜀𑜚𑜰𑜻𑝀𑝆𑠀𑠫𑢠𑣲𑣿𑤆𑤉𑤉𑤌𑤓𑤕𑤖𑤘𑤯𑤿𑤿𑥁𑥁𑥐𑥙𑦠𑦧𑦪𑧐𑧡𑧡𑧣𑧣𑨀𑨀𑨋𑨲𑨺𑨺𑩐𑩐𑩜𑪉𑪝𑪝𑪰𑫸𑰀𑰈𑰊𑰮𑱀𑱀𑱐𑱬𑱲𑲏𑴀𑴆𑴈𑴉𑴋𑴰𑵆𑵆𑵐𑵙𑵠𑵥𑵧𑵨𑵪𑶉𑶘𑶘𑶠𑶩𑻠𑻲𑾰𑾰𑿀𑿔𒀀𒎙𒐀𒑮𒒀𒕃𒾐𒿰𓀀𓐮𔐀𔙆𖠀𖨸𖩀𖩞𖩠𖩩𖩰𖪾𖫀𖫉𖫐𖫭𖬀𖬯𖭀𖭃𖭐𖭙𖭛𖭡𖭣𖭷𖭽𖮏𖹀𖺖𖼀𖽊𖽐𖽐𖾓𖾟𖿠𖿡𖿣𖿣𗀀𘟷𘠀𘳕𘴀𘴈𚿰𚿳𚿵𚿻𚿽𚿾𛀀𛄢𛅐𛅒𛅤𛅧𛅰𛋻𛰀𛱪𛱰𛱼𛲀𛲈𛲐𛲙𝋠𝋳𝍠𝍸𝐀𝑔𝑖𝒜𝒞𝒟𝒢𝒢𝒥𝒦𝒩𝒬𝒮𝒹𝒻𝒻𝒽𝓃𝓅𝔅𝔇𝔊𝔍𝔔𝔖𝔜𝔞𝔹𝔻𝔾𝕀𝕄𝕆𝕆𝕊𝕐𝕒𝚥𝚨𝛀𝛂𝛚𝛜𝛺𝛼𝜔𝜖𝜴𝜶𝝎𝝐𝝮𝝰𝞈𝞊𝞨𝞪𝟂𝟄𝟋𝟎𝟿𝼀𝼞𞄀𞄬𞄷𞄽𞅀𞅉𞅎𞅎𞊐𞊭𞋀𞋫𞋰𞋹𞟠𞟦𞟨𞟫𞟭𞟮𞟰𞟾𞠀𞣄𞣇𞣏𞤀𞥃𞥋𞥋𞥐𞥙𞱱𞲫𞲭𞲯𞲱𞲴𞴁𞴭𞴯𞴽𞸀𞸃𞸅𞸟𞸡𞸢𞸤𞸤𞸧𞸧𞸩𞸲𞸴𞸷𞸹𞸹𞸻𞸻𞹂𞹂𞹇𞹇𞹉𞹉𞹋𞹋𞹍𞹏𞹑𞹒𞹔𞹔𞹗𞹗𞹙𞹙𞹛𞹛𞹝𞹝𞹟𞹟𞹡𞹢𞹤𞹤𞹧𞹪𞹬𞹲𞹴𞹷𞹹𞹼𞹾𞹾𞺀𞺉𞺋𞺛𞺡𞺣𞺥𞺩𞺫𞺻🄀🄌🯰🯹𠀀𪛟𪜀𫜸𫝀𫠝𫠠𬺡𬺰𮯠丽𪘀𰀀𱍊"

/-- Codepoints matched by Python re backslash-w, as sorted inclusive ranges. -/
def wordRanges : List (Nat × Nat) := decodeDoubles wordRangesData
/-- Codepoints matched by Python re backslash-s, as sorted inclusive ranges. -/
def spaceReRanges : List (Nat × Nat) := [(9, 13), (28, 32), (133, 133), (160, 160), (5760, 5760), (8192, 8202), (8232, 8233), (8239, 8239), (8287, 8287), (12288, 12288)]
/-- Packed data for digitReRanges: two characters per entry (lo, hi). -/
def digitReRangesData : String :=
  "09٠٩۰۹߀߉०९০৯੦੯૦૯୦୯௦௯౦౯೦೯൦൯෦෯๐๙໐໙༠༩၀၉႐႙០៩᠐᠙᥆᥏᧐᧙᪀᪉᪐᪙᭐᭙᮰᮹᱀᱉᱐᱙꘠꘩꣐꣙꤀꤉꧐꧙꧰꧹꩐꩙꯰꯹０９𐒠𐒩𐴰𐴹𑁦𑁯𑃰𑃹𑄶𑄿𑇐𑇙𑋰𑋹𑑐𑑙𑓐𑓙𑙐𑙙𑛀𑛉𑜰𑜹𑣠𑣩𑥐𑥙𑱐𑱙𑵐𑵙𑶠𑶩𖩠𖩩𖫀𖫉𖭐𖭙𝟎𝟿𞅀𞅉𞋰𞋹𞥐𞥙🯰🯹"

/-- Codepoints matched by Python re backslash-d, as sorted inclusive ranges. -/
def digitReRanges : List (Nat × Nat) := decodeDoubles digitReRangesData
/-- Codepoints where Python str.isspace is true, as sorted inclusive ranges. -/
def isspaceRanges : List (Nat × Nat) := [(9, 13), (28, 32), (133, 133), (160, 160), (5760, 5760), (8192, 8202), (8232, 8233), (8239, 8239), (8287, 8287), (12288, 12288)]
/-- Packed data for isalphaRanges: two characters per entry (lo, hi). -/
def isalphaRangesData : String :=
  "AZazªªµµººÀÖØöøˁˆˑˠˤˬˬˮˮͰʹͶͷͺͽͿͿΆΆΈΊΌΌΎΡΣϵϷҁҊԯԱՖՙՙՠֈאתׯײؠيٮٯٱۓەەۥۦۮۯۺۼۿۿܐܐܒܯݍޥޱޱߊߪߴߵߺߺࠀࠕࠚࠚࠤࠤࠨࠨࡀࡘࡠࡪࡰࢇࢉࢎࢠࣉऄहऽऽॐॐक़ॡॱঀঅঌএঐওনপরললশহঽঽৎৎড়ঢ়য়ৡৰৱৼৼਅਊਏਐਓਨਪਰਲਲ਼ਵਸ਼ਸਹਖ਼ੜਫ਼ਫ਼ੲੴઅઍએઑઓનપરલળવહઽઽૐૐૠૡૹૹଅଌଏଐଓନପରଲଳଵହଽଽଡ଼ଢ଼ୟୡୱୱஃஃஅஊஎஐஒகஙசஜஜஞடணதநபமஹௐௐఅఌఎఐఒనపహఽఽౘౚౝౝౠౡಀಀಅಌಎಐಒನಪಳವಹಽಽೝೞೠೡೱೲഄഌഎഐഒഺഽഽൎൎൔൖൟൡൺൿඅඖකනඳරලලවෆกะาำเๆກຂຄຄຆຊຌຣລລວະາຳຽຽເໄໆໆໜໟༀༀཀཇཉཬྈྌကဪဿဿၐၕၚၝၡၡၥၦၮၰၵႁႎႎႠჅჇჇჍჍაჺჼቈቊቍቐቖቘቘቚቝበኈኊኍነኰኲኵኸኾዀዀዂዅወዖዘጐጒጕጘፚᎀᎏᎠᏵᏸᏽᐁᙬᙯᙿᚁᚚᚠᛪᛱᛸᜀᜑᜟᜱᝀᝑᝠᝬᝮᝰកឳៗៗៜៜᠠᡸᢀᢄᢇᢨᢪᢪᢰᣵᤀᤞᥐᥭᥰᥴᦀᦫᦰᧉᨀᨖᨠᩔᪧᪧᬅᬳᭅᭌᮃᮠᮮᮯᮺᯥᰀᰣᱍᱏᱚᱽᲀᲈᲐᲺᲽᲿᳩᳬᳮᳳᳵᳶᳺᳺᴀᶿḀἕἘἝἠὅὈὍὐὗὙὙὛὛὝὝὟώᾀᾴᾶᾼιιῂῄῆῌῐΐῖΊῠῬῲῴῶῼⁱⁱⁿⁿₐₜℂℂℇℇℊℓℕℕℙℝℤℤΩΩℨℨKℭℯℹℼℿⅅⅉⅎⅎↃↄⰀⳤⳫⳮⳲⳳⴀⴥⴧⴧⴭⴭⴰⵧⵯⵯⶀⶖⶠⶦⶨⶮⶰⶶⶸⶾⷀⷆⷈⷎⷐⷖⷘⷞⸯⸯ々〆〱〵〻〼ぁゖゝゟァヺーヿㄅㄯㄱㆎㆠㆿㇰㇿ㐀䶿一ꒌꓐꓽꔀꘌꘐꘟꘪꘫꙀꙮꙿꚝꚠꛥꜗꜟꜢꞈꞋꟊꟐꟑꟓꟓꟕꟙꟲꠁꠃꠅꠇꠊꠌꠢꡀꡳꢂꢳꣲꣷꣻꣻꣽꣾꤊꤥꤰꥆꥠꥼꦄꦲꧏꧏꧠꧤꧦꧯꧺꧾꨀꨨꩀꩂꩄꩋꩠꩶꩺꩺꩾꪯꪱꪱꪵꪶꪹꪽꫀꫀꫂꫂꫛꫝꫠꫪꫲꫴꬁꬆꬉꬎꬑꬖꬠꬦꬨꬮꬰꭚꭜꭩꭰꯢ가힣ힰퟆퟋퟻ豈舘並龎ﬀﬆﬓﬗיִיִײַﬨשׁזּטּלּמּמּנּסּףּפּצּﮱﯓﴽﵐﶏﶒﷇﷰﷻﹰﹴﹶﻼＡＺａｚｦﾾￂￇￊￏￒￗￚￜ𐀀𐀋𐀍𐀦𐀨𐀺𐀼𐀽𐀿𐁍𐁐𐁝𐂀𐃺𐊀𐊜𐊠𐋐𐌀𐌟𐌭𐍀𐍂𐍉𐍐𐍵𐎀𐎝𐎠𐏃𐏈𐏏𐐀𐒝𐒰𐓓𐓘𐓻𐔀𐔧𐔰𐕣𐕰𐕺𐕼𐖊𐖌𐖒𐖔𐖕𐖗𐖡𐖣𐖱𐖳𐖹𐖻𐖼𐘀𐜶𐝀𐝕𐝠𐝧𐞀𐞅𐞇𐞰𐞲𐞺𐠀𐠅𐠈𐠈𐠊𐠵𐠷𐠸𐠼𐠼𐠿𐡕𐡠𐡶𐢀𐢞𐣠𐣲𐣴𐣵𐤀𐤕𐤠𐤹𐦀𐦷𐦾𐦿𐨀𐨀𐨐𐨓𐨕𐨗𐨙𐨵𐩠𐩼𐪀𐪜𐫀𐫇𐫉𐫤𐬀𐬵𐭀𐭕𐭠𐭲𐮀𐮑𐰀𐱈𐲀𐲲𐳀𐳲𐴀𐴣𐺀𐺩𐺰𐺱𐼀𐼜𐼧𐼧𐼰𐽅𐽰𐾁𐾰𐿄𐿠𐿶𑀃𑀷𑁱𑁲𑁵𑁵𑂃𑂯𑃐𑃨𑄃𑄦𑅄𑅄𑅇𑅇𑅐𑅲𑅶𑅶𑆃𑆲𑇁𑇄𑇚𑇚𑇜𑇜𑈀𑈑𑈓𑈫𑊀𑊆𑊈𑊈𑊊𑊍𑊏𑊝𑊟𑊨𑊰𑋞𑌅𑌌𑌏𑌐𑌓𑌨𑌪𑌰𑌲𑌳𑌵𑌹𑌽𑌽𑍐𑍐𑍝𑍡𑐀𑐴𑑇𑑊𑑟𑑡𑒀𑒯𑓄𑓅𑓇𑓇𑖀𑖮𑗘𑗛𑘀𑘯𑙄𑙄𑚀𑚪𑚸𑚸𑜀𑜚𑝀𑝆𑠀𑠫𑢠𑣟𑣿𑤆𑤉𑤉𑤌𑤓𑤕𑤖𑤘𑤯𑤿𑤿𑥁𑥁𑦠𑦧𑦪𑧐𑧡𑧡𑧣𑧣𑨀𑨀𑨋𑨲𑨺𑨺𑩐𑩐𑩜𑪉𑪝𑪝𑪰𑫸𑰀𑰈𑰊𑰮𑱀𑱀𑱲𑲏𑴀𑴆𑴈𑴉𑴋𑴰𑵆𑵆𑵠𑵥𑵧𑵨𑵪𑶉𑶘𑶘𑻠𑻲𑾰𑾰𒀀𒎙𒒀𒕃𒾐𒿰𓀀𓐮𔐀𔙆𖠀𖨸𖩀𖩞𖩰𖪾𖫐𖫭𖬀𖬯𖭀𖭃𖭣𖭷𖭽𖮏𖹀𖹿𖼀𖽊𖽐𖽐𖾓𖾟𖿠𖿡𖿣𖿣𗀀𘟷𘠀𘳕𘴀𘴈𚿰𚿳𚿵𚿻𚿽𚿾𛀀𛄢𛅐𛅒𛅤𛅧𛅰𛋻𛰀𛱪𛱰𛱼𛲀𛲈𛲐𛲙𝐀𝑔𝑖𝒜𝒞𝒟𝒢𝒢𝒥𝒦𝒩𝒬𝒮𝒹𝒻𝒻𝒽𝓃𝓅𝔅𝔇𝔊𝔍𝔔𝔖𝔜𝔞𝔹𝔻𝔾𝕀𝕄𝕆𝕆𝕊𝕐𝕒𝚥𝚨𝛀𝛂𝛚𝛜𝛺𝛼𝜔𝜖𝜴𝜶𝝎𝝐𝝮𝝰𝞈𝞊𝞨𝞪𝟂𝟄𝟋𝼀𝼞𞄀𞄬𞄷𞄽𞅎𞅎𞊐𞊭𞋀𞋫𞟠𞟦𞟨𞟫𞟭𞟮𞟰𞟾𞠀𞣄𞤀𞥃𞥋𞥋𞸀𞸃𞸅𞸟𞸡𞸢𞸤𞸤𞸧𞸧𞸩𞸲𞸴𞸷𞸹𞸹𞸻𞸻𞹂𞹂𞹇𞹇𞹉𞹉𞹋𞹋𞹍𞹏𞹑𞹒𞹔𞹔𞹗𞹗𞹙𞹙𞹛𞹛𞹝𞹝𞹟𞹟𞹡𞹢𞹤𞹤𞹧𞹪𞹬𞹲𞹴𞹷𞹹𞹼𞹾𞹾𞺀𞺉𞺋𞺛𞺡𞺣𞺥𞺩𞺫𞺻𠀀𪛟𪜀𫜸𫝀𫠝𫠠𬺡𬺰𮯠丽𪘀𰀀𱍊"

/-- Codepoints where Python str.isalpha is true, as sorted inclusive ranges. -/
def isalphaRanges : List (Nat × Nat) := decodeDoubles isalphaRangesData
/-- Packed data for isalnumRanges: two characters per entry (lo, hi). -/
def isalnumRangesData : String :=
  "09AZazªª²³µµ¹º¼¾ÀÖØöøˁˆˑˠˤˬˬˮˮͰʹͶͷͺͽͿͿΆΆΈΊΌΌΎΡΣϵϷҁҊԯԱՖՙՙՠֈאתׯײؠي٠٩ٮٯٱۓەەۥۦۮۼۿۿܐܐܒܯݍޥޱޱ߀ߪߴߵߺߺࠀࠕࠚࠚࠤࠤࠨࠨࡀࡘࡠࡪࡰࢇࢉࢎࢠࣉऄहऽऽॐॐक़ॡ०९ॱঀঅঌএঐওনপরললশহঽঽৎৎড়ঢ়য়ৡ০ৱ৴৹ৼৼਅਊਏਐਓਨਪਰਲਲ਼ਵਸ਼ਸਹਖ਼ੜਫ਼ਫ਼੦੯ੲੴઅઍએઑઓનપરલળવહઽઽૐૐૠૡ૦૯ૹૹଅଌଏଐଓନପରଲଳଵହଽଽଡ଼ଢ଼ୟୡ୦୯ୱ୷ஃஃஅஊஎஐஒகஙசஜஜஞடணதநபமஹௐௐ௦௲అఌఎఐఒనపహఽఽౘౚౝౝౠౡ౦౯౸౾ಀಀಅಌಎಐಒನಪಳವಹಽಽೝೞೠೡ೦೯ೱೲഄഌഎഐഒഺഽഽൎൎൔൖ൘ൡ൦൸ൺൿඅඖකනඳරලලවෆ෦෯กะาำเๆ๐๙ກຂຄຄຆຊຌຣລລວະາຳຽຽເໄໆໆ໐໙ໜໟༀༀ༠༳ཀཇཉཬྈྌကဪဿ၉ၐၕၚၝၡၡၥၦၮၰၵႁႎႎ႐႙ႠჅჇჇჍჍაჺჼቈቊቍቐቖቘቘቚቝበኈኊኍነኰኲኵኸኾዀዀዂዅወዖዘጐጒጕጘፚ፩፼ᎀᎏᎠᏵᏸᏽᐁᙬᙯᙿᚁᚚᚠᛪᛮᛸᜀᜑᜟᜱᝀᝑᝠᝬᝮᝰកឳៗៗៜៜ០៩៰៹᠐᠙ᠠᡸᢀᢄᢇᢨᢪᢪᢰᣵᤀᤞ᥆ᥭᥰᥴᦀᦫᦰᧉ᧐᧚ᨀᨖᨠᩔ᪀᪉᪐᪙ᪧᪧᬅᬳᭅᭌ᭐᭙ᮃᮠᮮᯥᰀᰣ᱀᱉ᱍᱽᲀᲈᲐᲺᲽᲿᳩᳬᳮᳳᳵᳶᳺᳺᴀᶿḀἕἘἝἠὅὈὍὐὗὙὙὛὛὝὝὟώᾀᾴᾶᾼιιῂῄῆῌῐΐῖΊῠῬῲῴῶῼ⁰ⁱ⁴⁹ⁿ₉ₐₜℂℂℇℇℊℓℕℕℙℝℤℤΩΩℨℨKℭℯℹℼℿⅅⅉⅎⅎ⅐↉①⒛⓪⓿❶➓ⰀⳤⳫⳮⳲⳳ⳽⳽ⴀⴥⴧⴧⴭⴭⴰⵧⵯⵯⶀⶖⶠⶦⶨⶮⶰⶶⶸⶾⷀⷆⷈⷎⷐⷖⷘⷞⸯⸯ々〇〡〩〱〵〸〼ぁゖゝゟァヺーヿㄅㄯㄱㆎ㆒㆕ㆠㆿㇰㇿ㈠㈩㉈㉏㉑㉟㊀㊉㊱㊿㐀䶿一ꒌꓐꓽꔀꘌꘐꘫꙀꙮꙿꚝꚠꛯꜗꜟꜢꞈꞋꟊꟐꟑꟓꟓꟕꟙꟲꠁꠃꠅꠇꠊꠌꠢ꠰꠵ꡀꡳꢂꢳ꣐꣙ꣲꣷꣻꣻꣽꣾ꤀ꤥꤰꥆꥠꥼꦄꦲꧏ꧙ꧠꧤꧦꧾꨀꨨꩀꩂꩄꩋ꩐꩙ꩠꩶꩺꩺꩾꪯꪱꪱꪵꪶꪹꪽꫀꫀꫂꫂꫛꫝꫠꫪꫲꫴꬁꬆꬉꬎꬑꬖꬠꬦꬨꬮꬰꭚꭜꭩꭰꯢ꯰꯹가힣ힰퟆퟋퟻ豈舘並龎ﬀﬆﬓﬗיִיִײַﬨשׁזּטּלּמּמּנּסּףּפּצּﮱﯓﴽﵐﶏﶒﷇﷰﷻﹰﹴﹶﻼ０９ＡＺａｚｦﾾￂￇￊￏￒￗￚￜ𐀀𐀋𐀍𐀦𐀨𐀺𐀼𐀽𐀿𐁍𐁐𐁝𐂀𐃺𐄇𐄳𐅀𐅸𐆊𐆋𐊀𐊜𐊠𐋐𐋡𐋻𐌀𐌣𐌭𐍊𐍐𐍵𐎀𐎝𐎠𐏃𐏈𐏏𐏑𐏕𐐀𐒝𐒠𐒩𐒰𐓓𐓘𐓻𐔀𐔧𐔰𐕣𐕰𐕺𐕼𐖊𐖌𐖒𐖔𐖕𐖗𐖡𐖣𐖱𐖳𐖹𐖻𐖼𐘀𐜶𐝀𐝕𐝠𐝧𐞀𐞅𐞇𐞰𐞲𐞺𐠀𐠅𐠈𐠈𐠊𐠵𐠷𐠸𐠼𐠼𐠿𐡕𐡘𐡶𐡹𐢞𐢧𐢯𐣠𐣲𐣴𐣵𐣻𐤛𐤠𐤹𐦀𐦷𐦼𐧏𐧒𐨀𐨐𐨓𐨕𐨗𐨙𐨵𐩀𐩈𐩠𐩾𐪀𐪟𐫀𐫇𐫉𐫤𐫫𐫯𐬀𐬵𐭀𐭕𐭘𐭲𐭸𐮑𐮩𐮯𐰀𐱈𐲀𐲲𐳀𐳲𐳺𐴣𐴰𐴹𐹠𐹾𐺀𐺩𐺰𐺱𐼀𐼧𐼰𐽅𐽑𐽔𐽰𐾁𐾰𐿋𐿠𐿶𑀃𑀷𑁒𑁯𑁱𑁲𑁵𑁵𑂃𑂯𑃐𑃨𑃰𑃹𑄃𑄦𑄶𑄿𑅄𑅄𑅇𑅇𑅐𑅲𑅶𑅶𑆃𑆲𑇁𑇄𑇐𑇚𑇜𑇜𑇡𑇴𑈀𑈑𑈓𑈫𑊀𑊆𑊈𑊈𑊊𑊍𑊏𑊝𑊟𑊨𑊰𑋞𑋰𑋹𑌅𑌌𑌏𑌐𑌓𑌨𑌪𑌰𑌲𑌳𑌵𑌹𑌽𑌽𑍐𑍐𑍝𑍡𑐀𑐴𑑇𑑊𑑐𑑙𑑟𑑡𑒀𑒯𑓄𑓅𑓇𑓇𑓐𑓙𑖀𑖮𑗘𑗛𑘀𑘯𑙄𑙄𑙐𑙙𑚀𑚪𑚸𑚸𑛀𑛉𑜀𑜚𑜰𑜻𑝀𑝆𑠀𑠫𑢠𑣲𑣿𑤆𑤉𑤉𑤌𑤓𑤕𑤖𑤘𑤯𑤿𑤿𑥁𑥁𑥐𑥙𑦠𑦧𑦪𑧐𑧡𑧡𑧣𑧣𑨀𑨀𑨋𑨲𑨺𑨺𑩐𑩐𑩜𑪉𑪝𑪝𑪰𑫸𑰀𑰈𑰊𑰮𑱀𑱀𑱐𑱬𑱲𑲏𑴀𑴆𑴈𑴉𑴋𑴰𑵆𑵆𑵐𑵙𑵠𑵥𑵧𑵨𑵪𑶉𑶘𑶘𑶠𑶩𑻠𑻲𑾰𑾰𑿀𑿔𒀀𒎙𒐀𒑮𒒀𒕃𒾐𒿰𓀀𓐮𔐀𔙆𖠀𖨸𖩀𖩞𖩠𖩩𖩰𖪾𖫀𖫉𖫐𖫭𖬀𖬯𖭀𖭃𖭐𖭙𖭛𖭡𖭣𖭷𖭽𖮏𖹀𖺖𖼀𖽊𖽐𖽐𖾓𖾟𖿠𖿡𖿣𖿣𗀀𘟷𘠀𘳕𘴀𘴈𚿰𚿳𚿵𚿻𚿽𚿾𛀀𛄢𛅐𛅒𛅤𛅧𛅰𛋻𛰀𛱪𛱰𛱼𛲀𛲈𛲐𛲙𝋠𝋳𝍠𝍸𝐀𝑔𝑖𝒜𝒞𝒟𝒢𝒢𝒥𝒦𝒩𝒬𝒮𝒹𝒻𝒻𝒽𝓃𝓅𝔅𝔇𝔊𝔍𝔔𝔖𝔜𝔞𝔹𝔻𝔾𝕀𝕄𝕆𝕆𝕊𝕐𝕒𝚥𝚨𝛀𝛂𝛚𝛜𝛺𝛼𝜔𝜖𝜴𝜶𝝎𝝐𝝮𝝰𝞈𝞊𝞨𝞪𝟂𝟄𝟋𝟎𝟿𝼀𝼞𞄀𞄬𞄷𞄽𞅀𞅉𞅎𞅎𞊐𞊭𞋀𞋫𞋰𞋹𞟠𞟦𞟨𞟫𞟭𞟮𞟰𞟾𞠀𞣄𞣇𞣏𞤀𞥃𞥋𞥋𞥐𞥙𞱱𞲫𞲭𞲯𞲱𞲴𞴁𞴭𞴯𞴽𞸀𞸃𞸅𞸟𞸡𞸢𞸤𞸤𞸧𞸧𞸩𞸲𞸴𞸷𞸹𞸹𞸻𞸻𞹂𞹂𞹇𞹇𞹉𞹉𞹋𞹋𞹍𞹏𞹑𞹒𞹔𞹔𞹗𞹗𞹙𞹙𞹛𞹛𞹝𞹝𞹟𞹟𞹡𞹢𞹤𞹤𞹧𞹪𞹬𞹲𞹴𞹷𞹹𞹼𞹾𞹾𞺀𞺉𞺋𞺛𞺡𞺣𞺥𞺩𞺫𞺻🄀🄌🯰🯹𠀀𪛟𪜀𫜸𫝀𫠝𫠠𬺡𬺰𮯠丽𪘀𰀀𱍊"

/-- Codepoints where Python str.isalnum is true, as sorted inclusive ranges. -/
def isalnumRanges : List (Nat × Nat) := decodeDoubles isalnumRangesData
/-- Packed data for isdigitRanges: two characters per entry (lo, hi). -/
def isdigitRangesData : String :=
  "09²³¹¹٠٩۰۹߀߉०९০৯੦੯૦૯୦୯௦௯౦౯೦೯൦൯෦෯๐๙໐໙༠༩၀၉႐႙፩፱០៩᠐᠙᥆᥏᧐᧚᪀᪉᪐᪙᭐᭙᮰᮹᱀᱉᱐᱙⁰⁰⁴⁹₀₉①⑨⑴⑼⒈⒐⓪⓪⓵⓽⓿⓿❶❾➀➈➊➒꘠꘩꣐꣙꤀꤉꧐꧙꧰꧹꩐꩙꯰꯹０９𐒠𐒩𐩀𐩃𐴰𐴹𐹠𐹨𑁒𑁚𑁦𑁯𑃰𑃹𑄶𑄿𑇐𑇙𑋰𑋹𑑐𑑙𑓐𑓙𑙐𑙙𑛀𑛉𑜰𑜹𑣠𑣩𑥐𑥙𑱐𑱙𑵐𑵙𑶠𑶩𖩠𖩩𖫀𖫉𖭐𖭙𝟎𝟿𞅀𞅉𞋰𞋹𞥐𞥙🄀🄊🯰🯹"

/-- Codepoints where Python str.isdigit is true, as sorted inclusive ranges. -/
def isdigitRanges : List (Nat × Nat) := decodeDoubles isdigitRangesData
/-- html._invalid_charrefs from the Python standard library: numeric
    character references mapped to cp1252 characters (codepoint lists). -/
def invalidCharrefs : List (Nat × Str) := [
  (0, [65533]),
  (13, [13]),
  (128, [8364]),
  (129, [129]),
  (130, [8218]),
  (131, [402]),
  (132, [8222]),
  (133, [8230]),
  (134, [8224]),
  (135, [8225]),
  (136, [710]),
  (137, [8240]),
  (138, [352]),
  (139, [8249]),
  (140, [338]),
  (141, [141]),
  (142, [381]),
  (143, [143]),
  (144, [144]),
  (145, [8216]),
  (146, [8217]),
  (147, [8220]),
  (148, [8221]),
  (149, [8226]),
  (150, [8211]),
  (151, [8212]),
  (152, [732]),
  (153, [8482]),
  (154, [353]),
  (155, [8250]),
  (156, [339]),
  (157, [157]),
  (158, [382]),
  (159, [376])]

/-- html._invalid_codepoints from the Python standard library. -/
def invalidCodepoints : List Nat := [1, 2, 3, 4, 5, 6, 7, 8, 11, 14, 15, 16, 17, 18, 19, 20, 21, 22, 23, 24, 25, 26, 27, 28, 29, 30, 31, 127, 128, 129, 130, 131, 132, 133, 134, 135, 136, 137, 138, 139, 140, 141, 142, 143, 144, 145, 146, 147, 148, 149, 150, 151, 152, 153, 154, 155, 156, 157, 158, 159, 64976, 64977, 64978, 64979, 64980, 64981, 64982, 64983, 64984, 64985, 64986, 64987, 64988, 64989, 64990, 64991, 64992, 64993, 64994, 64995, 64996, 64997, 64998, 64999, 65000, 65001, 65002, 65003, 65004, 65005, 65006, 65007, 65534, 65535, 131070, 131071, 196606, 196607, 262142, 262143, 327678, 327679, 393214, 393215, 458750, 458751, 524286, 524287, 589822, 589823, 655358, 655359, 720894, 720895, 786430, 786431, 851966, 851967, 917502, 917503, 983038, 983039, 1048574, 1048575, 1114110, 1114111]
/-- Packed data for html5Table. -/
def html5TableData : String :=
  "Aacute\x01Á\x00aacute\x01á\x00Aacute;\x01Á\x00aacute;\x01á\x00Abreve;\x01Ă\x00abreve;\x01ă\x00ac;\x01∾\x00acd;\x01∿\x00acE;\x01∾̳\x00Acirc\x01Â\x00acirc\x01â\x00Acirc;\x01Â\x00acirc;\x01â\x00acute\x01´\x00acute;\x01´\x00Acy;\x01А\x00acy;\x01а\x00AElig\x01Æ\x00aelig\x01æ\x00AElig;\x01Æ\x00aelig;\x01æ\x00af;\x01⁡\x00Afr;\x01𝔄\x00afr;\x01𝔞\x00Agrave\x01À\x00agrave\x01à\x00Agrave;\x01À\x00agrave;\x01à\x00alefsym;\x01ℵ\x00aleph;\x01ℵ\x00Alpha;\x01Α\x00alpha;\x01α\x00Amacr;\x01Ā\x00amacr;\x01ā\x00amalg;\x01⨿\x00AMP\x01&\x00amp\x01&\x00AMP;\x01&\x00amp;\x01&\x00And;\x01⩓\x00and;\x01∧\x00andand;\x01⩕\x00andd;\x01⩜\x00andslope;\x01⩘\x00andv;\x01⩚\x00ang;\x01∠\x00ange;\x01⦤\x00angle;\x01∠\x00angmsd;\x01∡\x00angmsdaa;\x01⦨\x00angmsdab;\x01⦩\x00angmsdac;\x01⦪\x00angmsdad;\x01⦫\x00angmsdae;\x01⦬\x00angmsdaf;\x01⦭\x00angmsdag;\x01⦮\x00angmsdah;\x01⦯\x00angrt;\x01∟\x00angrtvb;\x01⊾\x00angrtvbd;\x01⦝\x00angsph;\x01∢\x00angst;\x01Å\x00angzarr;\x01⍼\x00Aogon;\x01Ą\x00aogon;\x01ą\x00Aopf;\x01𝔸\x00aopf;\x01𝕒\x00ap;\x01≈\x00apacir;\x01⩯\x00apE;\x01⩰\x00ape;\x01≊\x00apid;\x01≋\x00apos;\x01\x27\x00ApplyFunction;\x01⁡\x00approx;\x01≈\x00approxeq;\x01≊\x00Aring\x01Å\x00aring\x01å\x00Aring;\x01Å\x00aring;\x01å\x00Ascr;\x01𝒜\x00ascr;\x01𝒶\x00Assign;\x01≔\x00ast;\x01*\x00asymp;\x01≈\x00asympeq;\x01≍\x00Atilde\x01Ã\x00atilde\x01ã\x00Atilde;\x01Ã\x00atilde;\x01ã\x00Auml\x01Ä\x00auml\x01ä\x00Auml;\x01Ä\x00auml;\x01ä\x00awconint;\x01∳\x00awint;\x01⨑\x00backcong;\x01≌\x00backepsilon;\x01϶\x00backprime;\x01‵\x00backsim;\x01∽\x00backsimeq;\x01⋍\x00Backslash;\x01∖\x00Barv;\x01⫧\x00barvee;\x01⊽\x00Barwed;\x01⌆\x00barwed;\x01⌅\x00barwedge;\x01⌅\x00bbrk;\x01⎵\x00bbrktbrk;\x01⎶\x00bcong;\x01≌\x00Bcy;\x01Б\x00bcy;\x01б\x00bdquo;\x01„\x00becaus;\x01∵\x00Because;\x01∵\x00because;\x01∵\x00bemptyv;\x01⦰\x00bepsi;\x01϶\x00bernou;\x01ℬ\x00Bernoullis;\x01ℬ\x00Beta;\x01Β\x00beta;\x01β\x00beth;\x01ℶ\x00between;\x01≬\x00Bfr;\x01𝔅\x00bfr;\x01𝔟\x00bigcap;\x01⋂\x00bigcirc;\x01◯\x00bigcup;\x01⋃\x00bigodot;\x01⨀\x00bigoplus;\x01⨁\x00bigotimes;\x01⨂\x00bigsqcup;\x01⨆\x00bigstar;\x01★\x00bigtriangledown;\x01▽\x00bigtriangleup;\x01△\x00biguplus;\x01⨄\x00bigvee;\x01⋁\x00bigwedge;\x01⋀\x00bkarow;\x01⤍\x00blacklozenge;\x01⧫\x00blacksquare;\x01▪\x00blacktriangle;\x01▴\x00blacktriangledown;\x01▾\x00blacktriangleleft;\x01◂\x00blacktriangleright;\x01▸\x00blank;\x01␣\x00blk12;\x01▒\x00blk14;\x01░\x00blk34;\x01▓\x00block;\x01█\x00bne;\x01=⃥\x00bnequiv;\x01≡⃥\x00bNot;\x01⫭\x00bnot;\x01⌐\x00Bopf;\x01𝔹\x00bopf;\x01𝕓\x00bot;\x01⊥\x00bottom;\x01⊥\x00bowtie;\x01⋈\x00boxbox;\x01⧉\x00boxDL;\x01╗\x00boxDl;\x01╖\x00boxdL;\x01╕\x00boxdl;\x01┐\x00boxDR;\x01╔\x00boxDr;\x01╓\x00boxdR;\x01╒\x00boxdr;\x01┌\x00boxH;\x01═\x00boxh;\x01─\x00boxHD;\x01╦\x00boxHd;\x01╤\x00boxhD;\x01╥\x00boxhd;\x01┬\x00boxHU;\x01╩\x00boxHu;\x01╧\x00boxhU;\x01╨\x00boxhu;\x01┴\x00boxminus;\x01⊟\x00boxplus;\x01⊞\x00boxtimes;\x01⊠\x00boxUL;\x01╝\x00boxUl;\x01╜\x00boxuL;\x01╛\x00boxul;\x01┘\x00boxUR;\x01╚\x00boxUr;\x01╙\x00boxuR;\x01╘\x00boxur;\x01└\x00boxV;\x01║\x00boxv;\x01│\x00boxVH;\x01╬\x00boxVh;\x01╫\x00boxvH;\x01╪\x00boxvh;\x01┼\x00boxVL;\x01╣\x00boxVl;\x01╢\x00boxvL;\x01╡\x00boxvl;\x01┤\x00boxVR;\x01╠\x00boxVr;\x01╟\x00boxvR;\x01╞\x00boxvr;\x01├\x00bprime;\x01‵\x00Breve;\x01˘\x00breve;\x01˘\x00brvbar\x01¦\x00brvbar;\x01¦\x00Bscr;\x01ℬ\x00bscr;\x01𝒷\x00bsemi;\x01⁏\x00bsim;\x01∽\x00bsime;\x01⋍\x00bsol;\x01\\\x00bsolb;\x01⧅\x00bsolhsub;\x01⟈\x00bull;\x01•\x00bullet;\x01•\x00bump;\x01≎\x00bumpE;\x01⪮\x00bumpe;\x01≏\x00Bumpeq;\x01≎\x00bumpeq;\x01≏\x00Cacute;\x01Ć\x00cacute;\x01ć\x00Cap;\x01⋒\x00cap;\x01∩\x00capand;\x01⩄\x00capbrcup;\x01⩉\x00capcap;\x01⩋\x00capcup;\x01⩇\x00capdot;\x01⩀\x00CapitalDifferentialD;\x01ⅅ\x00caps;\x01∩︀\x00caret;\x01⁁\x00caron;\x01ˇ\x00Cayleys;\x01ℭ\x00ccaps;\x01⩍\x00Ccaron;\x01Č\x00ccaron;\x01č\x00Ccedil\x01Ç\x00ccedil\x01ç\x00Ccedil;\x01Ç\x00ccedil;\x01ç\x00Ccirc;\x01Ĉ\x00ccirc;\x01ĉ\x00Cconint;\x01∰\x00ccups;\x01⩌\x00ccupssm;\x01⩐\x00Cdot;\x01Ċ\x00cdot;\x01ċ\x00cedil\x01¸\x00cedil;\x01¸\x00Cedilla;\x01¸\x00cemptyv;\x01⦲\x00cent\x01¢\x00cent;\x01¢\x00CenterDot;\x01·\x00centerdot;\x01·\x00Cfr;\x01ℭ\x00cfr;\x01𝔠\x00CHcy;\x01Ч\x00chcy;\x01ч\x00check;\x01✓\x00checkmark;\x01✓\x00Chi;\x01Χ\x00chi;\x01χ\x00cir;\x01○\x00circ;\x01ˆ\x00circeq;\x01≗\x00circlearrowleft;\x01↺\x00circlearrowright;\x01↻\x00circledast;\x01⊛\x00circledcirc;\x01⊚\x00circleddash;\x01⊝\x00CircleDot;\x01⊙\x00circledR;\x01®\x00circledS;\x01Ⓢ\x00CircleMinus;\x01⊖\x00CirclePlus;\x01⊕\x00CircleTimes;\x01⊗\x00cirE;\x01⧃\x00cire;\x01≗\x00cirfnint;\x01⨐\x00cirmid;\x01⫯\x00cirscir;\x01⧂\x00ClockwiseContourIntegral;\x01∲\x00CloseCurlyDoubleQuote;\x01”\x00CloseCurlyQuote;\x01’\x00clubs;\x01♣\x00clubsuit;\x01♣\x00Colon;\x01∷\x00colon;\x01:\x00Colone;\x01⩴\x00colone;\x01≔\x00coloneq;\x01≔\x00comma;\x01,\x00commat;\x01@\x00comp;\x01∁\x00compfn;\x01∘\x00complement;\x01∁\x00complexes;\x01ℂ\x00cong;\x01≅\x00congdot;\x01⩭\x00Congruent;\x01≡\x00Conint;\x01∯\x00conint;\x01∮\x00ContourIntegral;\x01∮\x00Copf;\x01ℂ\x00copf;\x01𝕔\x00coprod;\x01∐\x00Coproduct;\x01∐\x00COPY\x01©\x00copy\x01©\x00COPY;\x01©\x00copy;\x01©\x00copysr;\x01℗\x00CounterClockwiseContourIntegral;\x01∳\x00crarr;\x01↵\x00Cross;\x01⨯\x00cross;\x01✗\x00Cscr;\x01𝒞\x00cscr;\x01𝒸\x00csub;\x01⫏\x00csube;\x01⫑\x00csup;\x01⫐\x00csupe;\x01⫒\x00ctdot;\x01⋯\x00cudarrl;\x01⤸\x00cudarrr;\x01⤵\x00cuepr;\x01⋞\x00cuesc;\x01⋟\x00cularr;\x01↶\x00cularrp;\x01⤽\x00Cup;\x01⋓\x00cup;\x01∪\x00cupbrcap;\x01⩈\x00CupCap;\x01≍\x00cupcap;\x01⩆\x00cupcup;\x01⩊\x00cupdot;\x01⊍\x00cupor;\x01⩅\x00cups;\x01∪︀\x00curarr;\x01↷\x00curarrm;\x01⤼\x00curlyeqprec;\x01⋞\x00curlyeqsucc;\x01⋟\x00curlyvee;\x01⋎\x00curlywedge;\x01⋏\x00curren\x01¤\x00curren;\x01¤\x00curvearrowleft;\x01↶\x00curvearrowright;\x01↷\x00cuvee;\x01⋎\x00cuwed;\x01⋏\x00cwconint;\x01∲\x00cwint;\x01∱\x00cylcty;\x01⌭\x00Dagger;\x01‡\x00dagger;\x01†\x00daleth;\x01ℸ\x00Darr;\x01↡\x00dArr;\x01⇓\x00darr;\x01↓\x00dash;\x01‐\x00Dashv;\x01⫤\x00dashv;\x01⊣\x00dbkarow;\x01⤏\x00dblac;\x01˝\x00Dcaron;\x01Ď\x00dcaron;\x01ď\x00Dcy;\x01Д\x00dcy;\x01д\x00DD;\x01ⅅ\x00dd;\x01ⅆ\x00ddagger;\x01‡\x00ddarr;\x01⇊\x00DDotrahd;\x01⤑\x00ddotseq;\x01⩷\x00deg\x01°\x00deg;\x01°\x00Del;\x01∇\x00Delta;\x01Δ\x00delta;\x01δ\x00demptyv;\x01⦱\x00dfisht;\x01⥿\x00Dfr;\x01𝔇\x00dfr;\x01𝔡\x00dHar;\x01⥥\x00dharl;\x01⇃\x00dharr;\x01⇂\x00DiacriticalAcute;\x01´\x00DiacriticalDot;\x01˙\x00DiacriticalDoubleAcute;\x01˝\x00DiacriticalGrave;\x01`\x00DiacriticalTilde;\x01˜\x00diam;\x01⋄\x00Diamond;\x01⋄\x00diamond;\x01⋄\x00diamondsuit;\x01♦\x00diams;\x01♦\x00die;\x01¨\x00DifferentialD;\x01ⅆ\x00digamma;\x01ϝ\x00disin;\x01⋲\x00div;\x01÷\x00divide\x01÷\x00divide;\x01÷\x00divideontimes;\x01⋇\x00divonx;\x01⋇\x00DJcy;\x01Ђ\x00djcy;\x01ђ\x00dlcorn;\x01⌞\x00dlcrop;\x01⌍\x00dollar;\x01$\x00Dopf;\x01𝔻\x00dopf;\x01𝕕\x00Dot;\x01¨\x00dot;\x01˙\x00DotDot;\x01⃜\x00doteq;\x01≐\x00doteqdot;\x01≑\x00DotEqual;\x01≐\x00dotminus;\x01∸\x00dotplus;\x01∔\x00dotsquare;\x01⊡\x00doublebarwedge;\x01⌆\x00DoubleContourIntegral;\x01∯\x00DoubleDot;\x01¨\x00DoubleDownArrow;\x01⇓\x00DoubleLeftArrow;\x01⇐\x00DoubleLeftRightArrow;\x01⇔\x00DoubleLeftTee;\x01⫤\x00DoubleLongLeftArrow;\x01⟸\x00DoubleLongLeftRightArrow;\x01⟺\x00DoubleLongRightArrow;\x01⟹\x00DoubleRightArrow;\x01⇒\x00DoubleRightTee;\x01⊨\x00DoubleUpArrow;\x01⇑\x00DoubleUpDownArrow;\x01⇕\x00DoubleVerticalBar;\x01∥\x00DownArrow;\x01↓\x00Downarrow;\x01⇓\x00downarrow;\x01↓\x00DownArrowBar;\x01⤓\x00DownArrowUpArrow;\x01⇵\x00DownBreve;\x01̑\x00downdownarrows;\x01⇊\x00downharpoonleft;\x01⇃\x00downharpoonright;\x01⇂\x00DownLeftRightVector;\x01⥐\x00DownLeftTeeVector;\x01⥞\x00DownLeftVector;\x01↽\x00DownLeftVectorBar;\x01⥖\x00DownRightTeeVector;\x01⥟\x00DownRightVector;\x01⇁\x00DownRightVectorBar;\x01⥗\x00DownTee;\x01⊤\x00DownTeeArrow;\x01↧\x00drbkarow;\x01⤐\x00drcorn;\x01⌟\x00drcrop;\x01⌌\x00Dscr;\x01𝒟\x00dscr;\x01𝒹\x00DScy;\x01Ѕ\x00dscy;\x01ѕ\x00dsol;\x01⧶\x00Dstrok;\x01Đ\x00dstrok;\x01đ\x00dtdot;\x01⋱\x00dtri;\x01▿\x00dtrif;\x01▾\x00duarr;\x01⇵\x00duhar;\x01⥯\x00dwangle;\x01⦦\x00DZcy;\x01Џ\x00dzcy;\x01џ\x00dzigrarr;\x01⟿\x00Eacute\x01É\x00eacute\x01é\x00Eacute;\x01É\x00eacute;\x01é\x00easter;\x01⩮\x00Ecaron;\x01Ě\x00ecaron;\x01ě\x00ecir;\x01≖\x00Ecirc\x01Ê\x00ecirc\x01ê\x00Ecirc;\x01Ê\x00ecirc;\x01ê\x00ecolon;\x01≕\x00Ecy;\x01Э\x00ecy;\x01э\x00eDDot;\x01⩷\x00Edot;\x01Ė\x00eDot;\x01≑\x00edot;\x01ė\x00ee;\x01ⅇ\x00efDot;\x01≒\x00Efr;\x01𝔈\x00efr;\x01𝔢\x00eg;\x01⪚\x00Egrave\x01È\x00egrave\x01è\x00Egrave;\x01È\x00egrave;\x01è\x00egs;\x01⪖\x00egsdot;\x01⪘\x00el;\x01⪙\x00Element;\x01∈\x00elinters;\x01⏧\x00ell;\x01ℓ\x00els;\x01⪕\x00elsdot;\x01⪗\x00Emacr;\x01Ē\x00emacr;\x01ē\x00empty;\x01∅\x00emptyset;\x01∅\x00EmptySmallSquare;\x01◻\x00emptyv;\x01∅\x00EmptyVerySmallSquare;\x01▫\x00emsp13;\x01 \x00emsp14;\x01 \x00emsp;\x01 \x00ENG;\x01Ŋ\x00eng;\x01ŋ\x00ensp;\x01 \x00Eogon;\x01Ę\x00eogon;\x01ę\x00Eopf;\x01𝔼\x00eopf;\x01𝕖\x00epar;\x01⋕\x00eparsl;\x01⧣\x00eplus;\x01⩱\x00epsi;\x01ε\x00Epsilon;\x01Ε\x00epsilon;\x01ε\x00epsiv;\x01ϵ\x00eqcirc;\x01≖\x00eqcolon;\x01≕\x00eqsim;\x01≂\x00eqslantgtr;\x01⪖\x00eqslantless;\x01⪕\x00Equal;\x01⩵\x00equals;\x01=\x00EqualTilde;\x01≂\x00equest;\x01≟\x00Equilibrium;\x01⇌\x00equiv;\x01≡\x00equivDD;\x01⩸\x00eqvparsl;\x01⧥\x00erarr;\x01⥱\x00erDot;\x01≓\x00Escr;\x01ℰ\x00escr;\x01ℯ\x00esdot;\x01≐\x00Esim;\x01⩳\x00esim;\x01≂\x00Eta;\x01Η\x00eta;\x01η\x00ETH\x01Ð\x00eth\x01ð\x00ETH;\x01Ð\x00eth;\x01ð\x00Euml\x01Ë\x00euml\x01ë\x00Euml;\x01Ë\x00euml;\x01ë\x00euro;\x01€\x00excl;\x01!\x00exist;\x01∃\x00Exists;\x01∃\x00expectation;\x01ℰ\x00ExponentialE;\x01ⅇ\x00exponentiale;\x01ⅇ\x00fallingdotseq;\x01≒\x00Fcy;\x01Ф\x00fcy;\x01ф\x00female;\x01♀\x00ffilig;\x01ﬃ\x00fflig;\x01ﬀ\x00ffllig;\x01ﬄ\x00Ffr;\x01𝔉\x00ffr;\x01𝔣\x00filig;\x01ﬁ\x00FilledSmallSquare;\x01◼\x00FilledVerySmallSquare;\x01▪\x00fjlig;\x01fj\x00flat;\x01♭\x00fllig;\x01ﬂ\x00fltns;\x01▱\x00fnof;\x01ƒ\x00Fopf;\x01𝔽\x00fopf;\x01𝕗\x00ForAll;\x01∀\x00forall;\x01∀\x00fork;\x01⋔\x00forkv;\x01⫙\x00Fouriertrf;\x01ℱ\x00fpartint;\x01⨍\x00frac12\x01½\x00frac12;\x01½\x00frac13;\x01⅓\x00frac14\x01¼\x00frac14;\x01¼\x00frac15;\x01⅕\x00frac16;\x01⅙\x00frac18;\x01⅛\x00frac23;\x01⅔\x00frac25;\x01⅖\x00frac34\x01¾\x00frac34;\x01¾\x00frac35;\x01⅗\x00frac38;\x01⅜\x00frac45;\x01⅘\x00frac56;\x01⅚\x00frac58;\x01⅝\x00frac78;\x01⅞\x00frasl;\x01⁄\x00frown;\x01⌢\x00Fscr;\x01ℱ\x00fscr;\x01𝒻\x00gacute;\x01ǵ\x00Gamma;\x01Γ\x00gamma;\x01γ\x00Gammad;\x01Ϝ\x00gammad;\x01ϝ\x00gap;\x01⪆\x00Gbreve;\x01Ğ\x00gbreve;\x01ğ\x00Gcedil;\x01Ģ\x00Gcirc;\x01Ĝ\x00gcirc;\x01ĝ\x00Gcy;\x01Г\x00gcy;\x01г\x00Gdot;\x01Ġ\x00gdot;\x01ġ\x00gE;\x01≧\x00ge;\x01≥\x00gEl;\x01⪌\x00gel;\x01⋛\x00geq;\x01≥\x00geqq;\x01≧\x00geqslant;\x01⩾\x00ges;\x01⩾\x00gescc;\x01⪩\x00gesdot;\x01⪀\x00gesdoto;\x01⪂\x00gesdotol;\x01⪄\x00gesl;\x01⋛︀\x00gesles;\x01⪔\x00Gfr;\x01𝔊\x00gfr;\x01𝔤\x00Gg;\x01⋙\x00gg;\x01≫\x00ggg;\x01⋙\x00gimel;\x01ℷ\x00GJcy;\x01Ѓ\x00gjcy;\x01ѓ\x00gl;\x01≷\x00gla;\x01⪥\x00glE;\x01⪒\x00glj;\x01⪤\x00gnap;\x01⪊\x00gnapprox;\x01⪊\x00gnE;\x01≩\x00gne;\x01⪈\x00gneq;\x01⪈\x00gneqq;\x01≩\x00gnsim;\x01⋧\x00Gopf;\x01𝔾\x00gopf;\x01𝕘\x00grave;\x01`\x00GreaterEqual;\x01≥\x00GreaterEqualLess;\x01⋛\x00GreaterFullEqual;\x01≧\x00GreaterGreater;\x01⪢\x00GreaterLess;\x01≷\x00GreaterSlantEqual;\x01⩾\x00GreaterTilde;\x01≳\x00Gscr;\x01𝒢\x00gscr;\x01ℊ\x00gsim;\x01≳\x00gsime;\x01⪎\x00gsiml;\x01⪐\x00GT\x01>\x00gt\x01>\x00GT;\x01>\x00Gt;\x01≫\x00gt;\x01>\x00gtcc;\x01⪧\x00gtcir;\x01⩺\x00gtdot;\x01⋗\x00gtlPar;\x01⦕\x00gtquest;\x01⩼\x00gtrapprox;\x01⪆\x00gtrarr;\x01⥸\x00gtrdot;\x01⋗\x00gtreqless;\x01⋛\x00gtreqqless;\x01⪌\x00gtrless;\x01≷\x00gtrsim;\x01≳\x00gvertneqq;\x01≩︀\x00gvnE;\x01≩︀\x00Hacek;\x01ˇ\x00hairsp;\x01 \x00half;\x01½\x00hamilt;\x01ℋ\x00HARDcy;\x01Ъ\x00hardcy;\x01ъ\x00hArr;\x01⇔\x00harr;\x01↔\x00harrcir;\x01⥈\x00harrw;\x01↭\x00Hat;\x01^\x00hbar;\x01ℏ\x00Hcirc;\x01Ĥ\x00hcirc;\x01ĥ\x00hearts;\x01♥\x00heartsuit;\x01♥\x00hellip;\x01…\x00hercon;\x01⊹\x00Hfr;\x01ℌ\x00hfr;\x01𝔥\x00HilbertSpace;\x01ℋ\x00hksearow;\x01⤥\x00hkswarow;\x01⤦\x00hoarr;\x01⇿\x00homtht;\x01∻\x00hookleftarrow;\x01↩\x00hookrightarrow;\x01↪\x00Hopf;\x01ℍ\x00hopf;\x01𝕙\x00horbar;\x01―\x00HorizontalLine;\x01─\x00Hscr;\x01ℋ\x00hscr;\x01𝒽\x00hslash;\x01ℏ\x00Hstrok;\x01Ħ\x00hstrok;\x01ħ\x00HumpDownHump;\x01≎\x00HumpEqual;\x01≏\x00hybull;\x01⁃\x00hyphen;\x01‐\x00Iacute\x01Í\x00iacute\x01í\x00Iacute;\x01Í\x00iacute;\x01í\x00ic;\x01⁣\x00Icirc\x01Î\x00icirc\x01î\x00Icirc;\x01Î\x00icirc;\x01î\x00Icy;\x01И\x00icy;\x01и\x00Idot;\x01İ\x00IEcy;\x01Е\x00iecy;\x01е\x00iexcl\x01¡\x00iexcl;\x01¡\x00iff;\x01⇔\x00Ifr;\x01ℑ\x00ifr;\x01𝔦\x00Igrave\x01Ì\x00igrave\x01ì\x00Igrave;\x01Ì\x00igrave;\x01ì\x00ii;\x01ⅈ\x00iiiint;\x01⨌\x00iiint;\x01∭\x00iinfin;\x01⧜\x00iiota;\x01℩\x00IJlig;\x01Ĳ\x00ijlig;\x01ĳ\x00Im;\x01ℑ\x00Imacr;\x01Ī\x00imacr;\x01ī\x00image;\x01ℑ\x00ImaginaryI;\x01ⅈ\x00imagline;\x01ℐ\x00imagpart;\x01ℑ\x00imath;\x01ı\x00imof;\x01⊷\x00imped;\x01Ƶ\x00Implies;\x01⇒\x00in;\x01∈\x00incare;\x01℅\x00infin;\x01∞\x00infintie;\x01⧝\x00inodot;\x01ı\x00Int;\x01∬\x00int;\x01∫\x00intcal;\x01⊺\x00integers;\x01ℤ\x00Integral;\x01∫\x00intercal;\x01⊺\x00Intersection;\x01⋂\x00intlarhk;\x01⨗\x00intprod;\x01⨼\x00InvisibleComma;\x01⁣\x00InvisibleTimes;\x01⁢\x00IOcy;\x01Ё\x00iocy;\x01ё\x00Iogon;\x01Į\x00iogon;\x01į\x00Iopf;\x01𝕀\x00iopf;\x01𝕚\x00Iota;\x01Ι\x00iota;\x01ι\x00iprod;\x01⨼\x00iquest\x01¿\x00iquest;\x01¿\x00Iscr;\x01ℐ\x00iscr;\x01𝒾\x00isin;\x01∈\x00isindot;\x01⋵\x00isinE;\x01⋹\x00isins;\x01⋴\x00isinsv;\x01⋳\x00isinv;\x01∈\x00it;\x01⁢\x00Itilde;\x01Ĩ\x00itilde;\x01ĩ\x00Iukcy;\x01І\x00iukcy;\x01і\x00Iuml\x01Ï\x00iuml\x01ï\x00Iuml;\x01Ï\x00iuml;\x01ï\x00Jcirc;\x01Ĵ\x00jcirc;\x01ĵ\x00Jcy;\x01Й\x00jcy;\x01й\x00Jfr;\x01𝔍\x00jfr;\x01𝔧\x00jmath;\x01ȷ\x00Jopf;\x01𝕁\x00jopf;\x01𝕛\x00Jscr;\x01𝒥\x00jscr;\x01𝒿\x00Jsercy;\x01Ј\x00jsercy;\x01ј\x00Jukcy;\x01Є\x00jukcy;\x01є\x00Kappa;\x01Κ\x00kappa;\x01κ\x00kappav;\x01ϰ\x00Kcedil;\x01Ķ\x00kcedil;\x01ķ\x00Kcy;\x01К\x00kcy;\x01к\x00Kfr;\x01𝔎\x00kfr;\x01𝔨\x00kgreen;\x01ĸ\x00KHcy;\x01Х\x00khcy;\x01х\x00KJcy;\x01Ќ\x00kjcy;\x01ќ\x00Kopf;\x01𝕂\x00kopf;\x01𝕜\x00Kscr;\x01𝒦\x00kscr;\x01𝓀\x00lAarr;\x01⇚\x00Lacute;\x01Ĺ\x00lacute;\x01ĺ\x00laemptyv;\x01⦴\x00lagran;\x01ℒ\x00Lambda;\x01Λ\x00lambda;\x01λ\x00Lang;\x01⟪\x00lang;\x01⟨\x00langd;\x01⦑\x00langle;\x01⟨\x00lap;\x01⪅\x00Laplacetrf;\x01ℒ\x00laquo\x01«\x00laquo;\x01«\x00Larr;\x01↞\x00lArr;\x01⇐\x00larr;\x01←\x00larrb;\x01⇤\x00larrbfs;\x01⤟\x00larrfs;\x01⤝\x00larrhk;\x01↩\x00larrlp;\x01↫\x00larrpl;\x01⤹\x00larrsim;\x01⥳\x00larrtl;\x01↢\x00lat;\x01⪫\x00lAtail;\x01⤛\x00latail;\x01⤙\x00late;\x01⪭\x00lates;\x01⪭︀\x00lBarr;\x01⤎\x00lbarr;\x01⤌\x00lbbrk;\x01❲\x00lbrace;\x01\x7b\x00lbrack;\x01[\x00lbrke;\x01⦋\x00lbrksld;\x01⦏\x00lbrkslu;\x01⦍\x00Lcaron;\x01Ľ\x00lcaron;\x01ľ\x00Lcedil;\x01Ļ\x00lcedil;\x01ļ\x00lceil;\x01⌈\x00lcub;\x01\x7b\x00Lcy;\x01Л\x00lcy;\x01л\x00ldca;\x01⤶\x00ldquo;\x01“\x00ldquor;\x01„\x00ldrdhar;\x01⥧\x00ldrushar;\x01⥋\x00ldsh;\x01↲\x00lE;\x01≦\x00le;\x01≤\x00LeftAngleBracket;\x01⟨\x00LeftArrow;\x01←\x00Leftarrow;\x01⇐\x00leftarrow;\x01←\x00LeftArrowBar;\x01⇤\x00LeftArrowRightArrow;\x01⇆\x00leftarrowtail;\x01↢\x00LeftCeiling;\x01⌈\x00LeftDoubleBracket;\x01⟦\x00LeftDownTeeVector;\x01⥡\x00LeftDownVector;\x01⇃\x00LeftDownVectorBar;\x01⥙\x00LeftFloor;\x01⌊\x00leftharpoondown;\x01↽\x00leftharpoonup;\x01↼\x00leftleftarrows;\x01⇇\x00LeftRightArrow;\x01↔\x00Leftrightarrow;\x01⇔\x00leftrightarrow;\x01↔\x00leftrightarrows;\x01⇆\x00leftrightharpoons;\x01⇋\x00leftrightsquigarrow;\x01↭\x00LeftRightVector;\x01⥎\x00LeftTee;\x01⊣\x00LeftTeeArrow;\x01↤\x00LeftTeeVector;\x01⥚\x00leftthreetimes;\x01⋋\x00LeftTriangle;\x01⊲\x00LeftTriangleBar;\x01⧏\x00LeftTriangleEqual;\x01⊴\x00LeftUpDownVector;\x01⥑\x00LeftUpTeeVector;\x01⥠\x00LeftUpVector;\x01↿\x00LeftUpVectorBar;\x01⥘\x00LeftVector;\x01↼\x00LeftVectorBar;\x01⥒\x00lEg;\x01⪋\x00leg;\x01⋚\x00leq;\x01≤\x00leqq;\x01≦\x00leqslant;\x01⩽\x00les;\x01⩽\x00lescc;\x01⪨\x00lesdot;\x01⩿\x00lesdoto;\x01⪁\x00lesdotor;\x01⪃\x00lesg;\x01⋚︀\x00lesges;\x01⪓\x00lessapprox;\x01⪅\x00lessdot;\x01⋖\x00lesseqgtr;\x01⋚\x00lesseqqgtr;\x01⪋\x00LessEqualGreater;\x01⋚\x00LessFullEqual;\x01≦\x00LessGreater;\x01≶\x00lessgtr;\x01≶\x00LessLess;\x01⪡\x00lesssim;\x01≲\x00LessSlantEqual;\x01⩽\x00LessTilde;\x01≲\x00lfisht;\x01⥼\x00lfloor;\x01⌊\x00Lfr;\x01𝔏\x00lfr;\x01𝔩\x00lg;\x01≶\x00lgE;\x01⪑\x00lHar;\x01⥢\x00lhard;\x01↽\x00lharu;\x01↼\x00lharul;\x01⥪\x00lhblk;\x01▄\x00LJcy;\x01Љ\x00ljcy;\x01љ\x00Ll;\x01⋘\x00ll;\x01≪\x00llarr;\x01⇇\x00llcorner;\x01⌞\x00Lleftarrow;\x01⇚\x00llhard;\x01⥫\x00lltri;\x01◺\x00Lmidot;\x01Ŀ\x00lmidot;\x01ŀ\x00lmoust;\x01⎰\x00lmoustache;\x01⎰\x00lnap;\x01⪉\x00lnapprox;\x01⪉\x00lnE;\x01≨\x00lne;\x01⪇\x00lneq;\x01⪇\x00lneqq;\x01≨\x00lnsim;\x01⋦\x00loang;\x01⟬\x00loarr;\x01⇽\x00lobrk;\x01⟦\x00LongLeftArrow;\x01⟵\x00Longleftarrow;\x01⟸\x00longleftarrow;\x01⟵\x00LongLeftRightArrow;\x01⟷\x00Longleftrightarrow;\x01⟺\x00longleftrightarrow;\x01⟷\x00longmapsto;\x01⟼\x00LongRightArrow;\x01⟶\x00Longrightarrow;\x01⟹\x00longrightarrow;\x01⟶\x00looparrowleft;\x01↫\x00looparrowright;\x01↬\x00lopar;\x01⦅\x00Lopf;\x01𝕃\x00lopf;\x01𝕝\x00loplus;\x01⨭\x00lotimes;\x01⨴\x00lowast;\x01∗\x00lowbar;\x01_\x00LowerLeftArrow;\x01↙\x00LowerRightArrow;\x01↘\x00loz;\x01◊\x00lozenge;\x01◊\x00lozf;\x01⧫\x00lpar;\x01(\x00lparlt;\x01⦓\x00lrarr;\x01⇆\x00lrcorner;\x01⌟\x00lrhar;\x01⇋\x00lrhard;\x01⥭\x00lrm;\x01‎\x00lrtri;\x01⊿\x00lsaquo;\x01‹\x00Lscr;\x01ℒ\x00lscr;\x01𝓁\x00Lsh;\x01↰\x00lsh;\x01↰\x00lsim;\x01≲\x00lsime;\x01⪍\x00lsimg;\x01⪏\x00lsqb;\x01[\x00lsquo;\x01‘\x00lsquor;\x01‚\x00Lstrok;\x01Ł\x00lstrok;\x01ł\x00LT\x01<\x00lt\x01<\x00LT;\x01<\x00Lt;\x01≪\x00lt;\x01<\x00ltcc;\x01⪦\x00ltcir;\x01⩹\x00ltdot;\x01⋖\x00lthree;\x01⋋\x00ltimes;\x01⋉\x00ltlarr;\x01⥶\x00ltquest;\x01⩻\x00ltri;\x01◃\x00ltrie;\x01⊴\x00ltrif;\x01◂\x00ltrPar;\x01⦖\x00lurdshar;\x01⥊\x00luruhar;\x01⥦\x00lvertneqq;\x01≨︀\x00lvnE;\x01≨︀\x00macr\x01¯\x00macr;\x01¯\x00male;\x01♂\x00malt;\x01✠\x00maltese;\x01✠\x00Map;\x01⤅\x00map;\x01↦\x00mapsto;\x01↦\x00mapstodown;\x01↧\x00mapstoleft;\x01↤\x00mapstoup;\x01↥\x00marker;\x01▮\x00mcomma;\x01⨩\x00Mcy;\x01М\x00mcy;\x01м\x00mdash;\x01—\x00mDDot;\x01∺\x00measuredangle;\x01∡\x00MediumSpace;\x01 \x00Mellintrf;\x01ℳ\x00Mfr;\x01𝔐\x00mfr;\x01𝔪\x00mho;\x01℧\x00micro\x01µ\x00micro;\x01µ\x00mid;\x01∣\x00midast;\x01*\x00midcir;\x01⫰\x00middot\x01·\x00middot;\x01·\x00minus;\x01−\x00minusb;\x01⊟\x00minusd;\x01∸\x00minusdu;\x01⨪\x00MinusPlus;\x01∓\x00mlcp;\x01⫛\x00mldr;\x01…\x00mnplus;\x01∓\x00models;\x01⊧\x00Mopf;\x01𝕄\x00mopf;\x01𝕞\x00mp;\x01∓\x00Mscr;\x01ℳ\x00mscr;\x01𝓂\x00mstpos;\x01∾\x00Mu;\x01Μ\x00mu;\x01μ\x00multimap;\x01⊸\x00mumap;\x01⊸\x00nabla;\x01∇\x00Nacute;\x01Ń\x00nacute;\x01ń\x00nang;\x01∠⃒\x00nap;\x01≉\x00napE;\x01⩰̸\x00napid;\x01≋̸\x00napos;\x01ŉ\x00napprox;\x01≉\x00natur;\x01♮\x00natural;\x01♮\x00naturals;\x01ℕ\x00nbsp\x01\u00a0\x00nbsp;\x01\u00a0\x00nbump;\x01≎̸\x00nbumpe;\x01≏̸\x00ncap;\x01⩃\x00Ncaron;\x01Ň\x00ncaron;\x01ň\x00Ncedil;\x01Ņ\x00ncedil;\x01ņ\x00ncong;\x01≇\x00ncongdot;\x01⩭̸\x00ncup;\x01⩂\x00Ncy;\x01Н\x00ncy;\x01н\x00ndash;\x01–\x00ne;\x01≠\x00nearhk;\x01⤤\x00neArr;\x01⇗\x00nearr;\x01↗\x00nearrow;\x01↗\x00nedot;\x01≐̸\x00NegativeMediumSpace;\x01​\x00NegativeThickSpace;\x01​\x00NegativeThinSpace;\x01​\x00NegativeVeryThinSpace;\x01​\x00nequiv;\x01≢\x00nesear;\x01⤨\x00nesim;\x01≂̸\x00NestedGreaterGreater;\x01≫\x00NestedLessLess;\x01≪\x00NewLine;\x01\n\x00nexist;\x01∄\x00nexists;\x01∄\x00Nfr;\x01𝔑\x00nfr;\x01𝔫\x00ngE;\x01≧̸\x00nge;\x01≱\x00ngeq;\x01≱\x00ngeqq;\x01≧̸\x00ngeqslant;\x01⩾̸\x00nges;\x01⩾̸\x00nGg;\x01⋙̸\x00ngsim;\x01≵\x00nGt;\x01≫⃒\x00ngt;\x01≯\x00ngtr;\x01≯\x00nGtv;\x01≫̸\x00nhArr;\x01⇎\x00nharr;\x01↮\x00nhpar;\x01⫲\x00ni;\x01∋\x00nis;\x01⋼\x00nisd;\x01⋺\x00niv;\x01∋\x00NJcy;\x01Њ\x00njcy;\x01њ\x00nlArr;\x01⇍\x00nlarr;\x01↚\x00nldr;\x01‥\x00nlE;\x01≦̸\x00nle;\x01≰\x00nLeftarrow;\x01⇍\x00nleftarrow;\x01↚\x00nLeftrightarrow;\x01⇎\x00nleftrightarrow;\x01↮\x00nleq;\x01≰\x00nleqq;\x01≦̸\x00nleqslant;\x01⩽̸\x00nles;\x01⩽̸\x00nless;\x01≮\x00nLl;\x01⋘̸\x00nlsim;\x01≴\x00nLt;\x01≪⃒\x00nlt;\x01≮\x00nltri;\x01⋪\x00nltrie;\x01⋬\x00nLtv;\x01≪̸\x00nmid;\x01∤\x00NoBreak;\x01⁠\x00NonBreakingSpace;\x01\u00a0\x00Nopf;\x01ℕ\x00nopf;\x01𝕟\x00not\x01¬\x00Not;\x01⫬\x00not;\x01¬\x00NotCongruent;\x01≢\x00NotCupCap;\x01≭\x00NotDoubleVerticalBar;\x01∦\x00NotElement;\x01∉\x00NotEqual;\x01≠\x00NotEqualTilde;\x01≂̸\x00NotExists;\x01∄\x00NotGreater;\x01≯\x00NotGreaterEqual;\x01≱\x00NotGreaterFullEqual;\x01≧̸\x00NotGreaterGreater;\x01≫̸\x00NotGreaterLess;\x01≹\x00NotGreaterSlantEqual;\x01⩾̸\x00NotGreaterTilde;\x01≵\x00NotHumpDownHump;\x01≎̸\x00NotHumpEqual;\x01≏̸\x00notin;\x01∉\x00notindot;\x01⋵̸\x00notinE;\x01⋹̸\x00notinva;\x01∉\x00notinvb;\x01⋷\x00notinvc;\x01⋶\x00NotLeftTriangle;\x01⋪\x00NotLeftTriangleBar;\x01⧏̸\x00NotLeftTriangleEqual;\x01⋬\x00NotLess;\x01≮\x00NotLessEqual;\x01≰\x00NotLessGreater;\x01≸\x00NotLessLess;\x01≪̸\x00NotLessSlantEqual;\x01⩽̸\x00NotLessTilde;\x01≴\x00NotNestedGreaterGreater;\x01⪢̸\x00NotNestedLessLess;\x01⪡̸\x00notni;\x01∌\x00notniva;\x01∌\x00notnivb;\x01⋾\x00notnivc;\x01⋽\x00NotPrecedes;\x01⊀\x00NotPrecedesEqual;\x01⪯̸\x00NotPrecedesSlantEqual;\x01⋠\x00NotReverseElement;\x01∌\x00NotRightTriangle;\x01⋫\x00NotRightTriangleBar;\x01⧐̸\x00NotRightTriangleEqual;\x01⋭\x00NotSquareSubset;\x01⊏̸\x00NotSquareSubsetEqual;\x01⋢\x00NotSquareSuperset;\x01⊐̸\x00NotSquareSupersetEqual;\x01⋣\x00NotSubset;\x01⊂⃒\x00NotSubsetEqual;\x01⊈\x00NotSucceeds;\x01⊁\x00NotSucceedsEqual;\x01⪰̸\x00NotSucceedsSlantEqual;\x01⋡\x00NotSucceedsTilde;\x01≿̸\x00NotSuperset;\x01⊃⃒\x00NotSupersetEqual;\x01⊉\x00NotTilde;\x01≁\x00NotTildeEqual;\x01≄\x00NotTildeFullEqual;\x01≇\x00NotTildeTilde;\x01≉\x00NotVerticalBar;\x01∤\x00npar;\x01∦\x00nparallel;\x01∦\x00nparsl;\x01⫽⃥\x00npart;\x01∂̸\x00npolint;\x01⨔\x00npr;\x01⊀\x00nprcue;\x01⋠\x00npre;\x01⪯̸\x00nprec;\x01⊀\x00npreceq;\x01⪯̸\x00nrArr;\x01⇏\x00nrarr;\x01↛\x00nrarrc;\x01⤳̸\x00nrarrw;\x01↝̸\x00nRightarrow;\x01⇏\x00nrightarrow;\x01↛\x00nrtri;\x01⋫\x00nrtrie;\x01⋭\x00nsc;\x01⊁\x00nsccue;\x01⋡\x00nsce;\x01⪰̸\x00Nscr;\x01𝒩\x00nscr;\x01𝓃\x00nshortmid;\x01∤\x00nshortparallel;\x01∦\x00nsim;\x01≁\x00nsime;\x01≄\x00nsimeq;\x01≄\x00nsmid;\x01∤\x00nspar;\x01∦\x00nsqsube;\x01⋢\x00nsqsupe;\x01⋣\x00nsub;\x01⊄\x00nsubE;\x01⫅̸\x00nsube;\x01⊈\x00nsubset;\x01⊂⃒\x00nsubseteq;\x01⊈\x00nsubseteqq;\x01⫅̸\x00nsucc;\x01⊁\x00nsucceq;\x01⪰̸\x00nsup;\x01⊅\x00nsupE;\x01⫆̸\x00nsupe;\x01⊉\x00nsupset;\x01⊃⃒\x00nsupseteq;\x01⊉\x00nsupseteqq;\x01⫆̸\x00ntgl;\x01≹\x00Ntilde\x01Ñ\x00ntilde\x01ñ\x00Ntilde;\x01Ñ\x00ntilde;\x01ñ\x00ntlg;\x01≸\x00ntriangleleft;\x01⋪\x00ntrianglelefteq;\x01⋬\x00ntriangleright;\x01⋫\x00ntrianglerighteq;\x01⋭\x00Nu;\x01Ν\x00nu;\x01ν\x00num;\x01#\x00numero;\x01№\x00numsp;\x01 \x00nvap;\x01≍⃒\x00nVDash;\x01⊯\x00nVdash;\x01⊮\x00nvDash;\x01⊭\x00nvdash;\x01⊬\x00nvge;\x01≥⃒\x00nvgt;\x01>⃒\x00nvHarr;\x01⤄\x00nvinfin;\x01⧞\x00nvlArr;\x01⤂\x00nvle;\x01≤⃒\x00nvlt;\x01<⃒\x00nvltrie;\x01⊴⃒\x00nvrArr;\x01⤃\x00nvrtrie;\x01⊵⃒\x00nvsim;\x01∼⃒\x00nwarhk;\x01⤣\x00nwArr;\x01⇖\x00nwarr;\x01↖\x00nwarrow;\x01↖\x00nwnear;\x01⤧\x00Oacute\x01Ó\x00oacute\x01ó\x00Oacute;\x01Ó\x00oacute;\x01ó\x00oast;\x01⊛\x00ocir;\x01⊚\x00Ocirc\x01Ô\x00ocirc\x01ô\x00Ocirc;\x01Ô\x00ocirc;\x01ô\x00Ocy;\x01О\x00ocy;\x01о\x00odash;\x01⊝\x00Odblac;\x01Ő\x00odblac;\x01ő\x00odiv;\x01⨸\x00odot;\x01⊙\x00odsold;\x01⦼\x00OElig;\x01Œ\x00oelig;\x01œ\x00ofcir;\x01⦿\x00Ofr;\x01𝔒\x00ofr;\x01𝔬\x00ogon;\x01˛\x00Ograve\x01Ò\x00ograve\x01ò\x00Ograve;\x01Ò\x00ograve;\x01ò\x00ogt;\x01⧁\x00ohbar;\x01⦵\x00ohm;\x01Ω\x00oint;\x01∮\x00olarr;\x01↺\x00olcir;\x01⦾\x00olcross;\x01⦻\x00oline;\x01‾\x00olt;\x01⧀\x00Omacr;\x01Ō\x00omacr;\x01ō\x00Omega;\x01Ω\x00omega;\x01ω\x00Omicron;\x01Ο\x00omicron;\x01ο\x00omid;\x01⦶\x00ominus;\x01⊖\x00Oopf;\x01𝕆\x00oopf;\x01𝕠\x00opar;\x01⦷\x00OpenCurlyDoubleQuote;\x01“\x00OpenCurlyQuote;\x01‘\x00operp;\x01⦹\x00oplus;\x01⊕\x00Or;\x01⩔\x00or;\x01∨\x00orarr;\x01↻\x00ord;\x01⩝\x00order;\x01ℴ\x00orderof;\x01ℴ\x00ordf\x01ª\x00ordf;\x01ª\x00ordm\x01º\x00ordm;\x01º\x00origof;\x01⊶\x00oror;\x01⩖\x00orslope;\x01⩗\x00orv;\x01⩛\x00oS;\x01Ⓢ\x00Oscr;\x01𝒪\x00oscr;\x01ℴ\x00Oslash\x01Ø\x00oslash\x01ø\x00Oslash;\x01Ø\x00oslash;\x01ø\x00osol;\x01⊘\x00Otilde\x01Õ\x00otilde\x01õ\x00Otilde;\x01Õ\x00otilde;\x01õ\x00Otimes;\x01⨷\x00otimes;\x01⊗\x00otimesas;\x01⨶\x00Ouml\x01Ö\x00ouml\x01ö\x00Ouml;\x01Ö\x00ouml;\x01ö\x00ovbar;\x01⌽\x00OverBar;\x01‾\x00OverBrace;\x01⏞\x00OverBracket;\x01⎴\x00OverParenthesis;\x01⏜\x00par;\x01∥\x00para\x01¶\x00para;\x01¶\x00parallel;\x01∥\x00parsim;\x01⫳\x00parsl;\x01⫽\x00part;\x01∂\x00PartialD;\x01∂\x00Pcy;\x01П\x00pcy;\x01п\x00percnt;\x01%\x00period;\x01.\x00permil;\x01‰\x00perp;\x01⊥\x00pertenk;\x01‱\x00Pfr;\x01𝔓\x00pfr;\x01𝔭\x00Phi;\x01Φ\x00phi;\x01φ\x00phiv;\x01ϕ\x00phmmat;\x01ℳ\x00phone;\x01☎\x00Pi;\x01Π\x00pi;\x01π\x00pitchfork;\x01⋔\x00piv;\x01ϖ\x00planck;\x01ℏ\x00planckh;\x01ℎ\x00plankv;\x01ℏ\x00plus;\x01+\x00plusacir;\x01⨣\x00plusb;\x01⊞\x00pluscir;\x01⨢\x00plusdo;\x01∔\x00plusdu;\x01⨥\x00pluse;\x01⩲\x00PlusMinus;\x01±\x00plusmn\x01±\x00plusmn;\x01±\x00plussim;\x01⨦\x00plustwo;\x01⨧\x00pm;\x01±\x00Poincareplane;\x01ℌ\x00pointint;\x01⨕\x00Popf;\x01ℙ\x00popf;\x01𝕡\x00pound\x01£\x00pound;\x01£\x00Pr;\x01⪻\x00pr;\x01≺\x00prap;\x01⪷\x00prcue;\x01≼\x00prE;\x01⪳\x00pre;\x01⪯\x00prec;\x01≺\x00precapprox;\x01⪷\x00preccurlyeq;\x01≼\x00Precedes;\x01≺\x00PrecedesEqual;\x01⪯\x00PrecedesSlantEqual;\x01≼\x00PrecedesTilde;\x01≾\x00preceq;\x01⪯\x00precnapprox;\x01⪹\x00precneqq;\x01⪵\x00precnsim;\x01⋨\x00precsim;\x01≾\x00Prime;\x01″\x00prime;\x01′\x00primes;\x01ℙ\x00prnap;\x01⪹\x00prnE;\x01⪵\x00prnsim;\x01⋨\x00prod;\x01∏\x00Product;\x01∏\x00profalar;\x01⌮\x00profline;\x01⌒\x00profsurf;\x01⌓\x00prop;\x01∝\x00Proportion;\x01∷\x00Proportional;\x01∝\x00propto;\x01∝\x00prsim;\x01≾\x00prurel;\x01⊰\x00Pscr;\x01𝒫\x00pscr;\x01𝓅\x00Psi;\x01Ψ\x00psi;\x01ψ\x00puncsp;\x01 \x00Qfr;\x01𝔔\x00qfr;\x01𝔮\x00qint;\x01⨌\x00Qopf;\x01ℚ\x00qopf;\x01𝕢\x00qprime;\x01⁗\x00Qscr;\x01𝒬\x00qscr;\x01𝓆\x00quaternions;\x01ℍ\x00quatint;\x01⨖\x00quest;\x01?\x00questeq;\x01≟\x00QUOT\x01\"\x00quot\x01\"\x00QUOT;\x01\"\x00quot;\x01\"\x00rAarr;\x01⇛\x00race;\x01∽̱\x00Racute;\x01Ŕ\x00racute;\x01ŕ\x00radic;\x01√\x00raemptyv;\x01⦳\x00Rang;\x01⟫\x00rang;\x01⟩\x00rangd;\x01⦒\x00range;\x01⦥\x00rangle;\x01⟩\x00raquo\x01»\x00raquo;\x01»\x00Rarr;\x01↠\x00rArr;\x01⇒\x00rarr;\x01→\x00rarrap;\x01⥵\x00rarrb;\x01⇥\x00rarrbfs;\x01⤠\x00rarrc;\x01⤳\x00rarrfs;\x01⤞\x00rarrhk;\x01↪\x00rarrlp;\x01↬\x00rarrpl;\x01⥅\x00rarrsim;\x01⥴\x00Rarrtl;\x01⤖\x00rarrtl;\x01↣\x00rarrw;\x01↝\x00rAtail;\x01⤜\x00ratail;\x01⤚\x00ratio;\x01∶\x00rationals;\x01ℚ\x00RBarr;\x01⤐\x00rBarr;\x01⤏\x00rbarr;\x01⤍\x00rbbrk;\x01❳\x00rbrace;\x01\x7d\x00rbrack;\x01]\x00rbrke;\x01⦌\x00rbrksld;\x01⦎\x00rbrkslu;\x01⦐\x00Rcaron;\x01Ř\x00rcaron;\x01ř\x00Rcedil;\x01Ŗ\x00rcedil;\x01ŗ\x00rceil;\x01⌉\x00rcub;\x01\x7d\x00Rcy;\x01Р\x00rcy;\x01р\x00rdca;\x01⤷\x00rdldhar;\x01⥩\x00rdquo;\x01”\x00rdquor;\x01”\x00rdsh;\x01↳\x00Re;\x01ℜ\x00real;\x01ℜ\x00realine;\x01ℛ\x00realpart;\x01ℜ\x00reals;\x01ℝ\x00rect;\x01▭\x00REG\x01®\x00reg\x01®\x00REG;\x01®\x00reg;\x01®\x00ReverseElement;\x01∋\x00ReverseEquilibrium;\x01⇋\x00ReverseUpEquilibrium;\x01⥯\x00rfisht;\x01⥽\x00rfloor;\x01⌋\x00Rfr;\x01ℜ\x00rfr;\x01𝔯\x00rHar;\x01⥤\x00rhard;\x01⇁\x00rharu;\x01⇀\x00rharul;\x01⥬\x00Rho;\x01Ρ\x00rho;\x01ρ\x00rhov;\x01ϱ\x00RightAngleBracket;\x01⟩\x00RightArrow;\x01→\x00Rightarrow;\x01⇒\x00rightarrow;\x01→\x00RightArrowBar;\x01⇥\x00RightArrowLeftArrow;\x01⇄\x00rightarrowtail;\x01↣\x00RightCeiling;\x01⌉\x00RightDoubleBracket;\x01⟧\x00RightDownTeeVector;\x01⥝\x00RightDownVector;\x01⇂\x00RightDownVectorBar;\x01⥕\x00RightFloor;\x01⌋\x00rightharpoondown;\x01⇁\x00rightharpoonup;\x01⇀\x00rightleftarrows;\x01⇄\x00rightleftharpoons;\x01⇌\x00rightrightarrows;\x01⇉\x00rightsquigarrow;\x01↝\x00RightTee;\x01⊢\x00RightTeeArrow;\x01↦\x00RightTeeVector;\x01⥛\x00rightthreetimes;\x01⋌\x00RightTriangle;\x01⊳\x00RightTriangleBar;\x01⧐\x00RightTriangleEqual;\x01⊵\x00RightUpDownVector;\x01⥏\x00RightUpTeeVector;\x01⥜\x00RightUpVector;\x01↾\x00RightUpVectorBar;\x01⥔\x00RightVector;\x01⇀\x00RightVectorBar;\x01⥓\x00ring;\x01˚\x00risingdotseq;\x01≓\x00rlarr;\x01⇄\x00rlhar;\x01⇌\x00rlm;\x01‏\x00rmoust;\x01⎱\x00rmoustache;\x01⎱\x00rnmid;\x01⫮\x00roang;\x01⟭\x00roarr;\x01⇾\x00robrk;\x01⟧\x00ropar;\x01⦆\x00Ropf;\x01ℝ\x00ropf;\x01𝕣\x00roplus;\x01⨮\x00rotimes;\x01⨵\x00RoundImplies;\x01⥰\x00rpar;\x01)\x00rpargt;\x01⦔\x00rppolint;\x01⨒\x00rrarr;\x01⇉\x00Rrightarrow;\x01⇛\x00rsaquo;\x01›\x00Rscr;\x01ℛ\x00rscr;\x01𝓇\x00Rsh;\x01↱\x00rsh;\x01↱\x00rsqb;\x01]\x00rsquo;\x01’\x00rsquor;\x01’\x00rthree;\x01⋌\x00rtimes;\x01⋊\x00rtri;\x01▹\x00rtrie;\x01⊵\x00rtrif;\x01▸\x00rtriltri;\x01⧎\x00RuleDelayed;\x01⧴\x00ruluhar;\x01⥨\x00rx;\x01℞\x00Sacute;\x01Ś\x00sacute;\x01ś\x00sbquo;\x01‚\x00Sc;\x01⪼\x00sc;\x01≻\x00scap;\x01⪸\x00Scaron;\x01Š\x00scaron;\x01š\x00sccue;\x01≽\x00scE;\x01⪴\x00sce;\x01⪰\x00Scedil;\x01Ş\x00scedil;\x01ş\x00Scirc;\x01Ŝ\x00scirc;\x01ŝ\x00scnap;\x01⪺\x00scnE;\x01⪶\x00scnsim;\x01⋩\x00scpolint;\x01⨓\x00scsim;\x01≿\x00Scy;\x01С\x00scy;\x01с\x00sdot;\x01⋅\x00sdotb;\x01⊡\x00sdote;\x01⩦\x00searhk;\x01⤥\x00seArr;\x01⇘\x00searr;\x01↘\x00searrow;\x01↘\x00sect\x01§\x00sect;\x01§\x00semi;\x01;\x00seswar;\x01⤩\x00setminus;\x01∖\x00setmn;\x01∖\x00sext;\x01✶\x00Sfr;\x01𝔖\x00sfr;\x01𝔰\x00sfrown;\x01⌢\x00sharp;\x01♯\x00SHCHcy;\x01Щ\x00shchcy;\x01щ\x00SHcy;\x01Ш\x00shcy;\x01ш\x00ShortDownArrow;\x01↓\x00ShortLeftArrow;\x01←\x00shortmid;\x01∣\x00shortparallel;\x01∥\x00ShortRightArrow;\x01→\x00ShortUpArrow;\x01↑\x00shy\x01­\x00shy;\x01­\x00Sigma;\x01Σ\x00sigma;\x01σ\x00sigmaf;\x01ς\x00sigmav;\x01ς\x00sim;\x01∼\x00simdot;\x01⩪\x00sime;\x01≃\x00simeq;\x01≃\x00simg;\x01⪞\x00simgE;\x01⪠\x00siml;\x01⪝\x00simlE;\x01⪟\x00simne;\x01≆\x00simplus;\x01⨤\x00simrarr;\x01⥲\x00slarr;\x01←\x00SmallCircle;\x01∘\x00smallsetminus;\x01∖\x00smashp;\x01⨳\x00smeparsl;\x01⧤\x00smid;\x01∣\x00smile;\x01⌣\x00smt;\x01⪪\x00smte;\x01⪬\x00smtes;\x01⪬︀\x00SOFTcy;\x01Ь\x00softcy;\x01ь\x00sol;\x01/\x00solb;\x01⧄\x00solbar;\x01⌿\x00Sopf;\x01𝕊\x00sopf;\x01𝕤\x00spades;\x01♠\x00spadesuit;\x01♠\x00spar;\x01∥\x00sqcap;\x01⊓\x00sqcaps;\x01⊓︀\x00sqcup;\x01⊔\x00sqcups;\x01⊔︀\x00Sqrt;\x01√\x00sqsub;\x01⊏\x00sqsube;\x01⊑\x00sqsubset;\x01⊏\x00sqsubseteq;\x01⊑\x00sqsup;\x01⊐\x00sqsupe;\x01⊒\x00sqsupset;\x01⊐\x00sqsupseteq;\x01⊒\x00squ;\x01□\x00Square;\x01□\x00square;\x01□\x00SquareIntersection;\x01⊓\x00SquareSubset;\x01⊏\x00SquareSubsetEqual;\x01⊑\x00SquareSuperset;\x01⊐\x00SquareSupersetEqual;\x01⊒\x00SquareUnion;\x01⊔\x00squarf;\x01▪\x00squf;\x01▪\x00srarr;\x01→\x00Sscr;\x01𝒮\x00sscr;\x01𝓈\x00ssetmn;\x01∖\x00ssmile;\x01⌣\x00sstarf;\x01⋆\x00Star;\x01⋆\x00star;\x01☆\x00starf;\x01★\x00straightepsilon;\x01ϵ\x00straightphi;\x01ϕ\x00strns;\x01¯\x00Sub;\x01⋐\x00sub;\x01⊂\x00subdot;\x01⪽\x00subE;\x01⫅\x00sube;\x01⊆\x00subedot;\x01⫃\x00submult;\x01⫁\x00subnE;\x01⫋\x00subne;\x01⊊\x00subplus;\x01⪿\x00subrarr;\x01⥹\x00Subset;\x01⋐\x00subset;\x01⊂\x00subseteq;\x01⊆\x00subseteqq;\x01⫅\x00SubsetEqual;\x01⊆\x00subsetneq;\x01⊊\x00subsetneqq;\x01⫋\x00subsim;\x01⫇\x00subsub;\x01⫕\x00subsup;\x01⫓\x00succ;\x01≻\x00succapprox;\x01⪸\x00succcurlyeq;\x01≽\x00Succeeds;\x01≻\x00SucceedsEqual;\x01⪰\x00SucceedsSlantEqual;\x01≽\x00SucceedsTilde;\x01≿\x00succeq;\x01⪰\x00succnapprox;\x01⪺\x00succneqq;\x01⪶\x00succnsim;\x01⋩\x00succsim;\x01≿\x00SuchThat;\x01∋\x00Sum;\x01∑\x00sum;\x01∑\x00sung;\x01♪\x00sup1\x01¹\x00sup1;\x01¹\x00sup2\x01²\x00sup2;\x01²\x00sup3\x01³\x00sup3;\x01³\x00Sup;\x01⋑\x00sup;\x01⊃\x00supdot;\x01⪾\x00supdsub;\x01⫘\x00supE;\x01⫆\x00supe;\x01⊇\x00supedot;\x01⫄\x00Superset;\x01⊃\x00SupersetEqual;\x01⊇\x00suphsol;\x01⟉\x00suphsub;\x01⫗\x00suplarr;\x01⥻\x00supmult;\x01⫂\x00supnE;\x01⫌\x00supne;\x01⊋\x00supplus;\x01⫀\x00Supset;\x01⋑\x00supset;\x01⊃\x00supseteq;\x01⊇\x00supseteqq;\x01⫆\x00supsetneq;\x01⊋\x00supsetneqq;\x01⫌\x00supsim;\x01⫈\x00supsub;\x01⫔\x00supsup;\x01⫖\x00swarhk;\x01⤦\x00swArr;\x01⇙\x00swarr;\x01↙\x00swarrow;\x01↙\x00swnwar;\x01⤪\x00szlig\x01ß\x00szlig;\x01ß\x00Tab;\x01\t\x00target;\x01⌖\x00Tau;\x01Τ\x00tau;\x01τ\x00tbrk;\x01⎴\x00Tcaron;\x01Ť\x00tcaron;\x01ť\x00Tcedil;\x01Ţ\x00tcedil;\x01ţ\x00Tcy;\x01Т\x00tcy;\x01т\x00tdot;\x01⃛\x00telrec;\x01⌕\x00Tfr;\x01𝔗\x00tfr;\x01𝔱\x00there4;\x01∴\x00Therefore;\x01∴\x00therefore;\x01∴\x00Theta;\x01Θ\x00theta;\x01θ\x00thetasym;\x01ϑ\x00thetav;\x01ϑ\x00thickapprox;\x01≈\x00thicksim;\x01∼\x00ThickSpace;\x01  \x00thinsp;\x01 \x00ThinSpace;\x01 \x00thkap;\x01≈\x00thksim;\x01∼\x00THORN\x01Þ\x00thorn\x01þ\x00THORN;\x01Þ\x00thorn;\x01þ\x00Tilde;\x01∼\x00tilde;\x01˜\x00TildeEqual;\x01≃\x00TildeFullEqual;\x01≅\x00TildeTilde;\x01≈\x00times\x01×\x00times;\x01×\x00timesb;\x01⊠\x00timesbar;\x01⨱\x00timesd;\x01⨰\x00tint;\x01∭\x00toea;\x01⤨\x00top;\x01⊤\x00topbot;\x01⌶\x00topcir;\x01⫱\x00Topf;\x01𝕋\x00topf;\x01𝕥\x00topfork;\x01⫚\x00tosa;\x01⤩\x00tprime;\x01‴\x00TRADE;\x01™\x00trade;\x01™\x00triangle;\x01▵\x00triangledown;\x01▿\x00triangleleft;\x01◃\x00trianglelefteq;\x01⊴\x00triangleq;\x01≜\x00triangleright;\x01▹\x00trianglerighteq;\x01⊵\x00tridot;\x01◬\x00trie;\x01≜\x00triminus;\x01⨺\x00TripleDot;\x01⃛\x00triplus;\x01⨹\x00trisb;\x01⧍\x00tritime;\x01⨻\x00trpezium;\x01⏢\x00Tscr;\x01𝒯\x00tscr;\x01𝓉\x00TScy;\x01Ц\x00tscy;\x01ц\x00TSHcy;\x01Ћ\x00tshcy;\x01ћ\x00Tstrok;\x01Ŧ\x00tstrok;\x01ŧ\x00twixt;\x01≬\x00twoheadleftarrow;\x01↞\x00twoheadrightarrow;\x01↠\x00Uacute\x01Ú\x00uacute\x01ú\x00Uacute;\x01Ú\x00uacute;\x01ú\x00Uarr;\x01↟\x00uArr;\x01⇑\x00uarr;\x01↑\x00Uarrocir;\x01⥉\x00Ubrcy;\x01Ў\x00ubrcy;\x01ў\x00Ubreve;\x01Ŭ\x00ubreve;\x01ŭ\x00Ucirc\x01Û\x00ucirc\x01û\x00Ucirc;\x01Û\x00ucirc;\x01û\x00Ucy;\x01У\x00ucy;\x01у\x00udarr;\x01⇅\x00Udblac;\x01Ű\x00udblac;\x01ű\x00udhar;\x01⥮\x00ufisht;\x01⥾\x00Ufr;\x01𝔘\x00ufr;\x01𝔲\x00Ugrave\x01Ù\x00ugrave\x01ù\x00Ugrave;\x01Ù\x00ugrave;\x01ù\x00uHar;\x01⥣\x00uharl;\x01↿\x00uharr;\x01↾\x00uhblk;\x01▀\x00ulcorn;\x01⌜\x00ulcorner;\x01⌜\x00ulcrop;\x01⌏\x00ultri;\x01◸\x00Umacr;\x01Ū\x00umacr;\x01ū\x00uml\x01¨\x00uml;\x01¨\x00UnderBar;\x01_\x00UnderBrace;\x01⏟\x00UnderBracket;\x01⎵\x00UnderParenthesis;\x01⏝\x00Union;\x01⋃\x00UnionPlus;\x01⊎\x00Uogon;\x01Ų\x00uogon;\x01ų\x00Uopf;\x01𝕌\x00uopf;\x01𝕦\x00UpArrow;\x01↑\x00Uparrow;\x01⇑\x00uparrow;\x01↑\x00UpArrowBar;\x01⤒\x00UpArrowDownArrow;\x01⇅\x00UpDownArrow;\x01↕\x00Updownarrow;\x01⇕\x00updownarrow;\x01↕\x00UpEquilibrium;\x01⥮\x00upharpoonleft;\x01↿\x00upharpoonright;\x01↾\x00uplus;\x01⊎\x00UpperLeftArrow;\x01↖\x00UpperRightArrow;\x01↗\x00Upsi;\x01ϒ\x00upsi;\x01υ\x00upsih;\x01ϒ\x00Upsilon;\x01Υ\x00upsilon;\x01υ\x00UpTee;\x01⊥\x00UpTeeArrow;\x01↥\x00upuparrows;\x01⇈\x00urcorn;\x01⌝\x00urcorner;\x01⌝\x00urcrop;\x01⌎\x00Uring;\x01Ů\x00uring;\x01ů\x00urtri;\x01◹\x00Uscr;\x01𝒰\x00uscr;\x01𝓊\x00utdot;\x01⋰\x00Utilde;\x01Ũ\x00utilde;\x01ũ\x00utri;\x01▵\x00utrif;\x01▴\x00uuarr;\x01⇈\x00Uuml\x01Ü\x00uuml\x01ü\x00Uuml;\x01Ü\x00uuml;\x01ü\x00uwangle;\x01⦧\x00vangrt;\x01⦜\x00varepsilon;\x01ϵ\x00varkappa;\x01ϰ\x00varnothing;\x01∅\x00varphi;\x01ϕ\x00varpi;\x01ϖ\x00varpropto;\x01∝\x00vArr;\x01⇕\x00varr;\x01↕\x00varrho;\x01ϱ\x00varsigma;\x01ς\x00varsubsetneq;\x01⊊︀\x00varsubsetneqq;\x01⫋︀\x00varsupsetneq;\x01⊋︀\x00varsupsetneqq;\x01⫌︀\x00vartheta;\x01ϑ\x00vartriangleleft;\x01⊲\x00vartriangleright;\x01⊳\x00Vbar;\x01⫫\x00vBar;\x01⫨\x00vBarv;\x01⫩\x00Vcy;\x01В\x00vcy;\x01в\x00VDash;\x01⊫\x00Vdash;\x01⊩\x00vDash;\x01⊨\x00vdash;\x01⊢\x00Vdashl;\x01⫦\x00Vee;\x01⋁\x00vee;\x01∨\x00veebar;\x01⊻\x00veeeq;\x01≚\x00vellip;\x01⋮\x00Verbar;\x01‖\x00verbar;\x01|\x00Vert;\x01‖\x00vert;\x01|\x00VerticalBar;\x01∣\x00VerticalLine;\x01|\x00VerticalSeparator;\x01❘\x00VerticalTilde;\x01≀\x00VeryThinSpace;\x01 \x00Vfr;\x01𝔙\x00vfr;\x01𝔳\x00vltri;\x01⊲\x00vnsub;\x01⊂⃒\x00vnsup;\x01⊃⃒\x00Vopf;\x01𝕍\x00vopf;\x01𝕧\x00vprop;\x01∝\x00vrtri;\x01⊳\x00Vscr;\x01𝒱\x00vscr;\x01𝓋\x00vsubnE;\x01⫋︀\x00vsubne;\x01⊊︀\x00vsupnE;\x01⫌︀\x00vsupne;\x01⊋︀\x00Vvdash;\x01⊪\x00vzigzag;\x01⦚\x00Wcirc;\x01Ŵ\x00wcirc;\x01ŵ\x00wedbar;\x01⩟\x00Wedge;\x01⋀\x00wedge;\x01∧\x00wedgeq;\x01≙\x00weierp;\x01℘\x00Wfr;\x01𝔚\x00wfr;\x01𝔴\x00Wopf;\x01𝕎\x00wopf;\x01𝕨\x00wp;\x01℘\x00wr;\x01≀\x00wreath;\x01≀\x00Wscr;\x01𝒲\x00wscr;\x01𝓌\x00xcap;\x01⋂\x00xcirc;\x01◯\x00xcup;\x01⋃\x00xdtri;\x01▽\x00Xfr;\x01𝔛\x00xfr;\x01𝔵\x00xhArr;\x01⟺\x00xharr;\x01⟷\x00Xi;\x01Ξ\x00xi;\x01ξ\x00xlArr;\x01⟸\x00xlarr;\x01⟵\x00xmap;\x01⟼\x00xnis;\x01⋻\x00xodot;\x01⨀\x00Xopf;\x01𝕏\x00xopf;\x01𝕩\x00xoplus;\x01⨁\x00xotime;\x01⨂\x00xrArr;\x01⟹\x00xrarr;\x01⟶\x00Xscr;\x01𝒳\x00xscr;\x01𝓍\x00xsqcup;\x01⨆\x00xuplus;\x01⨄\x00xutri;\x01△\x00xvee;\x01⋁\x00xwedge;\x01⋀\x00Yacute\x01Ý\x00yacute\x01ý\x00Yacute;\x01Ý\x00yacute;\x01ý\x00YAcy;\x01Я\x00yacy;\x01я\x00Ycirc;\x01Ŷ\x00ycirc;\x01ŷ\x00Ycy;\x01Ы\x00ycy;\x01ы\x00yen\x01¥\x00yen;\x01¥\x00Yfr;\x01𝔜\x00yfr;\x01𝔶\x00YIcy;\x01Ї\x00yicy;\x01ї\x00Yopf;\x01𝕐\x00yopf;\x01𝕪\x00Yscr;\x01𝒴\x00yscr;\x01𝓎\x00YUcy;\x01Ю\x00yucy;\x01ю\x00yuml\x01ÿ\x00Yuml;\x01Ÿ\x00yuml;\x01ÿ\x00Zacute;\x01Ź\x00zacute;\x01ź\x00Zcaron;\x01Ž\x00zcaron;\x01ž\x00Zcy;\x01З\x00zcy;\x01з\x00Zdot;\x01Ż\x00zdot;\x01ż\x00zeetrf;\x01ℨ\x00ZeroWidthSpace;\x01​\x00Zeta;\x01Ζ\x00zeta;\x01ζ\x00Zfr;\x01ℨ\x00zfr;\x01𝔷\x00ZHcy;\x01Ж\x00zhcy;\x01ж\x00zigrarr;\x01⇝\x00Zopf;\x01ℤ\x00zopf;\x01𝕫\x00Zscr;\x01𝒵\x00zscr;\x01𝓏\x00zwj;\x01‍\x00zwnj;\x01‌"

/-- html.entities.html5 from the Python standard library, used by html.unescape -/
def html5Table : List (Str × Str) := decodePairs html5TableData
/-- Packed data for nfdTable. -/
def nfdTableData : String :=
  "ÀÀ\x00ÁÁ\x00ÂÂ\x00ÃÃ\x00ÄÄ\x00ÅÅ\x00ÇÇ\x00ÈÈ\x00ÉÉ\x00ÊÊ\x00ËË\x00ÌÌ\x00ÍÍ\x00ÎÎ\x00ÏÏ\x00ÑÑ\x00ÒÒ\x00ÓÓ\x00ÔÔ\x00ÕÕ\x00ÖÖ\x00ÙÙ\x00ÚÚ\x00ÛÛ\x00ÜÜ\x00ÝÝ\x00àà\x00áá\x00ââ\x00ãã\x00ää\x00åå\x00çç\x00èè\x00éé\x00êê\x00ëë\x00ìì\x00íí\x00îî\x00ïï\x00ññ\x00òò\x00óó\x00ôô\x00õõ\x00öö\x00ùù\x00úú\x00ûû\x00üü\x00ýý\x00ÿÿ\x00ĀĀ\x00āā\x00ĂĂ\x00ăă\x00ĄĄ\x00ąą\x00ĆĆ\x00ćć\x00ĈĈ\x00ĉĉ\x00ĊĊ\x00ċċ\x00ČČ\x00čč\x00ĎĎ\x00ďď\x00ĒĒ\x00ēē\x00ĔĔ\x00ĕĕ\x00ĖĖ\x00ėė\x00ĘĘ\x00ęę\x00ĚĚ\x00ěě\x00ĜĜ\x00ĝĝ\x00ĞĞ\x00ğğ\x00ĠĠ\x00ġġ\x00ĢĢ\x00ģģ\x00ĤĤ\x00ĥĥ\x00ĨĨ\x00ĩĩ\x00ĪĪ\x00īī\x00ĬĬ\x00ĭĭ\x00ĮĮ\x00įį\x00İİ\x00ĴĴ\x00ĵĵ\x00ĶĶ\x00ķķ\x00ĹĹ\x00ĺĺ\x00ĻĻ\x00ļļ\x00ĽĽ\x00ľľ\x00ŃŃ\x00ńń\x00ŅŅ\x00ņņ\x00ŇŇ\x00ňň\x00ŌŌ\x00ōō\x00ŎŎ\x00ŏŏ\x00ŐŐ\x00őő\x00ŔŔ\x00ŕŕ\x00ŖŖ\x00ŗŗ\x00ŘŘ\x00řř\x00ŚŚ\x00śś\x00ŜŜ\x00ŝŝ\x00ŞŞ\x00şş\x00ŠŠ\x00šš\x00ŢŢ\x00ţţ\x00ŤŤ\x00ťť\x00ŨŨ\x00ũũ\x00ŪŪ\x00ūū\x00ŬŬ\x00ŭŭ\x00ŮŮ\x00ůů\x00ŰŰ\x00űű\x00ŲŲ\x00ųų\x00ŴŴ\x00ŵŵ\x00ŶŶ\x00ŷŷ\x00ŸŸ\x00ŹŹ\x00źź\x00ŻŻ\x00żż\x00ŽŽ\x00žž\x00ƠƠ\x00ơơ\x00ƯƯ\x00ưư\x00ǍǍ\x00ǎǎ\x00ǏǏ\x00ǐǐ\x00ǑǑ\x00ǒǒ\x00ǓǓ\x00ǔǔ\x00ǕǕ\x00ǖǖ\x00ǗǗ\x00ǘǘ\x00ǙǙ\x00ǚǚ\x00ǛǛ\x00ǜǜ\x00ǞǞ\x00ǟǟ\x00ǠǠ\x00ǡǡ\x00ǢǢ\x00ǣǣ\x00ǦǦ\x00ǧǧ\x00ǨǨ\x00ǩǩ\x00ǪǪ\x00ǫǫ\x00ǬǬ\x00ǭǭ\x00ǮǮ\x00ǯǯ\x00ǰǰ\x00ǴǴ\x00ǵǵ\x00ǸǸ\x00ǹǹ\x00ǺǺ\x00ǻǻ\x00ǼǼ\x00ǽǽ\x00ǾǾ\x00ǿǿ\x00ȀȀ\x00ȁȁ\x00ȂȂ\x00ȃȃ\x00ȄȄ\x00ȅȅ\x00ȆȆ\x00ȇȇ\x00ȈȈ\x00ȉȉ\x00ȊȊ\x00ȋȋ\x00ȌȌ\x00ȍȍ\x00ȎȎ\x00ȏȏ\x00ȐȐ\x00ȑȑ\x00ȒȒ\x00ȓȓ\x00ȔȔ\x00ȕȕ\x00ȖȖ\x00ȗȗ\x00ȘȘ\x00șș\x00ȚȚ\x00țț\x00ȞȞ\x00ȟȟ\x00ȦȦ\x00ȧȧ\x00ȨȨ\x00ȩȩ\x00ȪȪ\x00ȫȫ\x00ȬȬ\x00ȭȭ\x00ȮȮ\x00ȯȯ\x00ȰȰ\x00ȱȱ\x00ȲȲ\x00ȳȳ\x00̀̀\x00́́\x00̓̓\x00̈́̈́\x00ʹʹ\x00;;\x00΅΅\x00ΆΆ\x00··\x00ΈΈ\x00ΉΉ\x00ΊΊ\x00ΌΌ\x00ΎΎ\x00ΏΏ\x00ΐΐ\x00ΪΪ\x00ΫΫ\x00άά\x00έέ\x00ήή\x00ίί\x00ΰΰ\x00ϊϊ\x00ϋϋ\x00όό\x00ύύ\x00ώώ\x00ϓϓ\x00ϔϔ\x00ЀЀ\x00ЁЁ\x00ЃЃ\x00ЇЇ\x00ЌЌ\x00ЍЍ\x00ЎЎ\x00ЙЙ\x00йй\x00ѐѐ\x00ёё\x00ѓѓ\x00її\x00ќќ\x00ѝѝ\x00ўў\x00ѶѶ\x00ѷѷ\x00ӁӁ\x00ӂӂ\x00ӐӐ\x00ӑӑ\x00ӒӒ\x00ӓӓ\x00ӖӖ\x00ӗӗ\x00ӚӚ\x00ӛӛ\x00ӜӜ\x00ӝӝ\x00ӞӞ\x00ӟӟ\x00ӢӢ\x00ӣӣ\x00ӤӤ\x00ӥӥ\x00ӦӦ\x00ӧӧ\x00ӪӪ\x00ӫӫ\x00ӬӬ\x00ӭӭ\x00ӮӮ\x00ӯӯ\x00ӰӰ\x00ӱӱ\x00ӲӲ\x00ӳӳ\x00ӴӴ\x00ӵӵ\x00ӸӸ\x00ӹӹ\x00آآ\x00أأ\x00ؤؤ\x00إإ\x00ئئ\x00ۀۀ\x00ۂۂ\x00ۓۓ\x00ऩऩ\x00ऱऱ\x00ऴऴ\x00क़क़\x00ख़ख़\x00ग़ग़\x00ज़ज़\x00ड़ड़\x00ढ़ढ़\x00फ़फ़\x00य़य़\x00োো\x00ৌৌ\x00ড়ড়\x00ঢ়ঢ়\x00য়য়\x00ਲ਼ਲ਼\x00ਸ਼ਸ਼\x00ਖ਼ਖ਼\x00ਗ਼ਗ਼\x00ਜ਼ਜ਼\x00ਫ਼ਫ਼\x00ୈୈ\x00ୋୋ\x00ୌୌ\x00ଡ଼ଡ଼\x00ଢ଼ଢ଼\x00ஔஔ\x00ொொ\x00ோோ\x00ௌௌ\x00ైై\x00ೀೀ\x00ೇೇ\x00ೈೈ\x00ೊೊ\x00ೋೋ\x00ൊൊ\x00ോോ\x00ൌൌ\x00ේේ\x00ොො\x00ෝෝ\x00ෞෞ\x00གྷགྷ\x00ཌྷཌྷ\x00དྷདྷ\x00བྷབྷ\x00ཛྷཛྷ\x00ཀྵཀྵ\x00ཱཱིི\x00ཱཱུུ\x00ྲྀྲྀ\x00ླྀླྀ\x00ཱཱྀྀ\x00ྒྷྒྷ\x00ྜྷྜྷ\x00ྡྷྡྷ\x00ྦྷྦྷ\x00ྫྷྫྷ\x00ྐྵྐྵ\x00ဦဦ\x00ᬆᬆ\x00ᬈᬈ\x00ᬊᬊ\x00ᬌᬌ\x00ᬎᬎ\x00ᬒᬒ\x00ᬻᬻ\x00ᬽᬽ\x00ᭀᭀ\x00ᭁᭁ\x00ᭃᭃ\x00ḀḀ\x00ḁḁ\x00ḂḂ\x00ḃḃ\x00ḄḄ\x00ḅḅ\x00ḆḆ\x00ḇḇ\x00ḈḈ\x00ḉḉ\x00ḊḊ\x00ḋḋ\x00ḌḌ\x00ḍḍ\x00ḎḎ\x00ḏḏ\x00ḐḐ\x00ḑḑ\x00ḒḒ\x00ḓḓ\x00ḔḔ\x00ḕḕ\x00ḖḖ\x00ḗḗ\x00ḘḘ\x00ḙḙ\x00ḚḚ\x00ḛḛ\x00ḜḜ\x00ḝḝ\x00ḞḞ\x00ḟḟ\x00ḠḠ\x00ḡḡ\x00ḢḢ\x00ḣḣ\x00ḤḤ\x00ḥḥ\x00ḦḦ\x00ḧḧ\x00ḨḨ\x00ḩḩ\x00ḪḪ\x00ḫḫ\x00ḬḬ\x00ḭḭ\x00ḮḮ\x00ḯḯ\x00ḰḰ\x00ḱḱ\x00ḲḲ\x00ḳḳ\x00ḴḴ\x00ḵḵ\x00ḶḶ\x00ḷḷ\x00ḸḸ\x00ḹḹ\x00ḺḺ\x00ḻḻ\x00ḼḼ\x00ḽḽ\x00ḾḾ\x00ḿḿ\x00ṀṀ\x00ṁṁ\x00ṂṂ\x00ṃṃ\x00ṄṄ\x00ṅṅ\x00ṆṆ\x00ṇṇ\x00ṈṈ\x00ṉṉ\x00ṊṊ\x00ṋṋ\x00ṌṌ\x00ṍṍ\x00ṎṎ\x00ṏṏ\x00ṐṐ\x00ṑṑ\x00ṒṒ\x00ṓṓ\x00ṔṔ\x00ṕṕ\x00ṖṖ\x00ṗṗ\x00ṘṘ\x00ṙṙ\x00ṚṚ\x00ṛṛ\x00ṜṜ\x00ṝṝ\x00ṞṞ\x00ṟṟ\x00ṠṠ\x00ṡṡ\x00ṢṢ\x00ṣṣ\x00ṤṤ\x00ṥṥ\x00ṦṦ\x00ṧṧ\x00ṨṨ\x00ṩṩ\x00ṪṪ\x00ṫṫ\x00ṬṬ\x00ṭṭ\x00ṮṮ\x00ṯṯ\x00ṰṰ\x00ṱṱ\x00ṲṲ\x00ṳṳ\x00ṴṴ\x00ṵṵ\x00ṶṶ\x00ṷṷ\x00ṸṸ\x00ṹṹ\x00ṺṺ\x00ṻṻ\x00ṼṼ\x00ṽṽ\x00ṾṾ\x00ṿṿ\x00ẀẀ\x00ẁẁ\x00ẂẂ\x00ẃẃ\x00ẄẄ\x00ẅẅ\x00ẆẆ\x00ẇẇ\x00ẈẈ\x00ẉẉ\x00ẊẊ\x00ẋẋ\x00ẌẌ\x00ẍẍ\x00ẎẎ\x00ẏẏ\x00ẐẐ\x00ẑẑ\x00ẒẒ\x00ẓẓ\x00ẔẔ\x00ẕẕ\x00ẖẖ\x00ẗẗ\x00ẘẘ\x00ẙẙ\x00ẛẛ\x00ẠẠ\x00ạạ\x00ẢẢ\x00ảả\x00ẤẤ\x00ấấ\x00ẦẦ\x00ầầ\x00ẨẨ\x00ẩẩ\x00ẪẪ\x00ẫẫ\x00ẬẬ\x00ậậ\x00ẮẮ\x00ắắ\x00ẰẰ\x00ằằ\x00ẲẲ\x00ẳẳ\x00ẴẴ\x00ẵẵ\x00ẶẶ\x00ặặ\x00ẸẸ\x00ẹẹ\x00ẺẺ\x00ẻẻ\x00ẼẼ\x00ẽẽ\x00ẾẾ\x00ếế\x00ỀỀ\x00ềề\x00ỂỂ\x00ểể\x00ỄỄ\x00ễễ\x00ỆỆ\x00ệệ\x00ỈỈ\x00ỉỉ\x00ỊỊ\x00ịị\x00ỌỌ\x00ọọ\x00ỎỎ\x00ỏỏ\x00ỐỐ\x00ốố\x00ỒỒ\x00ồồ\x00ỔỔ\x00ổổ\x00ỖỖ\x00ỗỗ\x00ỘỘ\x00ộộ\x00ỚỚ\x00ớớ\x00ỜỜ\x00ờờ\x00ỞỞ\x00ởở\x00ỠỠ\x00ỡỡ\x00ỢỢ\x00ợợ\x00ỤỤ\x00ụụ\x00ỦỦ\x00ủủ\x00ỨỨ\x00ứứ\x00ỪỪ\x00ừừ\x00ỬỬ\x00ửử\x00ỮỮ\x00ữữ\x00ỰỰ\x00ựự\x00ỲỲ\x00ỳỳ\x00ỴỴ\x00ỵỵ\x00ỶỶ\x00ỷỷ\x00ỸỸ\x00ỹỹ\x00ἀἀ\x00ἁἁ\x00ἂἂ\x00ἃἃ\x00ἄἄ\x00ἅἅ\x00ἆἆ\x00ἇἇ\x00ἈἈ\x00ἉἉ\x00ἊἊ\x00ἋἋ\x00ἌἌ\x00ἍἍ\x00ἎἎ\x00ἏἏ\x00ἐἐ\x00ἑἑ\x00ἒἒ\x00ἓἓ\x00ἔἔ\x00ἕἕ\x00ἘἘ\x00ἙἙ\x00ἚἚ\x00ἛἛ\x00ἜἜ\x00ἝἝ\x00ἠἠ\x00ἡἡ\x00ἢἢ\x00ἣἣ\x00ἤἤ\x00ἥἥ\x00ἦἦ\x00ἧἧ\x00ἨἨ\x00ἩἩ\x00ἪἪ\x00ἫἫ\x00ἬἬ\x00ἭἭ\x00ἮἮ\x00ἯἯ\x00ἰἰ\x00ἱἱ\x00ἲἲ\x00ἳἳ\x00ἴἴ\x00ἵἵ\x00ἶἶ\x00ἷἷ\x00ἸἸ\x00ἹἹ\x00ἺἺ\x00ἻἻ\x00ἼἼ\x00ἽἽ\x00ἾἾ\x00ἿἿ\x00ὀὀ\x00ὁὁ\x00ὂὂ\x00ὃὃ\x00ὄὄ\x00ὅὅ\x00ὈὈ\x00ὉὉ\x00ὊὊ\x00ὋὋ\x00ὌὌ\x00ὍὍ\x00ὐὐ\x00ὑὑ\x00ὒὒ\x00ὓὓ\x00ὔὔ\x00ὕὕ\x00ὖὖ\x00ὗὗ\x00ὙὙ\x00ὛὛ\x00ὝὝ\x00ὟὟ\x00ὠὠ\x00ὡὡ\x00ὢὢ\x00ὣὣ\x00ὤὤ\x00ὥὥ\x00ὦὦ\x00ὧὧ\x00ὨὨ\x00ὩὩ\x00ὪὪ\x00ὫὫ\x00ὬὬ\x00ὭὭ\x00ὮὮ\x00ὯὯ\x00ὰὰ\x00άά\x00ὲὲ\x00έέ\x00ὴὴ\x00ήή\x00ὶὶ\x00ίί\x00ὸὸ\x00όό\x00ὺὺ\x00ύύ\x00ὼὼ\x00ώώ\x00ᾀᾀ\x00ᾁᾁ\x00ᾂᾂ\x00ᾃᾃ\x00ᾄᾄ\x00ᾅᾅ\x00ᾆᾆ\x00ᾇᾇ\x00ᾈᾈ\x00ᾉᾉ\x00ᾊᾊ\x00ᾋᾋ\x00ᾌᾌ\x00ᾍᾍ\x00ᾎᾎ\x00ᾏᾏ\x00ᾐᾐ\x00ᾑᾑ\x00ᾒᾒ\x00ᾓᾓ\x00ᾔᾔ\x00ᾕᾕ\x00ᾖᾖ\x00ᾗᾗ\x00ᾘᾘ\x00ᾙᾙ\x00ᾚᾚ\x00ᾛᾛ\x00ᾜᾜ\x00ᾝᾝ\x00ᾞᾞ\x00ᾟᾟ\x00ᾠᾠ\x00ᾡᾡ\x00ᾢᾢ\x00ᾣᾣ\x00ᾤᾤ\x00ᾥᾥ\x00ᾦᾦ\x00ᾧᾧ\x00ᾨᾨ\x00ᾩᾩ\x00ᾪᾪ\x00ᾫᾫ\x00ᾬᾬ\x00ᾭᾭ\x00ᾮᾮ\x00ᾯᾯ\x00ᾰᾰ\x00ᾱᾱ\x00ᾲᾲ\x00ᾳᾳ\x00ᾴᾴ\x00ᾶᾶ\x00ᾷᾷ\x00ᾸᾸ\x00ᾹᾹ\x00ᾺᾺ\x00ΆΆ\x00ᾼᾼ\x00ιι\x00῁῁\x00ῂῂ\x00ῃῃ\x00ῄῄ\x00ῆῆ\x00ῇῇ\x00ῈῈ\x00ΈΈ\x00ῊῊ\x00ΉΉ\x00ῌῌ\x00῍῍\x00῎῎\x00῏῏\x00ῐῐ\x00ῑῑ\x00ῒῒ\x00ΐΐ\x00ῖῖ\x00ῗῗ\x00ῘῘ\x00ῙῙ\x00ῚῚ\x00ΊΊ\x00῝῝\x00῞῞\x00῟῟\x00ῠῠ\x00ῡῡ\x00ῢῢ\x00ΰΰ\x00ῤῤ\x00ῥῥ\x00ῦῦ\x00ῧῧ\x00ῨῨ\x00ῩῩ\x00ῪῪ\x00ΎΎ\x00ῬῬ\x00῭῭\x00΅΅\x00``\x00ῲῲ\x00ῳῳ\x00ῴῴ\x00ῶῶ\x00ῷῷ\x00ῸῸ\x00ΌΌ\x00ῺῺ\x00ΏΏ\x00ῼῼ\x00´´\x00  \x00  \x00ΩΩ\x00KK\x00ÅÅ\x00↚↚\x00↛↛\x00↮↮\x00⇍⇍\x00⇎⇎\x00⇏⇏\x00∄∄\x00∉∉\x00∌∌\x00∤∤\x00∦∦\x00≁≁\x00≄≄\x00≇≇\x00≉≉\x00≠≠\x00≢≢\x00≭≭\x00≮≮\x00≯≯\x00≰≰\x00≱≱\x00≴≴\x00≵≵\x00≸≸\x00≹≹\x00⊀⊀\x00⊁⊁\x00⊄⊄\x00⊅⊅\x00⊈⊈\x00⊉⊉\x00⊬⊬\x00⊭⊭\x00⊮⊮\x00⊯⊯\x00⋠⋠\x00⋡⋡\x00⋢⋢\x00⋣⋣\x00⋪⋪\x00⋫⋫\x00⋬⋬\x00⋭⋭\x00〈〈\x00〉〉\x00⫝̸⫝̸\x00がが\x00ぎぎ\x00ぐぐ\x00げげ\x00ごご\x00ざざ\x00じじ\x00ずず\x00ぜぜ\x00ぞぞ\x00だだ\x00ぢぢ\x00づづ\x00でで\x00どど\x00ばば\x00ぱぱ\x00びび\x00ぴぴ\x00ぶぶ\x00ぷぷ\x00べべ\x00ぺぺ\x00ぼぼ\x00ぽぽ\x00ゔゔ\x00ゞゞ\x00ガガ\x00ギギ\x00ググ\x00ゲゲ\x00ゴゴ\x00ザザ\x00ジジ\x00ズズ\x00ゼゼ\x00ゾゾ\x00ダダ\x00ヂヂ\x00ヅヅ\x00デデ\x00ドド\x00ババ\x00パパ\x00ビビ\x00ピピ\x00ブブ\x00ププ\x00ベベ\x00ペペ\x00ボボ\x00ポポ\x00ヴヴ\x00ヷヷ\x00ヸヸ\x00ヹヹ\x00ヺヺ\x00ヾヾ\x00豈豈\x00更更\x00車車\x00賈賈\x00滑滑\x00串串\x00句句\x00龜龜\x00龜龜\x00契契\x00金金\x00喇喇\x00奈奈\x00懶懶\x00癩癩\x00羅羅\x00蘿蘿\x00螺螺\x00裸裸\x00邏邏\x00樂樂\x00洛洛\x00烙烙\x00珞珞\x00落落\x00酪酪\x00駱駱\x00亂亂\x00卵卵\x00欄欄\x00爛爛\x00蘭蘭\x00鸞鸞\x00嵐嵐\x00濫濫\x00藍藍\x00襤襤\x00拉拉\x00臘臘\x00蠟蠟\x00廊廊\x00朗朗\x00浪浪\x00狼狼\x00郎郎\x00來來\x00冷冷\x00勞勞\x00擄擄\x00櫓櫓\x00爐爐\x00盧盧\x00老老\x00蘆蘆\x00虜虜\x00路路\x00露露\x00魯魯\x00鷺鷺\x00碌碌\x00祿祿\x00綠綠\x00菉菉\x00錄錄\x00鹿鹿\x00論論\x00壟壟\x00弄弄\x00籠籠\x00聾聾\x00牢牢\x00磊磊\x00賂賂\x00雷雷\x00壘壘\x00屢屢\x00樓樓\x00淚淚\x00漏漏\x00累累\x00縷縷\x00陋陋\x00勒勒\x00肋肋\x00凜凜\x00凌凌\x00稜稜\x00綾綾\x00菱菱\x00陵陵\x00讀讀\x00拏拏\x00樂樂\x00諾諾\x00丹丹\x00寧寧\x00怒怒\x00率率\x00異異\x00北北\x00磻磻\x00便便\x00復復\x00不不\x00泌泌\x00數數\x00索索\x00參參\x00塞塞\x00省省\x00葉葉\x00說說\x00殺殺\x00辰辰\x00沈沈\x00拾拾\x00若若\x00掠掠\x00略略\x00亮亮\x00兩兩\x00凉凉\x00梁梁\x00糧糧\x00良良\x00諒諒\x00量量\x00勵勵\x00呂呂\x00女女\x00廬廬\x00旅旅\x00濾濾\x00礪礪\x00閭閭\x00驪驪\x00麗麗\x00黎黎\x00力力\x00曆曆\x00歷歷\x00轢轢\x00年年\x00憐憐\x00戀戀\x00撚撚\x00漣漣\x00煉煉\x00璉璉\x00秊秊\x00練練\x00聯聯\x00輦輦\x00蓮蓮\x00連連\x00鍊鍊\x00列列\x00劣劣\x00咽咽\x00烈烈\x00裂裂\x00說說\x00廉廉\x00念念\x00捻捻\x00殮殮\x00簾簾\x00獵獵\x00令令\x00囹囹\x00寧寧\x00嶺嶺\x00怜怜\x00玲玲\x00瑩瑩\x00羚羚\x00聆聆\x00鈴鈴\x00零零\x00靈靈\x00領領\x00例例\x00禮禮\x00醴醴\x00隸隸\x00惡惡\x00了了\x00僚僚\x00寮寮\x00尿尿\x00料料\x00樂樂\x00燎燎\x00療療\x00蓼蓼\x00遼遼\x00龍龍\x00暈暈\x00阮阮\x00劉劉\x00杻杻\x00柳柳\x00流流\x00溜溜\x00琉琉\x00留留\x00硫硫\x00紐紐\x00類類\x00六六\x00戮戮\x00陸陸\x00倫倫\x00崙崙\x00淪淪\x00輪輪\x00律律\x00慄慄\x00栗栗\x00率率\x00隆隆\x00利利\x00吏吏\x00履履\x00易易\x00李李\x00梨梨\x00泥泥\x00理理\x00痢痢\x00罹罹\x00裏裏\x00裡裡\x00里里\x00離離\x00匿匿\x00溺溺\x00吝吝\x00燐燐\x00璘璘\x00藺藺\x00隣隣\x00鱗鱗\x00麟麟\x00林林\x00淋淋\x00臨臨\x00立立\x00笠笠\x00粒粒\x00狀狀\x00炙炙\x00識識\x00什什\x00茶茶\x00刺刺\x00切切\x00度度\x00拓拓\x00糖糖\x00宅宅\x00洞洞\x00暴暴\x00輻輻\x00行行\x00降降\x00見見\x00廓廓\x00兀兀\x00嗀嗀\x00塚塚\x00晴晴\x00凞凞\x00猪猪\x00益益\x00礼礼\x00神神\x00祥祥\x00福福\x00靖靖\x00精精\x00羽羽\x00蘒蘒\x00諸諸\x00逸逸\x00都都\x00飯飯\x00飼飼\x00館館\x00鶴鶴\x00郞郞\x00隷隷\x00侮侮\x00僧僧\x00免免\x00勉勉\x00勤勤\x00卑卑\x00喝喝\x00嘆嘆\x00器器\x00塀塀\x00墨墨\x00層層\x00屮屮\x00悔悔\x00慨慨\x00憎憎\x00懲懲\x00敏敏\x00既既\x00暑暑\x00梅梅\x00海海\x00渚渚\x00漢漢\x00煮煮\x00爫爫\x00琢琢\x00碑碑\x00社社\x00祉祉\x00祈祈\x00祐祐\x00祖祖\x00祝祝\x00禍禍\x00禎禎\x00穀穀\x00突突\x00節節\x00練練\x00縉縉\x00繁繁\x00署署\x00者者\x00臭臭\x00艹艹\x00艹艹\x00著著\x00褐褐\x00視視\x00謁謁\x00謹謹\x00賓賓\x00贈贈\x00辶辶\x00逸逸\x00難難\x00響響\x00頻頻\x00恵恵\x00𤋮𤋮\x00舘舘\x00並並\x00况况\x00全全\x00侀侀\x00充充\x00冀冀\x00勇勇\x00勺勺\x00喝喝\x00啕啕\x00喙喙\x00嗢嗢\x00塚塚\x00墳墳\x00奄奄\x00奔奔\x00婢婢\x00嬨嬨\x00廒廒\x00廙廙\x00彩彩\x00徭徭\x00惘惘\x00慎慎\x00愈愈\x00憎憎\x00慠慠\x00懲懲\x00戴戴\x00揄揄\x00搜搜\x00摒摒\x00敖敖\x00晴晴\x00朗朗\x00望望\x00杖杖\x00歹歹\x00殺殺\x00流流\x00滛滛\x00滋滋\x00漢漢\x00瀞瀞\x00煮煮\x00瞧瞧\x00爵爵\x00犯犯\x00猪猪\x00瑱瑱\x00甆甆\x00画画\x00瘝瘝\x00瘟瘟\x00益益\x00盛盛\x00直直\x00睊睊\x00着着\x00磌磌\x00窱窱\x00節節\x00类类\x00絛絛\x00練練\x00缾缾\x00者者\x00荒荒\x00華華\x00蝹蝹\x00襁襁\x00覆覆\x00視視\x00調調\x00諸諸\x00請請\x00謁謁\x00諾諾\x00諭諭\x00謹謹\x00變變\x00贈贈\x00輸輸\x00遲遲\x00醙醙\x00鉶鉶\x00陼陼\x00難難\x00靖靖\x00韛韛\x00響響\x00頋頋\x00頻頻\x00鬒鬒\x00龜龜\x00𢡊𢡊\x00𢡄𢡄\x00𣏕𣏕\x00㮝㮝\x00䀘䀘\x00䀹䀹\x00𥉉𥉉\x00𥳐𥳐\x00𧻓𧻓\x00齃齃\x00龎龎\x00יִיִ\x00ײַײַ\x00שׁשׁ\x00שׂשׂ\x00שּׁשּׁ\x00שּׂשּׂ\x00אַאַ\x00אָאָ\x00אּאּ\x00בּבּ\x00גּגּ\x00דּדּ\x00הּהּ\x00וּוּ\x00זּזּ\x00טּטּ\x00יּיּ\x00ךּךּ\x00כּכּ\x00לּלּ\x00מּמּ\x00נּנּ\x00סּסּ\x00ףּףּ\x00פּפּ\x00צּצּ\x00קּקּ\x00רּרּ\x00שּשּ\x00תּתּ\x00וֹוֹ\x00בֿבֿ\x00כֿכֿ\x00פֿפֿ\x00𑂚𑂚\x00𑂜𑂜\x00𑂫𑂫\x00𑄮𑄮\x00𑄯𑄯\x00𑍋𑍋\x00𑍌𑍌\x00𑒻𑒻\x00𑒼𑒼\x00𑒾𑒾\x00𑖺𑖺\x00𑖻𑖻\x00𑤸𑤸\x00𝅗𝅥𝅗𝅥\x00𝅘𝅥𝅘𝅥\x00𝅘𝅥𝅮𝅘𝅥𝅮\x00𝅘𝅥𝅯𝅘𝅥𝅯\x00𝅘𝅥𝅰𝅘𝅥𝅰\x00𝅘𝅥𝅱𝅘𝅥𝅱\x00𝅘𝅥𝅲𝅘𝅥𝅲\x00𝆹𝅥𝆹𝅥\x00𝆺𝅥𝆺𝅥\x00𝆹𝅥𝅮𝆹𝅥𝅮\x00𝆺𝅥𝅮𝆺𝅥𝅮\x00𝆹𝅥𝅯𝆹𝅥𝅯\x00𝆺𝅥𝅯𝆺𝅥𝅯\x00丽丽\x00丸丸\x00乁乁\x00𠄢𠄢\x00你你\x00侮侮\x00侻侻\x00倂倂\x00偺偺\x00備備\x00僧僧\x00像像\x00㒞㒞\x00𠘺𠘺\x00免免\x00兔兔\x00兤兤\x00具具\x00𠔜𠔜\x00㒹㒹\x00內內\x00再再\x00𠕋𠕋\x00冗冗\x00冤冤\x00仌仌\x00冬冬\x00况况\x00𩇟𩇟\x00凵凵\x00刃刃\x00㓟㓟\x00刻刻\x00剆剆\x00割割\x00剷剷\x00㔕㔕\x00勇勇\x00勉勉\x00勤勤\x00勺勺\x00包包\x00匆匆\x00北北\x00卉卉\x00卑卑\x00博博\x00即即\x00卽卽\x00卿卿\x00卿卿\x00卿卿\x00𠨬𠨬\x00灰灰\x00及及\x00叟叟\x00𠭣𠭣\x00叫叫\x00叱叱\x00吆吆\x00咞咞\x00吸吸\x00呈呈\x00周周\x00咢咢\x00哶哶\x00唐唐\x00啓啓\x00啣啣\x00善善\x00善善\x00喙喙\x00喫喫\x00喳喳\x00嗂嗂\x00圖圖\x00嘆嘆\x00圗圗\x00噑噑\x00噴噴\x00切切\x00壮壮\x00城城\x00埴埴\x00堍堍\x00型型\x00堲堲\x00報報\x00墬墬\x00𡓤𡓤\x00売売\x00壷壷\x00夆夆\x00多多\x00夢夢\x00奢奢\x00𡚨𡚨\x00𡛪𡛪\x00姬姬\x00娛娛\x00娧娧\x00姘姘\x00婦婦\x00㛮㛮\x00㛼㛼\x00嬈嬈\x00嬾嬾\x00嬾嬾\x00𡧈𡧈\x00寃寃\x00寘寘\x00寧寧\x00寳寳\x00𡬘𡬘\x00寿寿\x00将将\x00当当\x00尢尢\x00㞁㞁\x00屠屠\x00屮屮\x00峀峀\x00岍岍\x00𡷤𡷤\x00嵃嵃\x00𡷦𡷦\x00嵮嵮\x00嵫嵫\x00嵼嵼\x00巡巡\x00巢巢\x00㠯㠯\x00巽巽\x00帨帨\x00帽帽\x00幩幩\x00㡢㡢\x00𢆃𢆃\x00㡼㡼\x00庰庰\x00庳庳\x00庶庶\x00廊廊\x00𪎒𪎒\x00廾廾\x00𢌱𢌱\x00𢌱𢌱\x00舁舁\x00弢弢\x00弢弢\x00㣇㣇\x00𣊸𣊸\x00𦇚𦇚\x00形形\x00彫彫\x00㣣㣣\x00徚徚\x00忍忍\x00志志\x00忹忹\x00悁悁\x00㤺㤺\x00㤜㤜\x00悔悔\x00𢛔𢛔\x00惇惇\x00慈慈\x00慌慌\x00慎慎\x00慌慌\x00慺慺\x00憎憎\x00憲憲\x00憤憤\x00憯憯\x00懞懞\x00懲懲\x00懶懶\x00成成\x00戛戛\x00扝扝\x00抱抱\x00拔拔\x00捐捐\x00𢬌𢬌\x00挽挽\x00拼拼\x00捨捨\x00掃掃\x00揤揤\x00𢯱𢯱\x00搢搢\x00揅揅\x00掩掩\x00㨮㨮\x00摩摩\x00摾摾\x00撝撝\x00摷摷\x00㩬㩬\x00敏敏\x00敬敬\x00𣀊𣀊\x00旣旣\x00書書\x00晉晉\x00㬙㬙\x00暑暑\x00㬈㬈\x00㫤㫤\x00冒冒\x00冕冕\x00最最\x00暜暜\x00肭肭\x00䏙䏙\x00朗朗\x00望望\x00朡朡\x00杞杞\x00杓杓\x00𣏃𣏃\x00㭉㭉\x00柺柺\x00枅枅\x00桒桒\x00梅梅\x00𣑭𣑭\x00梎梎\x00栟栟\x00椔椔\x00㮝㮝\x00楂楂\x00榣榣\x00槪槪\x00檨檨\x00𣚣𣚣\x00櫛櫛\x00㰘㰘\x00次次\x00𣢧𣢧\x00歔歔\x00㱎㱎\x00歲歲\x00殟殟\x00殺殺\x00殻殻\x00𣪍𣪍\x00𡴋𡴋\x00𣫺𣫺\x00汎汎\x00𣲼𣲼\x00沿沿\x00泍泍\x00汧汧\x00洖洖\x00派派\x00海海\x00流流\x00浩浩\x00浸浸\x00涅涅\x00𣴞𣴞\x00洴洴\x00港港\x00湮湮\x00㴳㴳\x00滋滋\x00滇滇\x00𣻑𣻑\x00淹淹\x00潮潮\x00𣽞𣽞\x00𣾎𣾎\x00濆濆\x00瀹瀹\x00瀞瀞\x00瀛瀛\x00㶖㶖\x00灊灊\x00災災\x00灷灷\x00炭炭\x00𠔥𠔥\x00煅煅\x00𤉣𤉣\x00熜熜\x00𤎫𤎫\x00爨爨\x00爵爵\x00牐牐\x00𤘈𤘈\x00犀犀\x00犕犕\x00𤜵𤜵\x00𤠔𤠔\x00獺獺\x00王王\x00㺬㺬\x00玥玥\x00㺸㺸\x00㺸㺸\x00瑇瑇\x00瑜瑜\x00瑱瑱\x00璅璅\x00瓊瓊\x00㼛㼛\x00甤甤\x00𤰶𤰶\x00甾甾\x00𤲒𤲒\x00異異\x00𢆟𢆟\x00瘐瘐\x00𤾡𤾡\x00𤾸𤾸\x00𥁄𥁄\x00㿼㿼\x00䀈䀈\x00直直\x00𥃳𥃳\x00𥃲𥃲\x00𥄙𥄙\x00𥄳𥄳\x00眞眞\x00真真\x00真真\x00睊睊\x00䀹䀹\x00瞋瞋\x00䁆䁆\x00䂖䂖\x00𥐝𥐝\x00硎硎\x00碌碌\x00磌磌\x00䃣䃣\x00𥘦𥘦\x00祖祖\x00𥚚𥚚\x00𥛅𥛅\x00福福\x00秫秫\x00䄯䄯\x00穀穀\x00穊穊\x00穏穏\x00𥥼𥥼\x00𥪧𥪧\x00𥪧𥪧\x00竮竮\x00䈂䈂\x00𥮫𥮫\x00篆篆\x00築築\x00䈧䈧\x00𥲀𥲀\x00糒糒\x00䊠䊠\x00糨糨\x00糣糣\x00紀紀\x00𥾆𥾆\x00絣絣\x00䌁䌁\x00緇緇\x00縂縂\x00繅繅\x00䌴䌴\x00𦈨𦈨\x00𦉇𦉇\x00䍙䍙\x00𦋙𦋙\x00罺罺\x00𦌾𦌾\x00羕羕\x00翺翺\x00者者\x00𦓚𦓚\x00𦔣𦔣\x00聠聠\x00𦖨𦖨\x00聰聰\x00𣍟𣍟\x00䏕䏕\x00育育\x00脃脃\x00䐋䐋\x00脾脾\x00媵媵\x00𦞧𦞧\x00𦞵𦞵\x00𣎓𣎓\x00𣎜𣎜\x00舁舁\x00舄舄\x00辞辞\x00䑫䑫\x00芑芑\x00芋芋\x00芝芝\x00劳劳\x00花花\x00芳芳\x00芽芽\x00苦苦\x00𦬼𦬼\x00若若\x00茝茝\x00荣荣\x00莭莭\x00茣茣\x00莽莽\x00菧菧\x00著著\x00荓荓\x00菊菊\x00菌菌\x00菜菜\x00𦰶𦰶\x00𦵫𦵫\x00𦳕𦳕\x00䔫䔫\x00蓱蓱\x00蓳蓳\x00蔖蔖\x00𧏊𧏊\x00蕤蕤\x00𦼬𦼬\x00䕝䕝\x00䕡䕡\x00𦾱𦾱\x00𧃒𧃒\x00䕫䕫\x00虐虐\x00虜虜\x00虧虧\x00虩虩\x00蚩蚩\x00蚈蚈\x00蜎蜎\x00蛢蛢\x00蝹蝹\x00蜨蜨\x00蝫蝫\x00螆螆\x00䗗䗗\x00蟡蟡\x00蠁蠁\x00䗹䗹\x00衠衠\x00衣衣\x00𧙧𧙧\x00裗裗\x00裞裞\x00䘵䘵\x00裺裺\x00㒻㒻\x00𧢮𧢮\x00𧥦𧥦\x00䚾䚾\x00䛇䛇\x00誠誠\x00諭諭\x00變變\x00豕豕\x00𧲨𧲨\x00貫貫\x00賁賁\x00贛贛\x00起起\x00𧼯𧼯\x00𠠄𠠄\x00跋跋\x00趼趼\x00跰跰\x00𠣞𠣞\x00軔軔\x00輸輸\x00𨗒𨗒\x00𨗭𨗭\x00邔邔\x00郱郱\x00鄑鄑\x00𨜮𨜮\x00鄛鄛\x00鈸鈸\x00鋗鋗\x00鋘鋘\x00鉼鉼\x00鏹鏹\x00鐕鐕\x00𨯺𨯺\x00開開\x00䦕䦕\x00閷閷\x00𨵷𨵷\x00䧦䧦\x00雃雃\x00嶲嶲\x00霣霣\x00𩅅𩅅\x00𩈚𩈚\x00䩮䩮\x00䩶䩶\x00韠韠\x00𩐊𩐊\x00䪲䪲\x00𩒖𩒖\x00頋頋\x00頋頋\x00頩頩\x00𩖶𩖶\x00飢飢\x00䬳䬳\x00餩餩\x00馧馧\x00駂駂\x00駾駾\x00䯎䯎\x00𩬰𩬰\x00鬒鬒\x00鱀鱀\x00鳽鳽\x00䳎䳎\x00䳭䳭\x00鵧鵧\x00𪃎𪃎\x00䳸䳸\x00𪄅𪄅\x00𪈎𪈎\x00𪊑𪊑\x00麻麻\x00䵖䵖\x00黹黹\x00黾黾\x00鼅鼅\x00鼏鼏\x00鼖鼖\x00鼻鼻\x00𪘀𪘀"

/-- Full canonical decompositions (NFD, recursively expanded) from the Unicode
    data used by Python unicodedata; Hangul syllables are decomposed
    algorithmically and are not in this table.  Entry format: the first
    character is the codepoint, the rest its full decomposition. -/
def nfdTable : List (Nat × Str) := decodeKeyed nfdTableData
/-- Packed data for cccRuns: three characters per entry (lo, hi, class). -/
def cccRunsData : String :=
  "̀̔æ̕̕è̖̙Ü̚̚è̛̛Ø̜̠Ü̡̢Ệ̦Ü̧̨Ê̩̳Ü̴̸\x01̹̼Ü̽̈́æͅͅð͆͆æ͇͉Ü͊͌æ͍͎Ü͐͒æ͓͖Ü͗͗æ͘͘è͙͚Ü͛͛æ͜͜é͝͞ê͟͟é͠͡ê͢͢éͣͯæ҃҇æ֑֑Ü֒֕æ֖֖Ü֗֙æ֚֚Þ֛֛Ü֜֡æ֢֧Ü֨֩æ֪֪Ü֫֬æ֭֭Þ֮֮ä֯֯æְְ\nֱֱ\x0bֲֲ\x0cֳֳ\rִִ\x0eֵֵ\x0fֶֶ\x10ַַ\x11ָָ\x12ֹֺ\x13ֻֻ\x14ּּ\x15ֽֽ\x16ֿֿ\x17ׁׁ\x18ׂׂ\x19ׄׄæׅׅÜׇׇ\x12ؐؗæؘؘ\x1eؙؙ\x1fؚؚ ًً\x1bٌٌ\x1cٍٍ\x1dََ\x1eُُ\x1fِِ ّّ!ْْ\"ٓٔæٕٖÜٗٛæٜٜÜٝٞæٟٟÜٰٰ#ۖۜæ۟ۢæۣۣÜۤۤæۧۨæ۪۪Ü۫۬æۭۭÜܑܑ$ܰܰæܱܱÜܲܳæܴܴÜܵܶæܷܹÜܺܺæܻܼÜܽܽæܾܾÜܿ݁æ݂݂Ü݃݃æ݄݄Ü݅݅æ݆݆Ü݇݇æ݈݈Ü݉݊æ߫߱æ߲߲Ü߳߳æ߽߽Üࠖ࠙æࠛࠣæࠥࠧæࠩ࠭æ࡙࡛Ü࢘࢘æ࢙࢛Ü࢜࢟æ࣊࣎æ࣏࣓Üࣔ࣡æࣣࣣÜࣤࣥæࣦࣦÜࣧࣨæࣩࣩÜ࣪࣬æ࣭࣯Üࣰࣰ\x1bࣱࣱ\x1cࣲࣲ\x1dࣳࣵæࣶࣶÜࣷࣸæࣹࣺÜࣻࣿæ़़\x07््\t॑॑æ॒॒Ü॓॔æ়়\x07্্\t৾৾æ਼਼\x07੍੍\t઼઼\x07્્\t଼଼\x07୍୍\t்்\t఼఼\x07్్\tౕౕTౖౖ[಼಼\x07್್\t഻഼\t്്\t්්\tุูgฺฺ\t่๋kຸູv຺຺\t່໋z༘༙Ü༵༵Ü༷༷Ü༹༹Øཱཱ\u0081ིི\u0082ུུ\u0084ེཽ\u0082ྀྀ\u0082ྂྃæ྄྄\t྆྇æ࿆࿆Ü့့\x07္်\tႍႍÜ፝፟æ᜔᜕\t᜴᜴\t្្\t៝៝æᢩᢩä᤹᤹Þ᤺᤺æ᤻᤻ÜᨗᨗæᨘᨘÜ᩠᩠\t᩵᩼æ᩿᩿Ü᪰᪴æ᪵᪺Ü᪻᪼æ᪽᪽ÜᪿᫀÜ᫁᫂æ᫃᫄Ü᫅᫉æ᫊᫊Ü᫋ᫎæ᬴᬴\x07᭄᭄\t᭫᭫æ᭬᭬Ü᭭᭳æ᮪᮫\t᯦᯦\x07᯲᯳\t᰷᰷\x07᳐᳒æ᳔᳔\x01᳕᳙Ü᳚᳛æ᳜᳟Ü᳠᳠æ᳢᳨\x01᳭᳭Ü᳴᳴æ᳸᳹æ᷀᷁æ᷂᷂Ü᷃᷉æ᷊᷊Ü᷋᷌æ᷍᷍ê᷎᷎Ö᷏᷏Ü᷐᷐Ê᷑᷵æ᷶᷶è᷷᷸ä᷹᷹Ü᷺᷺Ú᷻᷻æ᷼᷼é᷽᷽Ü᷾᷾æ᷿᷿Ü⃐⃑æ⃒⃓\x01⃔⃗æ⃘⃚\x01⃛⃜æ⃡⃡æ⃥⃦\x01⃧⃧æ⃨⃨Ü⃩⃩æ⃪⃫\x01⃬⃯Ü⃰⃰æ⳯⳱æ⵿⵿\tⷠⷿæ〪〪Ú〫〫ä〬〬è〭〭Þ〮〯à゙゚\x08꙯꙯æꙴ꙽æꚞꚟæ꛰꛱æ꠆꠆\t꠬꠬\t꣄꣄\t꣠꣱æ꤫꤭Ü꥓꥓\t꦳꦳\x07꧀꧀\tꪰꪰæꪲꪳæꪴꪴÜꪷꪸæꪾ꪿æ꫁꫁æ꫶꫶\t꯭꯭\tﬞﬞ\x1a︠︦æ︧︭Ü︮︯æ𐇽𐇽Ü𐋠𐋠Ü𐍶𐍺æ𐨍𐨍Ü𐨏𐨏æ𐨸𐨸æ𐨹𐨹\x01𐨺𐨺Ü𐨿𐨿\t𐫥𐫥æ𐫦𐫦Ü𐴤𐴧æ𐺫𐺬æ𐽆𐽇Ü𐽈𐽊æ𐽋𐽋Ü𐽌𐽌æ𐽍𐽐Ü𐾂𐾂æ𐾃𐾃Ü𐾄𐾄æ𐾅𐾅Ü𑁆𑁆\t𑁰𑁰\t𑁿𑁿\t𑂹𑂹\t𑂺𑂺\x07𑄀𑄂æ𑄳𑄴\t𑅳𑅳\x07𑇀𑇀\t𑇊𑇊\x07𑈵𑈵\t𑈶𑈶\x07𑋩𑋩\x07𑋪𑋪\t𑌻𑌼\x07𑍍𑍍\t𑍦𑍬æ𑍰𑍴æ𑑂𑑂\t𑑆𑑆\x07𑑞𑑞æ𑓂𑓂\t𑓃𑓃\x07𑖿𑖿\t𑗀𑗀\x07𑘿𑘿\t𑚶𑚶\t𑚷𑚷\x07𑜫𑜫\t𑠹𑠹\t𑠺𑠺\x07𑤽𑤾\t𑥃𑥃\x07𑧠𑧠\t𑨴𑨴\t𑩇𑩇\t𑪙𑪙\t𑰿𑰿\t𑵂𑵂\x07𑵄𑵅\t𑶗𑶗\t𖫰𖫴\x01𖬰𖬶æ𖿰𖿱\x06𛲞𛲞\x01𝅥𝅦Ø𝅧𝅩\x01𝅭𝅭â𝅮𝅲Ø𝅻𝆂Ü𝆅𝆉æ𝆊𝆋Ü𝆪𝆭æ𝉂𝉄æ𞀀𞀆æ𞀈𞀘æ𞀛𞀡æ𞀣𞀤æ𞀦𞀪æ𞄰𞄶æ𞊮𞊮æ𞋬𞋯æ𞣐𞣖Ü𞥄𞥉æ𞥊𞥊\x07"

/-- Canonical combining classes (only nonzero entries), as runs of
    consecutive codepoints lo..hi with equal class. -/
def cccRuns : List (Nat × Nat × Nat) := decodeTriples cccRunsData
/-- Packed data for compTable: three characters per entry (a, b, composite). -/
def compTableData : String :=
  "ÀÀÁÁÂÂÃÃÄÄÅÅÇÇÈÈÉÉÊÊËËÌÌÍÍÎÎÏÏÑÑÒÒÓÓÔÔÕÕÖÖÙÙÚÚÛÛÜÜÝÝààááââããääååççèèééêêëëììííîîïïññòòóóôôõõööùùúúûûüüýýÿÿĀĀāāĂĂăăĄĄąąĆĆććĈĈĉĉĊĊċċČČččĎĎďďĒĒēēĔĔĕĕĖĖėėĘĘęęĚĚěěĜĜĝĝĞĞğğĠĠġġĢĢģģĤĤĥĥĨĨĩĩĪĪīīĬĬĭĭĮĮįįİİĴĴĵĵĶĶķķĹĹĺĺĻĻļļĽĽľľŃŃńńŅŅņņŇŇňňŌŌōōŎŎŏŏŐŐőőŔŔŕŕŖŖŗŗŘŘřřŚŚśśŜŜŝŝŞŞşşŠŠššŢŢţţŤŤťťŨŨũũŪŪūūŬŬŭŭŮŮůůŰŰűűŲŲųųŴŴŵŵŶŶŷŷŸŸŹŹźźŻŻżżŽŽžžƠƠơơƯƯưưǍǍǎǎǏǏǐǐǑǑǒǒǓǓǔǔǕǕǖǖǗǗǘǘǙǙǚǚǛǛǜǜǞǞǟǟǠǠǡǡǢǢǣǣǦǦǧǧǨǨǩǩǪǪǫǫǬǬǭǭǮǮǯǯǰǰǴǴǵǵǸǸǹǹǺǺǻǻǼǼǽǽǾǾǿǿȀȀȁȁȂȂȃȃȄȄȅȅȆȆȇȇȈȈȉȉȊȊȋȋȌȌȍȍȎȎȏȏȐȐȑȑȒȒȓȓȔȔȕȕȖȖȗȗȘȘșșȚȚțțȞȞȟȟȦȦȧȧȨȨȩȩȪȪȫȫȬȬȭȭȮȮȯȯȰȰȱȱȲȲȳȳ΅΅ΆΆΈΈΉΉΊΊΌΌΎΎΏΏΐΐΪΪΫΫάάέέήήίίΰΰϊϊϋϋόόύύώώϓϓϔϔЀЀЁЁЃЃЇЇЌЌЍЍЎЎЙЙййѐѐёёѓѓїїќќѝѝўўѶѶѷѷӁӁӂӂӐӐӑӑӒӒӓӓӖӖӗӗӚӚӛӛӜӜӝӝӞӞӟӟӢӢӣӣӤӤӥӥӦӦӧӧӪӪӫӫӬӬӭӭӮӮӯӯӰӰӱӱӲӲӳӳӴӴӵӵӸӸӹӹآآأأؤؤإإئئۀۀۂۂۓۓऩऩऱऱऴऴোোৌৌୈୈୋୋୌୌஔஔொொோோௌௌైైೀೀೇೇೈೈೊೊೋೋൊൊോോൌൌේේොොෝෝෞෞဦဦᬆᬆᬈᬈᬊᬊᬌᬌᬎᬎᬒᬒᬻᬻᬽᬽᭀᭀᭁᭁᭃᭃḀḀḁḁḂḂḃḃḄḄḅḅḆḆḇḇḈḈḉḉḊḊḋḋḌḌḍḍḎḎḏḏḐḐḑḑḒḒḓḓḔḔḕḕḖḖḗḗḘḘḙḙḚḚḛḛḜḜḝḝḞḞḟḟḠḠḡḡḢḢḣḣḤḤḥḥḦḦḧḧḨḨḩḩḪḪḫḫḬḬḭḭḮḮḯḯḰḰḱḱḲḲḳḳḴḴḵḵḶḶḷḷḸḸḹḹḺḺḻḻḼḼḽḽḾḾḿḿṀṀṁṁṂṂṃṃṄṄṅṅṆṆṇṇṈṈṉṉṊṊṋṋṌṌṍṍṎṎṏṏṐṐṑṑṒṒṓṓṔṔṕṕṖṖṗṗṘṘṙṙṚṚṛṛṜṜṝṝṞṞṟṟṠṠṡṡṢṢṣṣṤṤṥṥṦṦṧṧṨṨṩṩṪṪṫṫṬṬṭṭṮṮṯṯṰṰṱṱṲṲṳṳṴṴṵṵṶṶṷṷṸṸṹṹṺṺṻṻṼṼṽṽṾṾṿṿẀẀẁẁẂẂẃẃẄẄẅẅẆẆẇẇẈẈẉẉẊẊẋẋẌẌẍẍẎẎẏẏẐẐẑẑẒẒẓẓẔẔẕẕẖẖẗẗẘẘẙẙẛẛẠẠạạẢẢảảẤẤấấẦẦầầẨẨẩẩẪẪẫẫẬẬậậẮẮắắẰẰằằẲẲẳẳẴẴẵẵẶẶặặẸẸẹẹẺẺẻẻẼẼẽẽẾẾếếỀỀềềỂỂểểỄỄễễỆỆệệỈỈỉỉỊỊịịỌỌọọỎỎỏỏỐỐốốỒỒồồỔỔổổỖỖỗỗỘỘộộỚỚớớỜỜờờỞỞởởỠỠỡỡỢỢợợỤỤụụỦỦủủỨỨứứỪỪừừỬỬửửỮỮữữỰỰựựỲỲỳỳỴỴỵỵỶỶỷỷỸỸỹỹἀἀἁἁἂἂἃἃἄἄἅἅἆἆἇἇἈἈἉἉἊἊἋἋἌἌἍἍἎἎἏἏἐἐἑἑἒἒἓἓἔἔἕἕἘἘἙἙἚἚἛἛἜἜἝἝἠἠἡἡἢἢἣἣἤἤἥἥἦἦἧἧἨἨἩἩἪἪἫἫἬἬἭἭἮἮἯἯἰἰἱἱἲἲἳἳἴἴἵἵἶἶἷἷἸἸἹἹἺἺἻἻἼἼἽἽἾἾἿἿὀὀὁὁὂὂὃὃὄὄὅὅὈὈὉὉὊὊὋὋὌὌὍὍὐὐὑὑὒὒὓὓὔὔὕὕὖὖὗὗὙὙὛὛὝὝὟὟὠὠὡὡὢὢὣὣὤὤὥὥὦὦὧὧὨὨὩὩὪὪὫὫὬὬὭὭὮὮὯὯὰὰὲὲὴὴὶὶὸὸὺὺὼὼᾀᾀᾁᾁᾂᾂᾃᾃᾄᾄᾅᾅᾆᾆᾇᾇᾈᾈᾉᾉᾊᾊᾋᾋᾌᾌᾍᾍᾎᾎᾏᾏᾐᾐᾑᾑᾒᾒᾓᾓᾔᾔᾕᾕᾖᾖᾗᾗᾘᾘᾙᾙᾚᾚᾛᾛᾜᾜᾝᾝᾞᾞᾟᾟᾠᾠᾡᾡᾢᾢᾣᾣᾤᾤᾥᾥᾦᾦᾧᾧᾨᾨᾩᾩᾪᾪᾫᾫᾬᾬᾭᾭᾮᾮᾯᾯᾰᾰᾱᾱᾲᾲᾳᾳᾴᾴᾶᾶᾷᾷᾸᾸᾹᾹᾺᾺᾼᾼ῁῁ῂῂῃῃῄῄῆῆῇῇῈῈῊῊῌῌ῍῍῎῎῏῏ῐῐῑῑῒῒῖῖῗῗῘῘῙῙῚῚ῝῝῞῞῟῟ῠῠῡῡῢῢῤῤῥῥῦῦῧῧῨῨῩῩῪῪῬῬ῭῭ῲῲῳῳῴῴῶῶῷῷῸῸῺῺῼῼ↚↚↛↛↮↮⇍⇍⇎⇎⇏⇏∄∄∉∉∌∌∤∤∦∦≁≁≄≄≇≇≉≉≠≠≢≢≭≭≮≮≯≯≰≰≱≱≴≴≵≵≸≸≹≹⊀⊀⊁⊁⊄⊄⊅⊅⊈⊈⊉⊉⊬⊬⊭⊭⊮⊮⊯⊯⋠⋠⋡⋡⋢⋢⋣⋣⋪⋪⋫⋫⋬⋬⋭⋭ががぎぎぐぐげげごござざじじずずぜぜぞぞだだぢぢづづででどどばばぱぱびびぴぴぶぶぷぷべべぺぺぼぼぽぽゔゔゞゞガガギギググゲゲゴゴザザジジズズゼゼゾゾダダヂヂヅヅデデドドババパパビビピピブブププベベペペボボポポヴヴヷヷヸヸヹヹヺヺヾヾ𑂚𑂚𑂜𑂜𑂫𑂫𑄮𑄮𑄯𑄯𑍋𑍋𑍌𑍌𑒻𑒻𑒼𑒼𑒾𑒾𑖺𑖺𑖻𑖻𑤸𑤸"

/-- Primary composite table for NFC composition: pairs that canonically
    compose, excluding algorithmic Hangul composition. -/
def compTable : List ((Nat × Nat) × Nat) := decodePairTriples compTableData
/-- For each ASCII letter, the codepoints that Python re matches against that
    literal letter under re.IGNORECASE. -/
def iLetterClasses : List (Nat × List Nat) := [
  (97, [65, 97]),
  (98, [66, 98]),
  (99, [67, 99]),
  (100, [68, 100]),
  (101, [69, 101]),
  (102, [70, 102]),
  (103, [71, 103]),
  (104, [72, 104]),
  (105, [73, 105, 304, 305]),
  (106, [74, 106]),
  (107, [75, 107, 8490]),
  (108, [76, 108]),
  (109, [77, 109]),
  (110, [78, 110]),
  (111, [79, 111]),
  (112, [80, 112]),
  (113, [81, 113]),
  (114, [82, 114]),
  (115, [83, 115, 383]),
  (116, [84, 116]),
  (117, [85, 117]),
  (118, [86, 118]),
  (119, [87, 119]),
  (120, [88, 120]),
  (121, [89, 121]),
  (122, [90, 122])
]
/-- Python `str.isdigit` for one codepoint. -/
def pyIsDigitChar (c : Nat) : Bool := inRanges isdigitRanges c

/-- Converts text to superscript (clean.py `to_superscript`): if every character
    has a superscript form, map character-by-character; else a single character
    falls back to "^" + text and longer text to "^(" + text + ")". -/
def to_superscript (text : Str) : Str :=
  if text = [] then []
  else if text.all (fun x => (List.lookup [x] superscript_ht).isSome) then
    text.flatMap (fun x => (List.lookup [x] superscript_ht).getD [])
  else if text.length = 1 then 94 :: text
  else 94 :: 40 :: (text ++ [41])

/-- Converts text to subscript (clean.py `to_subscript`), with "_" fallbacks. -/
def to_subscript (text : Str) : Str :=
  if text = [] then []
  else if text.all (fun x => (List.lookup [x] subscript_ht).isSome) then
    text.flatMap (fun x => (List.lookup [x] subscript_ht).getD [])
  else if text.length = 1 then 95 :: text
  else 95 :: 40 :: (text ++ [41])

/-- Converts text to a chemical formula, making digits subscript (clean.py `to_chem`). -/
def to_chem (text : Str) : Str :=
  text.flatMap (fun x => if pyIsDigitChar x then to_subscript [x] else [x])
/-- Fuel-driven worker for `splitNl`: splits into alternating pieces and
    separator runs, where a separator is a maximal run of newlines.  This is
    the behaviour of Python re.split(r"(\n+)", text) with the separator group
    kept: the result alternates (possibly empty) pieces and newline runs,
    starting and ending with a piece. -/
def splitNlF : Nat → Str → Str → List Str
  | 0, acc, _ => [acc.reverse]
  | _ + 1, acc, [] => [acc.reverse]
  | fuel + 1, acc, c :: t =>
    if c == nl then
      acc.reverse :: ((c :: t).takeWhile (fun x => x == nl)) ::
        splitNlF fuel [] ((c :: t).dropWhile (fun x => x == nl))
    else splitNlF fuel (c :: acc) t

/-- Python re.split(r"(\n+)", text) with captured separators kept. -/
def splitNl (s : Str) : List Str := splitNlF (s.length + 1) [] s

/-- Does the string begin with an apostrophe. -/
def headIsApos : Str → Bool
  | [] => false
  | c :: _ => c == apos

/-- Fuel-driven worker for `splitApos`: a separator is a maximal run of at
    least two apostrophes; a lone apostrophe stays inside the piece. -/
def splitAposF : Nat → Str → Str → List Str
  | 0, acc, _ => [acc.reverse]
  | _ + 1, acc, [] => [acc.reverse]
  | fuel + 1, acc, c :: t =>
    if c == apos && headIsApos t then
      acc.reverse :: ((c :: t).takeWhile (fun x => x == apos)) ::
        splitAposF fuel [] ((c :: t).dropWhile (fun x => x == apos))
    else splitAposF fuel (c :: acc) t

/-- Python re.split(r"(''+)", line) with captured separators kept. -/
def splitApos (s : Str) : List Str := splitAposF (s.length + 1) [] s

/-- Worker for clean.py `bold_follows`: scans the given parts for one that
    starts a bold marker; parts that do not start with two apostrophes are
    skipped. -/
def boldFollowsGo : List Str → Bool
  | [] => false
  | p :: t =>
    if ¬ pyStartsWith p (List.replicate 2 apos) then boldFollowsGo t
    else if pyStartsWith p (List.replicate 3 apos) then true
    else boldFollowsGo t

/-- clean.py `bold_follows(parts, i)`: checks if there is a bold marker (a run
    of three or more apostrophes) in parts after parts[i], allowing intervening
    italic markers. -/
def bold_follows (parts : List Str) (i : Nat) : Bool :=
  boldFollowsGo (parts.drop (i + 1))

/-- One marker step of the per-line emphasis state machine of clean.py
    `remove_italic_and_bold` (only called on parts that start with two
    apostrophes): given the current state (0 = none, 1 = italic, 2 = bold,
    3 = both), the marker part and the later parts of the same line, returns
    the unconsumed remainder of the part and the next state. -/
def ribMarkerStep (state : Nat) (part : Str) (rest : List Str) : Str × Nat :=
  if pyStartsWith part (List.replicate 5 apos) then
    if state = 1 then (part.drop 5, 2)
    else if state = 2 then (part.drop 5, 1)
    else if state = 3 then (part.drop 5, 0)
    else (part.drop 5, 3)
  else if pyStartsWith part (List.replicate 3 apos) then
    if state = 1 then
      if boldFollowsGo rest then (part.drop 3, 3) else (part.drop 2, 0)
    else if state = 2 then (part.drop 3, 0)
    else if state = 3 then (part.drop 3, 1)
    else (part.drop 3, 2)
  else
    if state = 1 then (part.drop 2, 0)
    else if state = 2 then (part.drop 2, 3)
    else if state = 3 then (part.drop 2, 2)
    else (part.drop 2, 1)

/-- Processes the parts of one line (from re.split(r"(''+)")), returning the
    list of output parts appended by clean.py `remove_italic_and_bold`: marker
    parts contribute their unconsumed remainder only when it is nonempty;
    other parts are appended verbatim.  The later parts passed to
    `ribMarkerStep` are exactly parts[i+1:], as in `bold_follows(parts, i)`. -/
def ribGo : Nat → List Str → List Str
  | _, [] => []
  | state, part :: rest =>
    if pyStartsWith part (List.replicate 2 apos) then
      match ribMarkerStep state part rest with
      | (p2, st2) => (if p2 ≠ [] then [p2] else []) ++ ribGo st2 rest
    else part :: ribGo state rest

/-- clean.py `remove_italic_and_bold`: split into lines and newline runs,
    process each element with the per-line state machine (state starts at 0
    for every element), append "\n" after every element, drop the final
    element (the last appended "\n"), and join. -/
def remove_italic_and_bold (text : Str) : Str :=
  ((splitNl text).flatMap (fun line => ribGo 0 (splitApos line) ++ [[nl]])).dropLast.flatten
/-!
A backtracking regular-expression engine modelling the subset of Python `re`
used by clean.py: character classes, concatenation, alternation with Python's
first-alternative priority, greedy and lazy star and option, numbered capturing
groups, negative lookahead, word boundaries and the dollar anchor.  Matching is
continuation-passing and returns the first success in Python's backtracking
order.  A starred body that matches without consuming input ends the
repetition, as in Python; every starred body in the patterns transcribed below
consumes at least one character when it matches.
-/

/-- Errors of the modelled Python code: list-index errors, chr range errors,
    and exhaustion of the explicit fuel that stands in for unbounded loops and
    recursion (never reached in any run evaluated in this file). -/
inductive PyErr where
  | indexError : PyErr
  | valueError : PyErr
  | keyError : PyErr
  | fuelOut : PyErr
deriving DecidableEq, Repr

deriving instance DecidableEq for Except

/-- Regex abstract syntax. -/
inductive RE where
  | eps : RE
  | cls (p : Nat → Bool) : RE
  | seq (a b : RE) : RE
  | alt (a b : RE) : RE
  | star (lazyQ : Bool) (r : RE) : RE
  | opt (lazyQ : Bool) (r : RE) : RE
  | group (idx : Nat) (r : RE) : RE
  | nla (r : RE) : RE
  | wordB : RE
  | eos : RE

/-- Matcher state: the previously consumed character (for word boundaries),
    the remaining input, and the captures recorded so far (latest first; a
    group is considered to have participated iff its index is present). -/
structure MSt where
  prev : Option Nat
  rest : Str
  caps : List (Nat × Str)

/-- Python re `\w` for one codepoint. -/
def pyIsWord (c : Nat) : Bool := inRanges wordRanges c

/-- Python re `\s` for one codepoint. -/
def pyIsSpaceRe (c : Nat) : Bool := inRanges spaceReRanges c

/-- Python re `\d` for one codepoint. -/
def pyIsDigitRe (c : Nat) : Bool := inRanges digitReRanges c

/-- Python `str.isspace` for one codepoint. -/
def pyIsSpaceStr (c : Nat) : Bool := inRanges isspaceRanges c

/-- Python `str.isalpha` for one codepoint. -/
def pyIsAlphaChar (c : Nat) : Bool := inRanges isalphaRanges c

/-- Python `str.isalnum` for one codepoint. -/
def pyIsAlnumChar (c : Nat) : Bool := inRanges isalnumRanges c

/-- Is the optional codepoint a word character (an absent edge is not). -/
def isWordOpt : Option Nat → Bool
  | none => false
  | some c => pyIsWord c

/-- Star iteration, taking the body matcher as a function argument; the fuel
    bounds the number of iterations by the input length, and an iteration that
    consumes nothing ends the repetition. -/
def starCPS (g : MSt → (MSt → Option MSt) → Option MSt) :
    Nat → Bool → MSt → (MSt → Option MSt) → Option MSt
  | 0, _, st, k => k st
  | fuel + 1, lazyQ, st, k =>
    if lazyQ then
      match k st with
      | some r => some r
      | none =>
        g st (fun st2 =>
          if st2.rest.length < st.rest.length then starCPS g fuel lazyQ st2 k else none)
    else
      match g st (fun st2 =>
          if st2.rest.length < st.rest.length then starCPS g fuel lazyQ st2 k else none) with
      | some r => some r
      | none => k st

/-- The continuation-passing matcher: first success in Python's order. -/
def matchCPS : RE → MSt → (MSt → Option MSt) → Option MSt
  | .eps, st, k => k st
  | .cls p, st, k =>
    match st.rest with
    | [] => none
    | c :: t => if p c then k ⟨some c, t, st.caps⟩ else none
  | .seq a b, st, k => matchCPS a st (fun st2 => matchCPS b st2 k)
  | .alt a b, st, k =>
    match matchCPS a st k with
    | some r => some r
    | none => matchCPS b st k
  | .star lazyQ r, st, k => starCPS (matchCPS r) (st.rest.length + 1) lazyQ st k
  | .opt lazyQ r, st, k =>
    if lazyQ then
      match k st with
      | some r2 => some r2
      | none => matchCPS r st k
    else
      match matchCPS r st k with
      | some r2 => some r2
      | none => k st
  | .group i r, st, k =>
    matchCPS r st (fun st2 =>
      k ⟨st2.prev, st2.rest, (i, st.rest.take (st.rest.length - st2.rest.length)) :: st2.caps⟩)
  | .nla r, st, k =>
    match matchCPS r st some with
    | some _ => none
    | none => k st
  | .wordB, st, k =>
    if isWordOpt st.prev != isWordOpt st.rest.head? then k st else none
  | .eos, st, k =>
    match st.rest with
    | [] => k st
    | [c] => if c == nl then k st else none
    | _ => none

/-- A match result: the matched text (group 0) and the captures. -/
structure PyMatch where
  g0 : Str
  caps : List (Nat × Str)
deriving DecidableEq, Repr

/-- Python `m.group(i)` for positive i: none when the group did not
    participate in the match. -/
def pyGroup (m : PyMatch) (i : Nat) : Option Str := List.lookup i m.caps

/-- Attempts a match at the start of s (Python re.match), with the given
    left-context character. -/
def matchAtPrev (r : RE) (prev : Option Nat) (s : Str) : Option MSt :=
  matchCPS r ⟨prev, s, []⟩ some

/-- Python re.match(r, s): match only at the start of the string. -/
def pyMatch (r : RE) (s : Str) : Option PyMatch :=
  match matchAtPrev r none s with
  | some st => some ⟨s.take (s.length - st.rest.length), st.caps⟩
  | none => none

/-- Does re.match succeed. -/
def pyMatchB (r : RE) (s : Str) : Bool := (pyMatch r s).isSome

/-- Scanner for re.sub with a stateful, fallible replacement function: scans
    left to right, replacing non-overlapping matches; an empty match emits the
    replacement and then copies one character. -/
def pySubStGo (r : RE) (repl : PyMatch → σ → Except PyErr (Str × σ)) :
    Nat → Option Nat → Str → σ → Except PyErr (Str × σ)
  | 0, _, s, st => .ok (s, st)
  | fuel + 1, prev, s, st =>
    match matchAtPrev r prev s with
    | some mst =>
      let consumed := s.length - mst.rest.length
      match repl ⟨s.take consumed, mst.caps⟩ st with
      | .error e => .error e
      | .ok (rep, st2) =>
        if consumed = 0 then
          match s with
          | [] => .ok (rep, st2)
          | c :: t =>
            match pySubStGo r repl fuel (some c) t st2 with
            | .error e => .error e
            | .ok (rest2, st3) => .ok (rep ++ c :: rest2, st3)
        else
          match pySubStGo r repl fuel mst.prev mst.rest st2 with
          | .error e => .error e
          | .ok (rest2, st3) => .ok (rep ++ rest2, st3)
    | none =>
      match s with
      | [] => .ok ([], st)
      | c :: t =>
        match pySubStGo r repl fuel (some c) t st with
        | .error e => .error e
        | .ok (rest2, st2) => .ok (c :: rest2, st2)

/-- Python re.sub with a stateful, fallible replacement function. -/
def pySubSt (r : RE) (repl : PyMatch → σ → Except PyErr (Str × σ)) (s : Str) (st : σ) :
    Except PyErr (Str × σ) :=
  pySubStGo r repl (s.length + 1) none s st

/-- Python re.sub with a fallible replacement function. -/
def pySubM (r : RE) (repl : PyMatch → Except PyErr Str) (s : Str) : Except PyErr Str :=
  match pySubSt r (fun m _ => match repl m with
    | .ok t => .ok (t, ())
    | .error e => .error e) s () with
  | .ok (t, _) => .ok t
  | .error e => .error e

/-- Scanner for re.sub with a pure replacement function. -/
def pySubPGo (r : RE) (repl : PyMatch → Str) : Nat → Option Nat → Str → Str
  | 0, _, s => s
  | fuel + 1, prev, s =>
    match matchAtPrev r prev s with
    | some mst =>
      let consumed := s.length - mst.rest.length
      let rep := repl ⟨s.take consumed, mst.caps⟩
      if consumed = 0 then
        match s with
        | [] => rep
        | c :: t => rep ++ c :: pySubPGo r repl fuel (some c) t
      else rep ++ pySubPGo r repl fuel mst.prev mst.rest
    | none =>
      match s with
      | [] => []
      | c :: t => c :: pySubPGo r repl fuel (some c) t

/-- Python re.sub with a pure replacement function. -/
def pySubP (r : RE) (repl : PyMatch → Str) (s : Str) : Str :=
  pySubPGo r repl (s.length + 1) none s

/-- Python re.sub with a constant replacement string. -/
def pySubC (r : RE) (rep : Str) (s : Str) : Str := pySubP r (fun _ => rep) s

/-- Python re.finditer: the list of non-overlapping matches, left to right. -/
def pyFindIterGo (r : RE) : Nat → Option Nat → Str → List PyMatch
  | 0, _, _ => []
  | fuel + 1, prev, s =>
    match matchAtPrev r prev s with
    | some mst =>
      let consumed := s.length - mst.rest.length
      let m : PyMatch := ⟨s.take consumed, mst.caps⟩
      if consumed = 0 then
        match s with
        | [] => [m]
        | c :: t => m :: pyFindIterGo r fuel (some c) t
      else m :: pyFindIterGo r fuel mst.prev mst.rest
    | none =>
      match s with
      | [] => []
      | c :: t => pyFindIterGo r fuel (some c) t

/-- Python re.finditer over a whole string. -/
def pyFindIter (r : RE) (s : Str) : List PyMatch :=
  pyFindIterGo r (s.length + 1) none s

/-- A single literal character. -/
def chrRE (c : Nat) : RE := .cls (fun x => x == c)

/-- A literal sequence of characters. -/
def lit : Str → RE
  | [] => .eps
  | [c] => chrRE c
  | c :: t => .seq (chrRE c) (lit t)

/-- A literal from a Lean string. -/
def litS (s : String) : RE := lit (strOf s)

/-- Python `.` without DOTALL: any character except newline. -/
def anyNoNl : RE := .cls (fun c => c != nl)

/-- Python `.` with DOTALL: any character. -/
def anyCh : RE := .cls (fun _ => true)

/-- A character set, as in a regex character class. -/
def cin (s : String) : RE := .cls (fun c => (strOf s).contains c)

/-- A negated character set. -/
def cnot (s : String) : RE := .cls (fun c => !(strOf s).contains c)

/-- One or more repetitions. -/
def rplus (lazyQ : Bool) (r : RE) : RE := .seq r (.star lazyQ r)

/-- Alternation of a nonempty list, with the priority of its order. -/
def alts : List RE → RE
  | [] => .eps
  | [r] => r
  | r :: t => .alt r (alts t)

/-- An ASCII letter, as in the class a-zA-Z. -/
def asciiLetter : RE := .cls (fun c => (65 ≤ c && c ≤ 90) || (97 ≤ c && c ≤ 122))

/-- An ASCII digit, as in the class 0-9. -/
def digit09 : RE := .cls (fun c => 48 ≤ c && c ≤ 57)

/-- Python re `\s` as a regex. -/
def wsRE : RE := .cls pyIsSpaceRe

/-- Python re `\w` as a regex. -/
def wordRE : RE := .cls pyIsWord

/-- The literal backslash. -/
def bslash : RE := chrRE 92
/-!
The LaTeX-subset math renderer of clean.py: `to_math` with its inner
`expand`, `math_magic`, `expand_group` and `recurse`.  The mutable list
`magic_vec` and the printed diagnostics are threaded through an explicit
state `MathSt`.
-/

/-- Modelled from the spec: `wikitextprocessor.common.MAGIC_FIRST`, the first
    codepoint of the reserved private-use range used for magic placeholder
    characters (the spec: codepoints are allocated sequentially starting at a
    reserved private-use range).  The numeric value is not part of this
    repository; we use the first Plane-16 private-use codepoint. -/
def MAGIC_FIRST : Nat := 0x100000

/-- Modelled from the spec: `wikitextprocessor.common.MAGIC_LAST`, the last
    reserved magic codepoint. -/
def MAGIC_LAST : Nat := 0x10FFFD

/-- Python `str.strip()` with no argument: remove leading and trailing
    whitespace characters. -/
def pyStrip (s : Str) : Str :=
  ((s.dropWhile pyIsSpaceStr).reverse.dropWhile pyIsSpaceStr).reverse

/-- Python `s.isspace()`: nonempty and all whitespace. -/
def pyStrIsSpace (s : Str) : Bool := !s.isEmpty && s.all pyIsSpaceStr

/-- Python `s.isalnum()`: nonempty and all alphanumeric. -/
def pyStrIsAlnum (s : Str) : Bool := !s.isEmpty && s.all pyIsAlnumChar

/-- clean.py `mathcal_fn`: map characters through mathcal_map, keeping
    unmapped characters. -/
def mathcal_fn (t : Str) : Str := t.flatMap (fun c => (List.lookup [c] mathcal_map).getD [c])

/-- clean.py `mathfrak_fn`. -/
def mathfrak_fn (t : Str) : Str := t.flatMap (fun c => (List.lookup [c] mathfrak_map).getD [c])

/-- clean.py `mathbb_fn`. -/
def mathbb_fn (t : Str) : Str := t.flatMap (fun c => (List.lookup [c] mathbb_map).getD [c])

/-- The state of one to_math invocation: the append-only magic table
    `magic_vec` and the diagnostics printed so far. -/
structure MathSt where
  vec : List Str
  diags : List Str
deriving DecidableEq, Repr

/-- One pass of to_math's `expand`: replace every magic character by its table
    entry; an out-of-range table index is Python's IndexError. -/
def expandPass (vec : List Str) : Str → Except PyErr Str
  | [] => .ok []
  | c :: t =>
    if MAGIC_FIRST ≤ c && c ≤ MAGIC_LAST then
      match vec.get? (c - MAGIC_FIRST) with
      | some e =>
        match expandPass vec t with
        | .ok r => .ok (e ++ r)
        | .error er => .error er
      | none => .error .indexError
    else
      match expandPass vec t with
      | .ok r => .ok (c :: r)
      | .error er => .error er

/-- The while-loop of to_math's `expand`: repeat `expandPass` to a fixed point. -/
def expandLoop (vec : List Str) : Nat → Str → Except PyErr Str
  | 0, _ => .error .fuelOut
  | fuel + 1, text =>
    match expandPass vec text with
    | .error e => .error e
    | .ok t => if t = text then .ok text else expandLoop vec fuel t

/-- clean.py to_math's `expand`: expand magic characters until no more change.
    Each changing pass strictly decreases the largest magic index present when
    entries only reference earlier slots, so vec.length + 2 passes reach the
    fixed point in every run that the Python code completes. -/
def expand (vec : List Str) (text : Str) : Except PyErr Str :=
  expandLoop vec (vec.length + 2) text

/-- The `fn` variable of clean.py `expand_group`: which character-map to apply
    after expansion. -/
inductive FnKind where
  | cal : FnKind
  | frak : FnKind
  | bb : FnKind
  | subK : FnKind
  | supK : FnKind
deriving DecidableEq

/-- Applies the selected character map. -/
def applyFn : FnKind → Str → Str
  | .cal, t => mathcal_fn t
  | .frak, t => mathfrak_fn t
  | .bb, t => mathbb_fn t
  | .subK, t => to_subscript t
  | .supK, t => to_superscript t

/-- The single-unit argument pattern of the frac/binom argument regex and of
    the tokenizer's frac alternative: a backslash command, a backslash-escaped
    character, or one character. -/
def unitRE : RE := alts [.seq bslash (rplus false asciiLetter), .seq bslash anyNoNl, anyNoNl]

/-- re.match pattern backslash-mathcal with a word boundary. -/
def reMathcal : RE := .seq (litS "\\mathcal") .wordB

/-- re.match pattern backslash-mathfrak with a word boundary. -/
def reMathfrak : RE := .seq (litS "\\mathfrak") .wordB

/-- re.match pattern backslash-mathbb with a word boundary. -/
def reMathbb : RE := .seq (litS "\\mathbb") .wordB

/-- re.match pattern backslash (begin or end) with a word boundary. -/
def reBeginEnd : RE := .seq bslash (.seq (.group 1 (.alt (litS "begin") (litS "end"))) .wordB)

/-- re.match pattern backslash-text with a word boundary. -/
def reText : RE := .seq (litS "\\text") .wordB

/-- re.match pattern backslash-pmod with a word boundary. -/
def rePmod : RE := .seq (litS "\\pmod") .wordB

/-- re.match pattern backslash-sqrt followed by an opening square bracket. -/
def reSqrtBracket : RE := lit (strOf "\\sqrt" ++ [91])

/-- re.match pattern backslash-sqrt followed by end, a digit, or a boundary. -/
def reSqrt : RE := .seq (litS "\\sqrt") (.group 1 (alts [.eos, digit09, .wordB]))

/-- re.match pattern backslash (frac or binom) followed by end, a digit, or a
    boundary. -/
def reFracBinomHead : RE :=
  .seq bslash (.seq (.group 1 (.alt (litS "frac") (litS "binom")))
    (.group 2 (alts [.eos, digit09, .wordB])))

/-- The anchored frac/binom argument regex: exactly two single units up to the
    end of the token. -/
def reFracBinomArgs : RE :=
  .seq bslash (.seq (.group 1 (.alt (litS "frac") (litS "binom")))
    (.seq (.star false wsRE)
      (.seq (.group 2 unitRE) (.seq (.star false wsRE) (.seq (.group 3 unitRE) .eos)))))

/-- The mapping step at the head of clean.py `expand_group`'s common tail: a
    backslash command goes through math_map with the alphanumeric-spacing and
    literal fallbacks; pure whitespace and the ampersand are dropped. -/
def groupMapped (v : Str) : Str :=
  if pyStartsWith v [92] then
    match List.lookup (pyStrip (v.drop 1)) math_map with
    | none =>
      if pyStrIsAlnum (pyStrip (v.drop 1)) then [32] ++ pyStrip (v.drop 1) ++ [32]
      else pyStrip (v.drop 1)
    | some mapped => mapped
  else if pyStrIsSpace v || v == [38] then []
  else v

/-- The common tail of clean.py `expand_group` (reached unless the frac/binom
    parse fails): map the token with `groupMapped`, expand magic characters,
    apply the selected character map if any, and expand again. -/
def finishGroup (st : MathSt) (fn : Option FnKind) (v : Str) : Except PyErr (Str × MathSt) :=
  match fn with
  | some f =>
    match expand st.vec (groupMapped v) with
    | .error e => .error e
    | .ok v2 =>
      match expand st.vec (applyFn f v2) with
      | .error e => .error e
      | .ok v3 => .ok (v3, st)
  | none =>
    match expand st.vec (groupMapped v) with
    | .error e => .error e
    | .ok v2 => .ok (v2, st)

/-- clean.py `expand_group`: renders one token.  The fuel bounds the recursion
    on strictly shorter arguments (the pmod group and the frac/binom
    arguments); a failed frac/binom argument parse emits a diagnostic and
    returns the token unrendered, skipping the common tail. -/
def expand_group : Nat → MathSt → Str → Except PyErr (Str × MathSt)
  | 0, _, _ => .error .fuelOut
  | fuel + 1, st, v0 =>
    if pyMatchB reMathcal v0 then finishGroup st (some .cal) (pyStrip (v0.drop 8))
    else if pyMatchB reMathfrak v0 then finishGroup st (some .frak) (pyStrip (v0.drop 9))
    else if pyMatchB reMathbb v0 then finishGroup st (some .bb) (v0.drop 7)
    else if pyMatchB reBeginEnd v0 then finishGroup st none []
    else if pyMatchB reText v0 then finishGroup st none (v0.drop 5)
    else if pyMatchB rePmod v0 then
      match expand_group fuel st (pyStrip (v0.drop 5)) with
      | .error e => .error e
      | .ok (inner, st2) => finishGroup st2 none (strOf "(mod " ++ inner ++ [41])
    else if pyMatchB reSqrtBracket v0 then
      let a := pyStrip ((v0.drop 6).dropLast)
      if a = [50] then finishGroup st none [0x221A]
      else if a = [51] then finishGroup st none [0x221B]
      else if a = [52] then finishGroup st none [0x221C]
      else finishGroup st none (to_superscript a ++ [0x221A])
    else if pyMatchB reSqrt v0 then finishGroup st none [0x221A]
    else if pyMatchB reFracBinomHead v0 then
      match pyMatch reFracBinomArgs v0 with
      | none => .ok (v0, ⟨st.vec, st.diags ++ [strOf "MATH FRAC/BINOM ERROR: " ++ v0]⟩)
      | some m =>
        let op := (pyGroup m 1).getD []
        match expand_group fuel st ((pyGroup m 2).getD []) with
        | .error e => .error e
        | .ok (a1, st1) =>
          match expand_group fuel st1 ((pyGroup m 3).getD []) with
          | .error e => .error e
          | .ok (b1, st2) =>
            let a2 := pyStrip a1
            let b2 := pyStrip b1
            let a3 := if 1 < a2.length then [40] ++ a2 ++ [41] else a2
            let b3 := if 1 < b2.length then [40] ++ b2 ++ [41] else b2
            let v1 :=
              if op = strOf "frac" then a3 ++ [47] ++ b3
              else if op = strOf "binom" then
                strOf "binom(" ++ a3 ++ strOf ", " ++ b3 ++ [41]
              else op ++ [40] ++ v0 ++ [41]
            finishGroup st2 none v1
    else if pyStartsWith v0 [95] then finishGroup st (some .subK) (v0.drop 1)
    else if pyStartsWith v0 [94] then finishGroup st (some .supK) (v0.drop 1)
    else finishGroup st none v0

/-- The innermost-group regex of clean.py `math_magic` for braces: an opening
    brace, one or more characters that are neither brace, a closing brace. -/
def braceRE : RE :=
  .seq (chrRE 123)
    (.seq (.group 1 (rplus false (.cls (fun c => c != 123 && c != 125)))) (chrRE 125))

/-- The replacement closure of clean.py `math_magic`: as in the Python code,
    the magic codepoint is computed from the table length before the renderer
    runs on the captured group, and the rendered, stripped group is then
    appended to the table; a codepoint beyond the Unicode range would be
    Python's chr ValueError. -/
def mathMagicRepl (recFn : MathSt → Str → Except PyErr (Str × MathSt))
    (m : PyMatch) (st1 : MathSt) : Except PyErr (Str × MathSt) :=
  let magic := MAGIC_FIRST + st1.vec.length
  if 0x10FFFF < magic then .error .valueError
  else
    match recFn st1 ((pyGroup m 1).getD []) with
    | .error e => .error e
    | .ok (t, st2) => .ok ([magic], ⟨st2.vec ++ [pyStrip t], st2.diags⟩)

/-- One re.sub pass of clean.py `math_magic`, taking the group renderer as a
    function argument. -/
def mathMagicPass (recFn : MathSt → Str → Except PyErr (Str × MathSt))
    (st : MathSt) (text : Str) : Except PyErr (Str × MathSt) :=
  pySubSt braceRE (mathMagicRepl recFn) text st

/-- The while-loop of clean.py `math_magic`: repeat the substitution pass to a
    fixed point (every changing pass strictly shortens the text, so
    text.length + 1 passes suffice). -/
def mathMagicLoop (recFn : MathSt → Str → Except PyErr (Str × MathSt)) :
    Nat → MathSt → Str → Except PyErr (Str × MathSt)
  | 0, _, _ => .error .fuelOut
  | fuel + 1, st, text =>
    match mathMagicPass recFn st text with
    | .error e => .error e
    | .ok (t, st2) => if t = text then .ok (text, st2) else mathMagicLoop recFn fuel st2 t

/-- The outer while-loop of clean.py `recurse` around math_magic. -/
def recurseMagicLoop (recFn : MathSt → Str → Except PyErr (Str × MathSt)) :
    Nat → MathSt → Str → Except PyErr (Str × MathSt)
  | 0, _, _ => .error .fuelOut
  | fuel + 1, st, text =>
    match mathMagicLoop recFn (text.length + 1) st text with
    | .error e => .error e
    | .ok (t, st2) => if t = text then .ok (text, st2) else recurseMagicLoop recFn fuel st2 t

/-- The second alternative group of the tokenizer's frac alternative, in
    Python's priority order. -/
def tokFracAlt2 : RE :=
  alts [
    .seq (litS "\\dot\\")
      (.group 3 (alts [litS "bigvee", litS "cup", litS "cap", litS "lor", litS "vee"])),
    .seq (litS "\\not\\")
      (.group 4 (alts [litS "subset", litS "supset", litS "subseteq", litS "supseteq",
        litS "in", litS "ni", litS "preceq", litS "succeq", litS "vartrianglelefteq",
        litS "vartrianglerighteq", litS "trianglelefteq", litS "trianglerighteq"])),
    lit (strOf "\\widehat" ++ [123, 61, 125]),
    litS "\\widehat=",
    .seq (litS "\\overset") (.seq (.opt false (chrRE 123)) (lit [125, 123, 61, 125])),
    litS "\\overset?=",
    lit (strOf "\\overset" ++ [123] ++ strOf "\\operatorname" ++ [123] ++ strOf "def"
      ++ [125, 125, 123, 61, 125]),
    .seq bslash (rplus false asciiLetter),
    .seq bslash anyNoNl,
    anyNoNl]

/-- The optional prefix of the tokenizer's general alternative: a named
    alphabet or structural command with a word boundary and optional
    whitespace, or backslash-sqrt with an optional bracketed degree. -/
def tokPrefixAlt : RE :=
  .alt
    (.seq bslash (.seq (.group 6 (alts [litS "mathcal", litS "mathfrak", litS "mathbb",
      litS "text", litS "begin", litS "end", litS "pmod"])) (.seq .wordB (.star false wsRE))))
    (.seq (litS "\\sqrt") (.seq .wordB
      (.opt false (.group 7 (.seq (chrRE 91) (.seq (rplus false digit09) (chrRE 93)))))))

/-- The final element of the tokenizer's general alternative. -/
def tokFinalAlt : RE :=
  alts [.seq bslash (.seq (rplus false asciiLetter) (.star false wsRE)),
        .seq bslash anyNoNl,
        rplus false wordRE,
        anyNoNl]

/-- The finditer tokenizer of clean.py `recurse`: whitespace runs; a frac with
    two inline units (the second drawn from a list of multi-token idioms); or
    an optional prefix, an optional subscript or superscript lead, and a final
    unit. -/
def tokRE : RE :=
  alts [rplus false wsRE,
        .seq (litS "\\frac") (.seq (.star false wsRE)
          (.seq (.group 1 unitRE) (.seq (.star false wsRE) (.group 2 tokFracAlt2)))),
        .seq (.opt false (.group 5 tokPrefixAlt))
          (.seq (.opt false (cin "_^")) (.group 8 tokFinalAlt))]

/-- The spacing-and-append step for rendered tokens in clean.py `recurse`:
    insert a space between an alphabetic or numeric tail and a numeric head. -/
def recursePartsStep (parts : List Str) (v : Str) : List Str :=
  if v = [] then parts
  else
    let lastc := (parts.getLastD []).getLastD 0
    let digits := strOf "0123456789"
    let vsp :=
      if (!parts.isEmpty && pyIsAlphaChar lastc && digits.contains (v.headD 0)) ||
         (!parts.isEmpty && digits.contains lastc && digits.contains (v.headD 0)) then
        [32] ++ v
      else v
    parts ++ [vsp]

/-- The token loop of clean.py `recurse`: strip each match, skip empty ones,
    render with expand_group, and combine. -/
def recurseTokens : MathSt → List Str → List PyMatch → Except PyErr (List Str × MathSt)
  | st, parts, [] => .ok (parts, st)
  | st, parts, m :: rest =>
    let v := pyStrip m.g0
    if v = [] then recurseTokens st parts rest
    else
      match expand_group (v.length + 1) st v with
      | .error e => .error e
      | .ok (v2, st2) => recurseTokens st2 (recursePartsStep parts v2) rest

/-- clean.py to_math's `recurse`: flatten brace groups innermost-first via
    magic substitution, then tokenize the flattened text and render each
    token. -/
def recurse : Nat → MathSt → Str → Except PyErr (Str × MathSt)
  | 0, _, _ => .error .fuelOut
  | fuel + 1, st, text =>
    match recurseMagicLoop (recurse fuel) (text.length + 1) st text with
    | .error e => .error e
    | .ok (t2, st2) =>
      match recurseTokens st2 [] (pyFindIter tokRE t2) with
      | .error e => .error e
      | .ok (parts, st3) => .ok (parts.flatten, st3)

/-- clean.py `to_math`: converts a mathematical formula to a Unicode
    rendering, returning the rendered text and the printed diagnostics. -/
def to_math (text : Str) : Except PyErr (Str × List Str) :=
  match recurse (text.length + 1) ⟨[], []⟩ text with
  | .error e => .error e
  | .ok (t, st) => .ok (t, st.diags)
/-! Helper lemmas about the split functions and the per-line state machine. -/

theorem length_dropWhile_le (p : Nat → Bool) : ∀ l : Str, (l.dropWhile p).length ≤ l.length := by
  intro l
  induction l with
  | nil => simp
  | cons c t ih =>
    by_cases hc : p c
    · rw [List.dropWhile_cons_of_pos hc]
      exact Nat.le_succ_of_le ih
    · rw [List.dropWhile_cons_of_neg hc]

theorem join_splitAposF : ∀ (fuel : Nat) (acc s : Str), s.length ≤ fuel →
    (splitAposF fuel acc s).flatten = acc.reverse ++ s := by
  intro fuel
  induction fuel with
  | zero =>
    intro acc s h
    have hs : s = [] := List.length_eq_zero.mp (Nat.le_zero.mp h)
    subst hs
    simp [splitAposF]
  | succ fuel ih =>
    intro acc s h
    match s with
    | [] => simp [splitAposF]
    | c :: t =>
      by_cases hc : (c == apos && headIsApos t) = true
      · have hdl : ((c :: t).dropWhile (fun x => x == apos)).length ≤ fuel := by
          have hca : (c == apos) = true := by
            cases hb : (c == apos) <;> simp [hb] at hc ⊢
          have h1 : (c :: t).dropWhile (fun x => x == apos) = t.dropWhile (fun x => x == apos) :=
            List.dropWhile_cons_of_pos hca
          rw [h1]
          calc (t.dropWhile (fun x => x == apos)).length ≤ t.length := length_dropWhile_le _ t
            _ ≤ fuel := by simpa using Nat.le_of_succ_le_succ h
        have hrest := ih [] ((c :: t).dropWhile (fun x => x == apos)) hdl
        simp only [splitAposF, hc, if_pos]
        simp only [List.flatten_cons, hrest, List.reverse_nil, List.nil_append]
        rw [List.takeWhile_append_dropWhile]
      · have hrest := ih (c :: acc) t (by simpa using Nat.le_of_succ_le_succ h)
        simp only [splitAposF, hc, if_neg, Bool.false_eq_true, not_false_iff]
        rw [hrest]
        simp

theorem join_splitApos (s : Str) : (splitApos s).flatten = s := by
  simpa using join_splitAposF (s.length + 1) [] s (Nat.le_succ _)

theorem splitNlF_no_nl : ∀ (fuel : Nat) (acc s : Str), s.length ≤ fuel →
    (∀ c ∈ s, c ≠ nl) → splitNlF fuel acc s = [acc.reverse ++ s] := by
  intro fuel
  induction fuel with
  | zero =>
    intro acc s h _
    have hs : s = [] := List.length_eq_zero.mp (Nat.le_zero.mp h)
    subst hs
    simp [splitNlF]
  | succ fuel ih =>
    intro acc s h hno
    match s with
    | [] => simp [splitNlF]
    | c :: t =>
      have hc : (c == nl) = false := by
        have := hno c (by simp)
        simpa using this
      have hrest := ih (c :: acc) t (by simpa using Nat.le_of_succ_le_succ h)
        (fun x hx => hno x (List.mem_cons_of_mem _ hx))
      simp only [splitNlF, hc, Bool.false_eq_true, if_neg, not_false_iff]
      rw [hrest]
      simp

theorem splitNl_no_nl (s : Str) (h : ∀ c ∈ s, c ≠ nl) : splitNl s = [s] := by
  simpa using splitNlF_no_nl (s.length + 1) [] s (Nat.le_succ _) h

theorem ribGo_id : ∀ (state : Nat) (parts : List Str),
    (∀ p ∈ parts, pyStartsWith p (List.replicate 2 apos) = false) →
    ribGo state parts = parts := by
  intro state parts
  induction parts generalizing state with
  | nil => intro _; rfl
  | cons p rest ih =>
    intro hall
    have hp : pyStartsWith p (List.replicate 2 apos) = false := hall p (by simp)
    simp only [ribGo, hp, Bool.false_eq_true, if_neg, not_false_iff]
    rw [ih state (fun q hq => hall q (List.mem_cons_of_mem _ hq))]
/-! Claims about the emphasis state machine and the script converters. -/

/-- C6 counterexample: the claim predicts that a run of exactly four apostrophes
    removes the leading two as an italic toggle, leaving two literal apostrophes;
    on input of four apostrophes followed by x the code instead leaves one. -/
theorem C6_counterexample :
    remove_italic_and_bold (List.replicate 4 apos ++ [120]) ≠ List.replicate 2 apos ++ [120] := by
  decide

/-- C6 amended: a run of four apostrophes is handled by the three-apostrophe
    (bold-toggle) case: in states none, bold and both it consumes three and
    leaves one literal apostrophe; in state italic it consumes three when a bold
    marker follows on the line and otherwise two, leaving one or two literal
    apostrophes.  Concretely, four apostrophes before x yield one apostrophe
    before x. -/
theorem C6_theorem : ∀ rest : List Str,
    ribMarkerStep 0 (List.replicate 4 apos) rest = ([apos], 2) ∧
    ribMarkerStep 2 (List.replicate 4 apos) rest = ([apos], 0) ∧
    ribMarkerStep 3 (List.replicate 4 apos) rest = ([apos], 1) ∧
    ribMarkerStep 1 (List.replicate 4 apos) rest =
      (if boldFollowsGo rest then ([apos], 3) else (List.replicate 2 apos, 0)) ∧
    remove_italic_and_bold (List.replicate 4 apos ++ [120]) = apos :: [120] := by
  intro rest
  have h5 : pyStartsWith [apos, apos, apos, apos] [apos, apos, apos, apos, apos] = false := by
    decide
  have h3 : pyStartsWith [apos, apos, apos, apos] [apos, apos, apos] = true := by decide
  refine ⟨?_, ?_, ?_, ?_, by decide⟩ <;>
    simp only [List.replicate] <;> simp [ribMarkerStep, h5, h3]

/-- C7 counterexample: the claim says non-marker text, including line
    separators, is preserved verbatim; but a marker-free two-line input is not
    returned unchanged (each newline-split element gets an extra newline
    appended). -/
theorem C7_counterexample :
    remove_italic_and_bold (strOf "a\nb") ≠ strOf "a\nb" := by decide

/-- C7 amended: within one line, parts that are not apostrophe-run markers are
    preserved verbatim in order (a line with no markers is returned unchanged,
    and a whole text without newlines and markers is returned unchanged), and a
    marker part contributes a suffix of itself obtained by dropping the
    recognized prefix of two, three or five apostrophes; but line separators are
    not preserved verbatim: every element of the newline split (separator runs
    included) gets one extra newline appended, the last being dropped, so the
    two-line input a-newline-b comes back with three newlines in the middle. -/
theorem C7_theorem :
    (∀ (state : Nat) (parts : List Str),
      (∀ p ∈ parts, pyStartsWith p (List.replicate 2 apos) = false) →
      ribGo state parts = parts) ∧
    (∀ (state : Nat) (part : Str) (rest : List Str), ∃ k,
      (k = 2 ∨ k = 3 ∨ k = 5) ∧ (ribMarkerStep state part rest).1 = part.drop k) ∧
    (∀ text : Str, (∀ c ∈ text, c ≠ nl) →
      (∀ p ∈ splitApos text, pyStartsWith p (List.replicate 2 apos) = false) →
      remove_italic_and_bold text = text) ∧
    remove_italic_and_bold (strOf "a\nb") = strOf "a\n\n\nb" := by
  refine ⟨ribGo_id, ?_, ?_, by decide⟩
  · intro state part rest
    unfold ribMarkerStep
    split_ifs <;>
      first
        | exact ⟨5, by norm_num, rfl⟩
        | exact ⟨3, by norm_num, rfl⟩
        | exact ⟨2, by norm_num, rfl⟩
  · intro text hnl hmark
    unfold remove_italic_and_bold
    rw [splitNl_no_nl text hnl]
    simp only [List.flatMap_cons, List.flatMap_nil, List.append_nil]
    rw [ribGo_id 0 _ hmark]
    rw [List.dropLast_concat]
    exact join_splitApos text

/-- C7 witness: the marker-free, newline-free input ab is returned unchanged. -/
theorem C7_witness :
    (∀ c ∈ strOf "ab", c ≠ nl) ∧ remove_italic_and_bold (strOf "ab") = strOf "ab" :=
  ⟨by decide, C7_theorem.2.2.1 (strOf "ab") (by decide) (by decide)⟩

/-- C8 counterexample: the claim says the unmapped single character capital
    sigma is rendered in the parenthesized form; the code renders it with a
    plain caret instead. -/
theorem C8_counterexample : to_superscript (strOf "Σ") ≠ strOf "^(Σ)" := by decide

/-- C8 amended: digits 123 map to the superscript digits; the single unmapped
    character capital sigma falls back to caret followed by the character (the
    parenthesized fallback applies only to unmapped text longer than one
    character); in general any unmapped single character c gives caret-c and
    any text of length at least two containing an unmapped character gives the
    parenthesized caret form. -/
theorem C8_theorem :
    to_superscript (strOf "123") = strOf "¹²³" ∧
    to_superscript (strOf "Σ") = 94 :: strOf "Σ" ∧
    (∀ c : Nat, (List.lookup [c] superscript_ht).isSome = false → to_superscript [c] = [94, c]) ∧
    (∀ s : Str, ∀ c ∈ s, (List.lookup [c] superscript_ht).isSome = false → 2 ≤ s.length →
      to_superscript s = 94 :: 40 :: (s ++ [41])) := by
  refine ⟨by decide, by decide, ?_, ?_⟩
  · intro c h
    simp [to_superscript, h]
  · intro s c hc h hlen
    have hall : s.all (fun x => (List.lookup [x] superscript_ht).isSome) = false := by
      rw [List.all_eq_false]
      exact ⟨c, hc, by simp [h]⟩
    have hne : ¬ s = [] := by
      intro e
      subst e
      simp at hlen
    have hl1 : ¬ s.length = 1 := by omega
    simp [to_superscript, hne, hall, hl1]

/-- C8 witness: instances of the two conditional parts, at capital sigma and at
    capital sigma followed by x. -/
theorem C8_witness :
    to_superscript [931] = [94, 931] ∧
    to_superscript [931, 120] = 94 :: 40 :: ([931, 120] ++ [41]) :=
  ⟨C8_theorem.2.2.1 931 (by decide),
   C8_theorem.2.2.2 [931, 120] 931 (by decide) (by decide) (by decide)⟩

/-- C10: in state italic, a run of exactly three apostrophes with no later
    bold marker on the line consumes only two of the three while closing the
    italic, so one literal apostrophe from the run remains; concretely,
    italic-open a bold-run b yields a, one apostrophe, b. -/
theorem C10_theorem (rest : List Str) (h : boldFollowsGo rest = false) :
    ribMarkerStep 1 (List.replicate 3 apos) rest = ([apos], 0) ∧
    remove_italic_and_bold [apos, apos, 97, apos, apos, apos, 98] = [97, apos, 98] := by
  constructor
  · simp only [ribMarkerStep, h]
    decide
  · decide

/-- C10 witness: the empty remainder of a line has no later bold marker. -/
theorem C10_witness :
    ribMarkerStep 1 (List.replicate 3 apos) [] = ([apos], 0) :=
  (C10_theorem [] (by decide)).1
/-! Helper lemmas for the frac/binom branch of expand_group. -/

theorem pyStartsWith_exists (v p : Str) (h : pyStartsWith v p = true) :
    ∃ w, v = p ++ w := by
  induction p generalizing v with
  | nil => exact ⟨v, rfl⟩
  | cons c t ih =>
    match v with
    | [] => simp [pyStartsWith] at h
    | d :: v' =>
      simp only [pyStartsWith, Bool.and_eq_true, beq_iff_eq] at h
      obtain ⟨w, hw⟩ := ih v' h.2
      exact ⟨w, by simp [h.1, hw]⟩

theorem strOf_frac : strOf "\\frac" = [92, 102, 114, 97, 99] := rfl

theorem mathcalFalse (c : Nat) (w : Str) (h : (c == 109) = false) :
    pyMatchB reMathcal (92 :: c :: w) = false := by
  simp [reMathcal, pyMatchB, pyMatch, matchAtPrev, matchCPS, litS, lit, strOf, chrRE, h]

theorem mathfrakFalse (c : Nat) (w : Str) (h : (c == 109) = false) :
    pyMatchB reMathfrak (92 :: c :: w) = false := by
  simp [reMathfrak, pyMatchB, pyMatch, matchAtPrev, matchCPS, litS, lit, strOf, chrRE, h]

theorem mathbbFalse (c : Nat) (w : Str) (h : (c == 109) = false) :
    pyMatchB reMathbb (92 :: c :: w) = false := by
  simp [reMathbb, pyMatchB, pyMatch, matchAtPrev, matchCPS, litS, lit, strOf, chrRE, h]

theorem beginEndFalse (c : Nat) (w : Str) (h1 : (c == 98) = false) (h2 : (c == 101) = false) :
    pyMatchB reBeginEnd (92 :: c :: w) = false := by
  simp [reBeginEnd, pyMatchB, pyMatch, matchAtPrev, matchCPS, litS, lit, strOf, chrRE, h1, h2]

theorem textFalse (c : Nat) (w : Str) (h : (c == 116) = false) :
    pyMatchB reText (92 :: c :: w) = false := by
  simp [reText, pyMatchB, pyMatch, matchAtPrev, matchCPS, litS, lit, strOf, chrRE, h]

theorem pmodFalse (c : Nat) (w : Str) (h : (c == 112) = false) :
    pyMatchB rePmod (92 :: c :: w) = false := by
  simp [rePmod, pyMatchB, pyMatch, matchAtPrev, matchCPS, litS, lit, strOf, chrRE, h]

theorem sqrtBracketFalse (c : Nat) (w : Str) (h : (c == 115) = false) :
    pyMatchB reSqrtBracket (92 :: c :: w) = false := by
  simp [reSqrtBracket, pyMatchB, pyMatch, matchAtPrev, matchCPS, litS, lit, strOf, chrRE, h]

theorem sqrtFalse (c : Nat) (w : Str) (h : (c == 115) = false) :
    pyMatchB reSqrt (92 :: c :: w) = false := by
  simp [reSqrt, pyMatchB, pyMatch, matchAtPrev, matchCPS, litS, lit, strOf, chrRE, h]

/-- The frac/binom failure rule of expand_group, for tokens that start with
    the frac command: when the anchored two-unit argument regex does not
    match, a diagnostic is appended and the token is returned unrendered. -/
theorem expandGroupFracFailure (w : Str) (st : MathSt) (fuel : Nat)
    (hhead : pyMatchB reFracBinomHead (strOf "\\frac" ++ w) = true)
    (hargs : pyMatch reFracBinomArgs (strOf "\\frac" ++ w) = none) :
    expand_group (fuel + 1) st (strOf "\\frac" ++ w) =
      .ok (strOf "\\frac" ++ w,
        ⟨st.vec, st.diags ++ [strOf "MATH FRAC/BINOM ERROR: " ++ (strOf "\\frac" ++ w)]⟩) := by
  have hv : strOf "\\frac" ++ w = 92 :: 102 :: 114 :: 97 :: 99 :: w := by
    rw [strOf_frac]
    rfl
  rw [hv] at hhead hargs ⊢
  simp only [expand_group,
    mathcalFalse 102 _ (by decide), mathfrakFalse 102 _ (by decide),
    mathbbFalse 102 _ (by decide),
    beginEndFalse 102 _ (by decide) (by decide), textFalse 102 _ (by decide),
    pmodFalse 102 _ (by decide), sqrtBracketFalse 102 _ (by decide),
    sqrtFalse 102 _ (by decide), hhead, hargs,
    Bool.false_eq_true, if_false, if_true]

/-- C4: evaluation of the code at the failing input.  The tokenizer emits the
    sqrt prefix together with the following placeholder character as one
    token, so the degree slice v[6:-1] keeps the closing square bracket: the
    degree compares as the two-character text three-bracket, never equal to
    the bare digit, every bracketed root falls into the superscript fallback,
    and the radicand placeholder is discarded.  The degree-to-glyph branches
    are unreachable from the tokenizer and the claimed rendering differs from
    the code on the spec's own example. -/
theorem C4_theorem :
    to_math (strOf "\\sqrt[3]\x7bx\x7d") = .ok (strOf "^(3])√", []) ∧
    to_math (strOf "\\sqrt[3]\x7bx\x7d") ≠ .ok (strOf "∛x", []) ∧
    to_math (strOf "\\sqrt[2]\x7bx\x7d") = .ok (strOf "^(2])√", []) ∧
    to_math (strOf "\\sqrt[10]\x7bx\x7d") = .ok (strOf "^(10])√", []) ∧
    pyStrip (((strOf "\\sqrt[3]" ++ [MAGIC_FIRST]).drop 6).dropLast) = strOf "3]" := by
  refine ⟨by decide, by decide, by decide, by decide, by decide⟩

/-- C5 counterexample: the claim says binom with two single-unit arguments
    renders as binom(a, b); the tokenizer's multi-argument alternative covers
    only frac, so the binom command is tokenized bare, its argument parse
    fails, a diagnostic is emitted, and the arguments surface as separate
    tokens. -/
theorem C5_counterexample :
    to_math (strOf "\\binom\x7b7\x7d\x7b2\x7d") ≠ .ok (strOf "binom(7, 2)", []) ∧
    to_math (strOf "\\binom\x7b7\x7d\x7b2\x7d") =
      .ok (strOf "\\binom 7 2", [strOf "MATH FRAC/BINOM ERROR: " ++ strOf "\\binom"]) := by
  exact ⟨by decide, by decide⟩

/-- C5 amended: frac with two single-unit arguments (a backslash command, a
    backslash-escaped character, or one character) renders as a slash b,
    parenthesizing a side whose rendering is more than one character, and in
    particular the spec's example frac of one and two gives 1/2; a frac token
    whose argument shape does not match the anchored two-unit regex emits a
    MATH FRAC/BINOM ERROR diagnostic and is returned unrendered; binom,
    however, never reaches its binom(a, b) rendering from the tokenizer (its
    multi-argument alternative covers only frac), so binom of seven and two
    emits the diagnostic and renders as the bare command followed by the
    argument tokens. -/
theorem C5_theorem :
    to_math (strOf "\\frac\x7b1\x7d\x7b2\x7d") = .ok (strOf "1/2", []) ∧
    to_math (strOf "\\frac\x7b12\x7d\x7b2\x7d") = .ok (strOf "(12)/2", []) ∧
    to_math (strOf "\\frac\\alpha\\beta") = .ok (strOf "α/β", []) ∧
    (∀ (w : Str) (st : MathSt) (fuel : Nat),
      pyMatchB reFracBinomHead (strOf "\\frac" ++ w) = true →
      pyMatch reFracBinomArgs (strOf "\\frac" ++ w) = none →
      expand_group (fuel + 1) st (strOf "\\frac" ++ w) =
        .ok (strOf "\\frac" ++ w,
          ⟨st.vec, st.diags ++ [strOf "MATH FRAC/BINOM ERROR: " ++ (strOf "\\frac" ++ w)]⟩)) ∧
    to_math (strOf "\\binom\x7b7\x7d\x7b2\x7d") =
      .ok (strOf "\\binom 7 2", [strOf "MATH FRAC/BINOM ERROR: " ++ strOf "\\binom"]) := by
  exact ⟨by decide, by decide, by decide, expandGroupFracFailure, by decide⟩

/-- C5 witness: the bare frac token satisfies the failure rule's hypotheses
    (its head matches at the end anchor and the argument regex fails). -/
theorem C5_witness :
    expand_group 1 ⟨[], []⟩ (strOf "\\frac" ++ []) =
      .ok (strOf "\\frac" ++ [],
        ⟨[], [] ++ [strOf "MATH FRAC/BINOM ERROR: " ++ (strOf "\\frac" ++ [])]⟩) :=
  C5_theorem.2.2.2.1 [] ⟨[], []⟩ 0 (by decide) (by decide)
/-! Invariants of the magic placeholder table (claim C9). -/

/-- Every character of s is either below MAGIC_FIRST plus n (so a magic
    character references a slot below n) or above the magic range. -/
def refsBelow (n : Nat) (s : Str) : Bool :=
  s.all (fun c => c < MAGIC_FIRST + n || MAGIC_LAST < c)

/-- No character of s lies in the reserved magic range. -/
def noMagic (s : Str) : Bool := refsBelow 0 s

/-- Worker for `vecOkIdx`, carrying the index of the first entry. -/
def vecOkFrom : Nat → List Str → Bool
  | _, [] => true
  | i, e :: t => refsBelow i e && vecOkFrom (i + 1) t

/-- The central table invariant of claim C9: entry k contains magic references
    only to slots strictly below k (no entry references a slot at or beyond
    its own index). -/
def vecOkIdx (vec : List Str) : Bool := vecOkFrom 0 vec

theorem refsBelow_mono {m n : Nat} (h : m ≤ n) {s : Str} (hs : refsBelow m s = true) :
    refsBelow n s = true := by
  simp only [refsBelow, List.all_eq_true] at hs ⊢
  intro c hc
  have := hs c hc
  cases Bool.or_eq_true_iff.mp this with
  | inl h1 => exact Bool.or_eq_true_iff.mpr (Or.inl (by simp at h1 ⊢; omega))
  | inr h2 => exact Bool.or_eq_true_iff.mpr (Or.inr h2)

theorem refsBelow_of_noMagic {n : Nat} {s : Str} (hs : noMagic s = true) :
    refsBelow n s = true :=
  refsBelow_mono (Nat.zero_le n) hs

theorem refsBelow_sub {n : Nat} {s t : Str} (hsub : ∀ c ∈ t, c ∈ s)
    (hs : refsBelow n s = true) : refsBelow n t = true := by
  simp only [refsBelow, List.all_eq_true] at hs ⊢
  exact fun c hc => hs c (hsub c hc)

theorem refsBelow_append {n : Nat} {a b : Str} (ha : refsBelow n a = true)
    (hb : refsBelow n b = true) : refsBelow n (a ++ b) = true := by
  simp only [refsBelow, List.all_eq_true] at ha hb ⊢
  intro c hc
  cases List.mem_append.mp hc with
  | inl h => exact ha c h
  | inr h => exact hb c h

theorem refsBelow_cons {n : Nat} {c : Nat} {s : Str}
    (hc : (c < MAGIC_FIRST + n || MAGIC_LAST < c) = true) (hs : refsBelow n s = true) :
    refsBelow n (c :: s) = true := by
  simp only [refsBelow, List.all_eq_true] at hs ⊢
  intro d hd
  cases List.mem_cons.mp hd with
  | inl h => exact h ▸ hc
  | inr h => exact hs d h

theorem refsBelow_nil {n : Nat} : refsBelow n ([] : Str) = true := rfl

/-- A codepoint below the magic range satisfies the reference bound. -/
theorem refOkLow {c n : Nat} (h : c < MAGIC_FIRST) :
    (decide (c < MAGIC_FIRST + n) || decide (MAGIC_LAST < c)) = true := by
  refine Bool.or_eq_true_iff.mpr (Or.inl ?_)
  simp only [decide_eq_true_eq]
  omega

theorem noMagic_append {a b : Str} (ha : noMagic a = true) (hb : noMagic b = true) :
    noMagic (a ++ b) = true := refsBelow_append ha hb

theorem refsBelow_reverse {n : Nat} {s : Str} (hs : refsBelow n s = true) :
    refsBelow n s.reverse = true :=
  refsBelow_sub (fun c hc => List.mem_reverse.mp hc) hs

theorem refsBelow_dropWhile {n : Nat} (p : Nat → Bool) {s : Str} (hs : refsBelow n s = true) :
    refsBelow n (s.dropWhile p) = true :=
  refsBelow_sub (fun c hc => (List.dropWhile_sublist p).subset hc) hs

theorem refsBelow_pyStrip {n : Nat} {s : Str} (hs : refsBelow n s = true) :
    refsBelow n (pyStrip s) = true := by
  unfold pyStrip
  exact refsBelow_reverse (refsBelow_dropWhile _ (refsBelow_reverse (refsBelow_dropWhile _ hs)))

theorem refsBelow_drop {n k : Nat} {s : Str} (hs : refsBelow n s = true) :
    refsBelow n (s.drop k) = true :=
  refsBelow_sub (fun c hc => (List.drop_sublist k s).subset hc) hs

theorem refsBelow_take {n k : Nat} {s : Str} (hs : refsBelow n s = true) :
    refsBelow n (s.take k) = true :=
  refsBelow_sub (fun c hc => (List.take_sublist k s).subset hc) hs

theorem refsBelow_dropLast {n : Nat} {s : Str} (hs : refsBelow n s = true) :
    refsBelow n s.dropLast = true :=
  refsBelow_sub (fun c hc => (List.dropLast_sublist s).subset hc) hs

/-- A lookup in a table whose values all satisfy p yields a value satisfying p. -/
theorem lookup_value_prop {α : Type} [BEq α] (p : Str → Bool) :
    ∀ (tbl : List (α × Str)) (k : α) (v : Str),
      tbl.all (fun e => p e.2) = true → List.lookup k tbl = some v → p v = true := by
  intro tbl
  induction tbl with
  | nil =>
    intro k v _ hl
    exact absurd hl (by simp [List.lookup])
  | cons e rest ih =>
    intro k v hall hl
    simp only [List.all_cons, Bool.and_eq_true] at hall
    rw [List.lookup] at hl
    cases hk : k == e.1 with
    | true =>
      rw [hk] at hl
      cases hl
      exact hall.1
    | false =>
      rw [hk] at hl
      exact ih k v hall.2 hl

theorem superscript_ht_noMagic : superscript_ht.all (fun e => noMagic e.2) = true := by decide

theorem subscript_ht_noMagic : subscript_ht.all (fun e => noMagic e.2) = true := by decide

theorem mathcal_map_noMagic : mathcal_map.all (fun e => noMagic e.2) = true := by decide

theorem mathfrak_map_noMagic : mathfrak_map.all (fun e => noMagic e.2) = true := by decide

theorem mathbb_map_noMagic : mathbb_map.all (fun e => noMagic e.2) = true := by decide

theorem math_map_noMagic : math_map.all (fun e => noMagic e.2) = true := by decide

theorem refsBelow_flatMap {n : Nat} {s : Str} (f : Nat → Str)
    (hf : ∀ c ∈ s, refsBelow n (f c) = true) : refsBelow n (s.flatMap f) = true := by
  simp only [refsBelow, List.all_eq_true] at hf ⊢
  intro c hc
  obtain ⟨x, hx, hcx⟩ := List.mem_flatMap.mp hc
  exact hf x hx c hcx

theorem refsBelow_elem {n : Nat} {s : Str} (hs : refsBelow n s = true) {c : Nat}
    (hc : c ∈ s) : (c < MAGIC_FIRST + n || MAGIC_LAST < c) = true := by
  simp only [refsBelow, List.all_eq_true] at hs
  exact hs c hc

theorem to_superscript_refs {n : Nat} {s : Str} (hs : refsBelow n s = true) :
    refsBelow n (to_superscript s) = true := by
  unfold to_superscript
  split_ifs with h1 h2 h3
  · exact refsBelow_nil
  · refine refsBelow_flatMap _ (fun c hc => ?_)
    match hv : List.lookup [c] superscript_ht with
    | some v =>
      simp only [hv, Option.getD_some]
      exact refsBelow_of_noMagic (lookup_value_prop noMagic superscript_ht [c] v
        superscript_ht_noMagic hv)
    | none =>
      simp only [hv, Option.getD_none]
      exact refsBelow_nil
  · exact refsBelow_cons (refOkLow (by decide)) hs
  · exact refsBelow_cons (refOkLow (by decide)) (refsBelow_cons (refOkLow (by decide))
      (refsBelow_append hs (refsBelow_cons (refOkLow (by decide)) refsBelow_nil)))

theorem to_subscript_refs {n : Nat} {s : Str} (hs : refsBelow n s = true) :
    refsBelow n (to_subscript s) = true := by
  unfold to_subscript
  split_ifs with h1 h2 h3
  · exact refsBelow_nil
  · refine refsBelow_flatMap _ (fun c hc => ?_)
    match hv : List.lookup [c] subscript_ht with
    | some v =>
      simp only [hv, Option.getD_some]
      exact refsBelow_of_noMagic (lookup_value_prop noMagic subscript_ht [c] v
        subscript_ht_noMagic hv)
    | none =>
      simp only [hv, Option.getD_none]
      exact refsBelow_nil
  · exact refsBelow_cons (refOkLow (by decide)) hs
  · exact refsBelow_cons (refOkLow (by decide)) (refsBelow_cons (refOkLow (by decide))
      (refsBelow_append hs (refsBelow_cons (refOkLow (by decide)) refsBelow_nil)))

theorem mathcal_fn_refs {n : Nat} {s : Str} (hs : refsBelow n s = true) :
    refsBelow n (mathcal_fn s) = true := by
  unfold mathcal_fn
  refine refsBelow_flatMap _ (fun c hc => ?_)
  match hv : List.lookup [c] mathcal_map with
  | some v =>
    simp only [hv, Option.getD_some]
    exact refsBelow_of_noMagic (lookup_value_prop noMagic mathcal_map [c] v
      mathcal_map_noMagic hv)
  | none =>
    simp only [hv, Option.getD_none]
    exact refsBelow_cons (refsBelow_elem hs hc) refsBelow_nil

theorem mathfrak_fn_refs {n : Nat} {s : Str} (hs : refsBelow n s = true) :
    refsBelow n (mathfrak_fn s) = true := by
  unfold mathfrak_fn
  refine refsBelow_flatMap _ (fun c hc => ?_)
  match hv : List.lookup [c] mathfrak_map with
  | some v =>
    simp only [hv, Option.getD_some]
    exact refsBelow_of_noMagic (lookup_value_prop noMagic mathfrak_map [c] v
      mathfrak_map_noMagic hv)
  | none =>
    simp only [hv, Option.getD_none]
    exact refsBelow_cons (refsBelow_elem hs hc) refsBelow_nil

theorem mathbb_fn_refs {n : Nat} {s : Str} (hs : refsBelow n s = true) :
    refsBelow n (mathbb_fn s) = true := by
  unfold mathbb_fn
  refine refsBelow_flatMap _ (fun c hc => ?_)
  match hv : List.lookup [c] mathbb_map with
  | some v =>
    simp only [hv, Option.getD_some]
    exact refsBelow_of_noMagic (lookup_value_prop noMagic mathbb_map [c] v
      mathbb_map_noMagic hv)
  | none =>
    simp only [hv, Option.getD_none]
    exact refsBelow_cons (refsBelow_elem hs hc) refsBelow_nil

theorem applyFn_refs {n : Nat} (f : FnKind) {s : Str} (hs : refsBelow n s = true) :
    refsBelow n (applyFn f s) = true := by
  cases f with
  | cal => exact mathcal_fn_refs hs
  | frak => exact mathfrak_fn_refs hs
  | bb => exact mathbb_fn_refs hs
  | subK => exact to_subscript_refs hs
  | supK => exact to_superscript_refs hs

theorem vecOkFrom_get : ∀ (vec : List Str) (i j : Nat) (h : j < vec.length),
    vecOkFrom i vec = true → refsBelow (i + j) (vec.get ⟨j, h⟩) = true := by
  intro vec
  induction vec with
  | nil =>
    intro i j h
    exact absurd h (by simp)
  | cons e t ih =>
    intro i j h hok
    simp only [vecOkFrom, Bool.and_eq_true] at hok
    match j with
    | 0 =>
      simpa using hok.1
    | j + 1 =>
      have := ih (i + 1) j (by simpa using Nat.lt_of_succ_lt_succ h) hok.2
      simpa [Nat.add_assoc, Nat.add_comm 1 j] using this

theorem vecOkIdx_get (vec : List Str) (j : Nat) (h : j < vec.length)
    (hok : vecOkIdx vec = true) : refsBelow j (vec.get ⟨j, h⟩) = true := by
  simpa using vecOkFrom_get vec 0 j h hok

theorem vecOkFrom_append : ∀ (vec : List Str) (i : Nat) (e : Str),
    vecOkFrom i vec = true → refsBelow (i + vec.length) e = true →
    vecOkFrom i (vec ++ [e]) = true := by
  intro vec
  induction vec with
  | nil =>
    intro i e _ he
    simpa [vecOkFrom] using he
  | cons a t ih =>
    intro i e hok he
    simp only [vecOkFrom, Bool.and_eq_true] at hok
    simp only [List.cons_append, vecOkFrom, Bool.and_eq_true]
    refine ⟨hok.1, ih (i + 1) e hok.2 ?_⟩
    have : i + 1 + t.length = i + (a :: t).length := by simp; omega
    rw [this]
    exact he

theorem vecOkIdx_append (vec : List Str) (e : Str) (hok : vecOkIdx vec = true)
    (he : refsBelow vec.length e = true) : vecOkIdx (vec ++ [e]) = true :=
  vecOkFrom_append vec 0 e hok (by simpa using he)
/-! Expansion lemmas: with a magic-free table and in-range references,
    expansion succeeds, removes all magic characters, and the codepoint
    MAGIC_FIRST plus k denotes exactly table entry k. -/

theorem expandPass_id (vec : List Str) : ∀ s : Str, noMagic s = true →
    expandPass vec s = .ok s := by
  intro s
  induction s with
  | nil => intro _; rfl
  | cons c t ih =>
    intro h
    have hc := refsBelow_elem h (List.mem_cons_self c t)
    have ht := refsBelow_sub (fun d hd => List.mem_cons_of_mem c hd) h
    have hcond : (decide (MAGIC_FIRST ≤ c) && decide (c ≤ MAGIC_LAST)) = false := by
      revert hc
      simp [MAGIC_FIRST, MAGIC_LAST]
      omega
    simp only [expandPass, hcond, Bool.false_eq_true, if_false, ih ht]

theorem expandPass_decr (vec : List Str) (hv : vecOkIdx vec = true) (n : Nat)
    (hn : n ≤ vec.length) :
    ∀ s : Str, refsBelow n s = true →
    ∃ t, expandPass vec s = .ok t ∧ refsBelow (n - 1) t = true := by
  intro s
  induction s with
  | nil => exact fun _ => ⟨[], rfl, rfl⟩
  | cons c t ih =>
    intro h
    have hc := refsBelow_elem h (List.mem_cons_self c t)
    have ht := refsBelow_sub (fun d hd => List.mem_cons_of_mem c hd) h
    obtain ⟨t2, ht2, ht2r⟩ := ih ht
    by_cases hcond : (decide (MAGIC_FIRST ≤ c) && decide (c ≤ MAGIC_LAST)) = true
    · have hidx : c - MAGIC_FIRST < n := by
        revert hc hcond
        simp [MAGIC_FIRST, MAGIC_LAST]
        omega
      have hlen : c - MAGIC_FIRST < vec.length := Nat.lt_of_lt_of_le hidx hn
      have he : vec.get? (c - MAGIC_FIRST) = some (vec.get ⟨c - MAGIC_FIRST, hlen⟩) :=
        List.get?_eq_get hlen
      have hent : refsBelow (c - MAGIC_FIRST) (vec.get ⟨c - MAGIC_FIRST, hlen⟩) = true :=
        vecOkIdx_get vec _ hlen hv
      have hentn : refsBelow (n - 1) (vec.get ⟨c - MAGIC_FIRST, hlen⟩) = true :=
        refsBelow_mono (by omega) hent
      refine ⟨vec.get ⟨c - MAGIC_FIRST, hlen⟩ ++ t2, ?_, refsBelow_append hentn ht2r⟩
      simp only [expandPass, hcond, if_true, he, ht2]
    · have hcb : (decide (c < MAGIC_FIRST + (n - 1)) || decide (MAGIC_LAST < c)) = true := by
        revert hc hcond
        simp [MAGIC_FIRST, MAGIC_LAST]
        omega
      refine ⟨c :: t2, ?_, refsBelow_cons hcb ht2r⟩
      simp only [expandPass, hcond, Bool.false_eq_true, if_false, ht2]

theorem fixpoint_noMagic (vec : List Str) (hv : vecOkIdx vec = true) :
    ∀ n : Nat, n ≤ vec.length → ∀ s : Str, refsBelow n s = true →
      expandPass vec s = .ok s → noMagic s = true := by
  intro n
  induction n with
  | zero =>
    intro _ s h _
    exact h
  | succ n ih =>
    intro hn s h hfix
    obtain ⟨t, ht, htr⟩ := expandPass_decr vec hv (n + 1) hn s h
    rw [hfix] at ht
    cases ht
    exact ih (Nat.le_trans (Nat.le_succ n) hn) s (by simpa using htr) hfix

theorem expandLoop_ok (vec : List Str) (hv : vecOkIdx vec = true) :
    ∀ (n fuel : Nat) (s : Str), n ≤ vec.length → n + 2 ≤ fuel →
      refsBelow n s = true →
      ∃ t, expandLoop vec fuel s = .ok t ∧ noMagic t = true := by
  intro n
  induction n with
  | zero =>
    intro fuel s _ hf h
    obtain ⟨f, rfl⟩ : ∃ f, fuel = f + 1 := ⟨fuel - 1, by omega⟩
    rw [expandLoop, expandPass_id vec s h]
    dsimp only
    rw [if_pos rfl]
    exact ⟨s, rfl, h⟩
  | succ n ih =>
    intro fuel s hn hf h
    obtain ⟨f, rfl⟩ : ∃ f, fuel = f + 1 := ⟨fuel - 1, by omega⟩
    obtain ⟨t, ht, htr⟩ := expandPass_decr vec hv (n + 1) hn s h
    rw [expandLoop, ht]
    dsimp only
    by_cases he : t = s
    · rw [if_pos he]
      exact ⟨s, rfl, fixpoint_noMagic vec hv (n + 1) hn s h (he ▸ ht)⟩
    · rw [if_neg he]
      exact ih f t (Nat.le_trans (Nat.le_succ n) hn) (by omega) (by simpa using htr)

theorem expand_ok (vec : List Str) (s : Str) (hv : vecOkIdx vec = true)
    (hs : refsBelow vec.length s = true) :
    ∃ t, expand vec s = .ok t ∧ noMagic t = true :=
  expandLoop_ok vec hv vec.length (vec.length + 2) s (Nat.le_refl _) (Nat.le_refl _) hs

theorem expand_id (vec : List Str) (s : Str) (h : noMagic s = true) :
    expand vec s = .ok s := by
  unfold expand
  rw [show vec.length + 2 = vec.length + 1 + 1 from rfl]
  rw [expandLoop, expandPass_id vec s h]
  dsimp only
  rw [if_pos rfl]

theorem expandPass_entry (vec : List Str) (k : Nat) (h : k < vec.length)
    (h2 : MAGIC_FIRST + k ≤ MAGIC_LAST) :
    expandPass vec [MAGIC_FIRST + k] = .ok (vec.get ⟨k, h⟩) := by
  have hcond : (decide (MAGIC_FIRST ≤ MAGIC_FIRST + k) &&
      decide (MAGIC_FIRST + k ≤ MAGIC_LAST)) = true := by
    simp only [Bool.and_eq_true, decide_eq_true_eq]
    omega
  have hk : MAGIC_FIRST + k - MAGIC_FIRST = k := by omega
  have he : vec.get? k = some (vec.get ⟨k, h⟩) := List.get?_eq_get h
  simp only [expandPass, hcond, if_true, hk, he, List.append_nil]

/-! Engine lemmas: captures are slices of the input, and the brace regex of
    math_magic captures exactly a nonempty brace-free group between braces. -/

theorem starCPS_slice (g : MSt → (MSt → Option MSt) → Option MSt)
    (hg : ∀ (st : MSt) (k : MSt → Option MSt) (res : MSt), g st k = some res →
      ∃ st2, k st2 = some res ∧ st2.rest <:+ st.rest ∧
        (∀ e ∈ st2.caps, e ∈ st.caps ∨ ∀ c ∈ e.2, c ∈ st.rest)) :
    ∀ (fuel : Nat) (lazyQ : Bool) (st : MSt) (k : MSt → Option MSt) (res : MSt),
      starCPS g fuel lazyQ st k = some res →
      ∃ st2, k st2 = some res ∧ st2.rest <:+ st.rest ∧
        (∀ e ∈ st2.caps, e ∈ st.caps ∨ ∀ c ∈ e.2, c ∈ st.rest) := by
  intro fuel
  induction fuel with
  | zero =>
    intro lazyQ st k res h
    exact ⟨st, h, List.suffix_refl _, fun e he => Or.inl he⟩
  | succ fuel ih =>
    intro lazyQ st k res h
    have hcont : ∀ (st1 : MSt), g st (fun st2 =>
        if st2.rest.length < st.rest.length then starCPS g fuel lazyQ st2 k else none) =
          some res →
        ∃ st2, k st2 = some res ∧ st2.rest <:+ st.rest ∧
          (∀ e ∈ st2.caps, e ∈ st.caps ∨ ∀ c ∈ e.2, c ∈ st.rest) := by
      intro _ hgr
      obtain ⟨st2, hk2, hsuf2, hcap2⟩ := hg st _ res hgr
      by_cases hlt : st2.rest.length < st.rest.length
      · rw [if_pos hlt] at hk2
        obtain ⟨st3, hk3, hsuf3, hcap3⟩ := ih lazyQ st2 k res hk2
        refine ⟨st3, hk3, hsuf3.trans hsuf2, fun e he => ?_⟩
        cases hcap3 e he with
        | inl h1 =>
          cases hcap2 e h1 with
          | inl h2 => exact Or.inl h2
          | inr h2 => exact Or.inr h2
        | inr h1 => exact Or.inr (fun c hc => hsuf2.sublist.subset (h1 c hc))
      · rw [if_neg hlt] at hk2
        exact absurd hk2 (by simp)
    unfold starCPS at h
    cases lazyQ with
    | true =>
      simp only [if_true] at h
      match hks : k st with
      | some r =>
        rw [hks] at h
        cases h
        exact ⟨st, hks, List.suffix_refl _, fun e he => Or.inl he⟩
      | none =>
        rw [hks] at h
        exact hcont st h
    | false =>
      simp only [Bool.false_eq_true, if_false] at h
      match hgr : g st (fun st2 =>
          if st2.rest.length < st.rest.length then starCPS g fuel false st2 k else none) with
      | some r =>
        rw [hgr] at h
        cases h
        exact hcont st hgr
      | none =>
        rw [hgr] at h
        exact ⟨st, h, List.suffix_refl _, fun e he => Or.inl he⟩

theorem matchCPS_slice :
    ∀ (r : RE) (st : MSt) (k : MSt → Option MSt) (res : MSt),
      matchCPS r st k = some res →
      ∃ st2, k st2 = some res ∧ st2.rest <:+ st.rest ∧
        (∀ e ∈ st2.caps, e ∈ st.caps ∨ ∀ c ∈ e.2, c ∈ st.rest) := by
  intro r
  induction r with
  | eps =>
    intro st k res h
    exact ⟨st, h, List.suffix_refl _, fun e he => Or.inl he⟩
  | cls p =>
    intro st k res h
    unfold matchCPS at h
    match hrest : st.rest with
    | [] =>
      rw [hrest] at h
      exact absurd h (by simp)
    | c :: t =>
      rw [hrest] at h
      dsimp only at h
      by_cases hp : p c = true
      · rw [if_pos hp] at h
        exact ⟨⟨some c, t, st.caps⟩, h, ⟨[c], rfl⟩, fun e he => Or.inl he⟩
      · rw [if_neg hp] at h
        exact absurd h (by simp)
  | seq a b iha ihb =>
    intro st k res h
    unfold matchCPS at h
    obtain ⟨st2, hk2, hsuf2, hcap2⟩ := iha st _ res h
    obtain ⟨st3, hk3, hsuf3, hcap3⟩ := ihb st2 k res hk2
    refine ⟨st3, hk3, hsuf3.trans hsuf2, fun e he => ?_⟩
    cases hcap3 e he with
    | inl h1 =>
      cases hcap2 e h1 with
      | inl h2 => exact Or.inl h2
      | inr h2 => exact Or.inr h2
    | inr h1 => exact Or.inr (fun c hc => hsuf2.sublist.subset (h1 c hc))
  | alt a b iha ihb =>
    intro st k res h
    unfold matchCPS at h
    match ha : matchCPS a st k with
    | some r =>
      rw [ha] at h
      cases h
      exact iha st k _ ha
    | none =>
      rw [ha] at h
      exact ihb st k res h
  | star lazyQ r ihr =>
    intro st k res h
    unfold matchCPS at h
    exact starCPS_slice (matchCPS r) (fun st' k' res' => ihr st' k' res') _ lazyQ st k res h
  | opt lazyQ r ihr =>
    intro st k res h
    unfold matchCPS at h
    cases lazyQ with
    | true =>
      simp only [if_true] at h
      match hks : k st with
      | some r2 =>
        rw [hks] at h
        cases h
        exact ⟨st, hks, List.suffix_refl _, fun e he => Or.inl he⟩
      | none =>
        rw [hks] at h
        exact ihr st k res h
    | false =>
      simp only [Bool.false_eq_true, if_false] at h
      match hm : matchCPS r st k with
      | some r2 =>
        rw [hm] at h
        cases h
        exact ihr st k _ hm
      | none =>
        rw [hm] at h
        exact ⟨st, h, List.suffix_refl _, fun e he => Or.inl he⟩
  | group i r ihr =>
    intro st k res h
    unfold matchCPS at h
    obtain ⟨st2, hk2, hsuf2, hcap2⟩ := ihr st _ res h
    refine ⟨⟨st2.prev, st2.rest,
      (i, st.rest.take (st.rest.length - st2.rest.length)) :: st2.caps⟩, hk2, hsuf2,
      fun e he => ?_⟩
    rcases List.mem_cons.mp he with h1 | h1
    · refine Or.inr (fun c hc => ?_)
      rw [h1] at hc
      exact (List.take_sublist _ _).subset hc
    · cases hcap2 e h1 with
      | inl h2 => exact Or.inl h2
      | inr h2 => exact Or.inr h2
  | nla r ihr =>
    intro st k res h
    unfold matchCPS at h
    match hm : matchCPS r st some with
    | some r2 => rw [hm] at h; exact absurd h (by simp)
    | none =>
      rw [hm] at h
      exact ⟨st, h, List.suffix_refl _, fun e he => Or.inl he⟩
  | wordB =>
    intro st k res h
    unfold matchCPS at h
    by_cases hb : (isWordOpt st.prev != isWordOpt st.rest.head?) = true
    · rw [if_pos hb] at h
      exact ⟨st, h, List.suffix_refl _, fun e he => Or.inl he⟩
    · rw [if_neg hb] at h
      exact absurd h (by simp)
  | eos =>
    intro st k res h
    unfold matchCPS at h
    match hrest : st.rest with
    | [] =>
      rw [hrest] at h
      exact ⟨st, h, by rw [hrest], fun e he => Or.inl he⟩
    | [c] =>
      rw [hrest] at h
      dsimp only at h
      by_cases hc : (c == nl) = true
      · rw [if_pos hc] at h
        exact ⟨st, h, by rw [hrest], fun e he => Or.inl he⟩
      · rw [if_neg hc] at h
        exact absurd h (by simp)
    | c :: d :: t =>
      rw [hrest] at h
      exact absurd h (by simp)
/-! From the slice lemma to the concrete regexes: captures of a match are
    built from characters of the input, the brace regex of math_magic captures
    exactly a nonempty brace-free group, and brace-free text is untouched by
    the magic substitution. -/

theorem lookup_mem {α β : Type} [BEq α] [LawfulBEq α] :
    ∀ (l : List (α × β)) (k : α) (v : β), List.lookup k l = some v → (k, v) ∈ l := by
  intro l
  induction l with
  | nil =>
    intro k v h
    exact absurd h (by simp [List.lookup])
  | cons e rest ih =>
    intro k v h
    rw [List.lookup] at h
    cases hk : k == e.1 with
    | true =>
      rw [hk] at h
      cases h
      have : k = e.1 := eq_of_beq hk
      exact List.mem_cons.mpr (Or.inl (by rw [this]))
    | false =>
      rw [hk] at h
      exact List.mem_cons.mpr (Or.inr (ih k v h))

theorem take_append_self (a b : Str) : (a ++ b).take a.length = a := by
  induction a with
  | nil => rfl
  | cons c t ih => simpa using ih

theorem matchAtPrev_slice (r : RE) (prev : Option Nat) (s : Str) (mst : MSt)
    (h : matchAtPrev r prev s = some mst) :
    mst.rest <:+ s ∧ ∀ e ∈ mst.caps, ∀ c ∈ e.2, c ∈ s := by
  obtain ⟨st2, hk, hsuf, hcap⟩ := matchCPS_slice r ⟨prev, s, []⟩ some mst h
  cases hk
  refine ⟨hsuf, fun e he c hc => ?_⟩
  cases hcap e he with
  | inl h1 => exact absurd h1 (by simp)
  | inr h1 => exact h1 c hc

theorem pyMatch_chars (r : RE) (s : Str) (m : PyMatch) (h : pyMatch r s = some m) :
    (∀ c ∈ m.g0, c ∈ s) ∧ ∀ e ∈ m.caps, ∀ c ∈ e.2, c ∈ s := by
  unfold pyMatch at h
  match hm : matchAtPrev r none s with
  | none =>
    rw [hm] at h
    exact absurd h (by simp)
  | some mst =>
    rw [hm] at h
    cases h
    obtain ⟨_, hcap⟩ := matchAtPrev_slice r none s mst hm
    exact ⟨fun c hc => (List.take_sublist _ _).subset hc, hcap⟩

/-- Every positive-group value of a match is built from characters of the
    matched string. -/
theorem pyGroup_refs {n : Nat} (r : RE) (s : Str) (m : PyMatch) (i : Nat)
    (h : pyMatch r s = some m) (hs : refsBelow n s = true) :
    refsBelow n ((pyGroup m i).getD []) = true := by
  match hg : pyGroup m i with
  | none => exact refsBelow_nil
  | some cap =>
    simp only [Option.getD_some]
    have hmem : (i, cap) ∈ m.caps := lookup_mem m.caps i cap hg
    exact refsBelow_sub (fun c hc => (pyMatch_chars r s m h).2 (i, cap) hmem c hc) hs

theorem pyFindIterGo_chars (r : RE) :
    ∀ (fuel : Nat) (prev : Option Nat) (s : Str) (m : PyMatch),
      m ∈ pyFindIterGo r fuel prev s → ∀ c ∈ m.g0, c ∈ s := by
  intro fuel
  induction fuel with
  | zero =>
    intro prev s m hm
    exact absurd hm (by simp [pyFindIterGo])
  | succ fuel ih =>
    intro prev s m hm
    simp only [pyFindIterGo] at hm
    match hms : matchAtPrev r prev s with
    | some mst =>
      rw [hms] at hm
      dsimp only at hm
      by_cases hc : s.length - mst.rest.length = 0
      · rw [if_pos hc] at hm
        match s, hm with
        | [], hm =>
          intro c hcm
          rw [List.mem_singleton.mp hm] at hcm
          simp at hcm
        | c0 :: t, hm =>
          rcases List.mem_cons.mp hm with h1 | h1
          · intro c hcm
            rw [h1] at hcm
            exact (List.take_sublist _ _).subset hcm
          · intro c hcm
            exact List.mem_cons_of_mem c0 (ih (some c0) t m h1 c hcm)
      · rw [if_neg hc] at hm
        rcases List.mem_cons.mp hm with h1 | h1
        · intro c hcm
          rw [h1] at hcm
          exact (List.take_sublist _ _).subset hcm
        · intro c hcm
          exact (matchAtPrev_slice r prev s mst hms).1.sublist.subset
            (ih mst.prev mst.rest m h1 c hcm)
    | none =>
      rw [hms] at hm
      match s, hm with
      | [], hm => exact absurd hm (by simp)
      | c0 :: t, hm =>
        intro c hcm
        exact List.mem_cons_of_mem c0 (ih (some c0) t m hm c hcm)

theorem matchCPS_seq (a b : RE) (st : MSt) (k : MSt → Option MSt) :
    matchCPS (.seq a b) st k = matchCPS a st (fun st2 => matchCPS b st2 k) := rfl

theorem matchCPS_group (i : Nat) (r : RE) (st : MSt) (k : MSt → Option MSt) :
    matchCPS (.group i r) st k = matchCPS r st (fun st2 =>
      k ⟨st2.prev, st2.rest,
        (i, st.rest.take (st.rest.length - st2.rest.length)) :: st2.caps⟩) := rfl

theorem matchCPS_star (lazyQ : Bool) (r : RE) (st : MSt) (k : MSt → Option MSt) :
    matchCPS (.star lazyQ r) st k = starCPS (matchCPS r) (st.rest.length + 1) lazyQ st k := rfl

/-- Eliminator for one character-class step. -/
theorem clsE (p : Nat → Bool) (st : MSt) (k : MSt → Option MSt) (res : MSt)
    (h : matchCPS (.cls p) st k = some res) :
    ∃ c t, st.rest = c :: t ∧ p c = true ∧ k ⟨some c, t, st.caps⟩ = some res := by
  rw [matchCPS] at h
  match hrest : st.rest with
  | [] =>
    rw [hrest] at h
    exact absurd h (by simp)
  | c :: t =>
    rw [hrest] at h
    dsimp only at h
    by_cases hp : p c = true
    · rw [if_pos hp] at h
      exact ⟨c, t, rfl, hp, h⟩
    · rw [if_neg hp] at h
      exact absurd h (by simp)

/-- Eliminator for a greedy star of a character class: some prefix of
    characters satisfying the class is consumed and the continuation runs on
    the remainder with unchanged captures. -/
theorem starCls_elim (q : Nat → Bool) :
    ∀ (fuel : Nat) (st : MSt) (k : MSt → Option MSt) (res : MSt),
      starCPS (matchCPS (.cls q)) fuel false st k = some res →
      ∃ st2 pre, k st2 = some res ∧ st.rest = pre ++ st2.rest ∧ pre.all q = true ∧
        st2.caps = st.caps := by
  intro fuel
  induction fuel with
  | zero =>
    intro st k res h
    exact ⟨st, [], h, rfl, rfl, rfl⟩
  | succ fuel ih =>
    intro st k res h
    rw [starCPS] at h
    simp only [Bool.false_eq_true, if_false] at h
    match hg : matchCPS (.cls q) st (fun st2 =>
        if st2.rest.length < st.rest.length then starCPS (matchCPS (.cls q)) fuel false st2 k
        else none) with
    | some r =>
      rw [hg] at h
      try dsimp only at h
      rw [h] at hg
      obtain ⟨c, t, hrest, hq, hk⟩ := clsE q st _ res hg
      dsimp only at hk
      have hlt : t.length < st.rest.length := by rw [hrest]; simp
      rw [if_pos hlt] at hk
      obtain ⟨st2, pre, hk2, hpre, hall, hcaps⟩ := ih ⟨some c, t, st.caps⟩ k res hk
      refine ⟨st2, c :: pre, hk2, ?_, ?_, hcaps⟩
      · rw [hrest]
        simpa using hpre
      · simp [hq, hall]
    | none =>
      rw [hg] at h
      exact ⟨st, [], h, rfl, rfl, rfl⟩

/-- A successful match of math_magic's brace regex decomposes the input as an
    opening brace, a nonempty brace-free group, a closing brace, and the
    remainder; group 1 captures exactly the group. -/
theorem braceMatch_elim (prev : Option Nat) (s : Str) (mst : MSt)
    (h : matchAtPrev braceRE prev s = some mst) :
    ∃ mid, s = 123 :: mid ++ 125 :: mst.rest ∧ mst.caps = [(1, mid)] ∧
      mid ≠ [] ∧ mid.all (fun c => c != 123 && c != 125) = true := by
  unfold matchAtPrev braceRE at h
  simp only [chrRE, rplus] at h
  rw [matchCPS_seq] at h
  obtain ⟨c0, s1, hs0, hq0, h⟩ := clsE _ _ _ _ h
  have hs0 : s = c0 :: s1 := hs0
  have hc0 : c0 = 123 := by simpa using hq0
  dsimp only at h
  rw [matchCPS_seq, matchCPS_group, matchCPS_seq] at h
  obtain ⟨c1, s2, hs1, hq1, h⟩ := clsE _ _ _ _ h
  have hs1 : s1 = c1 :: s2 := hs1
  dsimp only at h
  rw [matchCPS_star] at h
  obtain ⟨st2, pre, hk, hpre, hall, hcaps⟩ := starCls_elim _ _ ⟨some c1, s2, []⟩ _ mst h
  have hpre : s2 = pre ++ st2.rest := hpre
  try dsimp only at hk
  rw [hcaps] at hk
  obtain ⟨c2, s3, hs2, hq2, hk⟩ := clsE _ _ _ _ hk
  have hs2 : st2.rest = c2 :: s3 := hs2
  have hc2 : c2 = 125 := by simpa using hq2
  cases hk
  have hmidlen : s1.length - st2.rest.length = (c1 :: pre).length := by
    rw [hs1, hpre]
    simp only [List.length_cons, List.length_append]
    omega
  have hmid : s1.take (s1.length - st2.rest.length) = c1 :: pre := by
    rw [hmidlen, hs1, hpre]
    exact take_append_self (c1 :: pre) st2.rest
  refine ⟨c1 :: pre, ?_, ?_, by simp, ?_⟩
  · dsimp only
    rw [hs0, hc0, hs1, hpre, hs2, hc2]
    simp
  · dsimp only
    rw [hmid]
  · simp only [List.all_cons, hall, Bool.and_true]
    simpa using hq1
/-! Brace-free text is a fixed point of the magic substitution, and the common
    tail of expand_group succeeds without touching the table. -/

theorem okPairInj {α β : Type} {a c : α} {b d : β}
    (h : (Except.ok (a, b) : Except PyErr (α × β)) = .ok (c, d)) : a = c ∧ b = d := by
  injection h with h1
  exact ⟨congrArg Prod.fst h1, congrArg Prod.snd h1⟩

theorem braceNoMatch (prev : Option Nat) (s : Str) (h : 123 ∈ s → False) :
    matchAtPrev braceRE prev s = none := by
  cases s with
  | nil => rfl
  | cons c t =>
    have hc : (c == 123) = false := by
      rw [beq_eq_false_iff_ne]
      intro e
      exact h (by rw [e]; exact List.mem_cons_self 123 t)
    simp [matchAtPrev, braceRE, chrRE, matchCPS, hc]

theorem braceSub_id {σ : Type} (repl : PyMatch → σ → Except PyErr (Str × σ)) :
    ∀ (fuel : Nat) (s : Str) (prev : Option Nat) (st : σ), s.length < fuel →
      (123 ∈ s → False) →
      pySubStGo braceRE repl fuel prev s st = .ok (s, st) := by
  intro fuel
  induction fuel with
  | zero =>
    intro s prev st hlen _
    exact absurd hlen (by omega)
  | succ fuel ih =>
    intro s prev st hlen h
    simp only [pySubStGo, braceNoMatch prev s h]
    cases s with
    | nil => rfl
    | cons c t =>
      have hlt : t.length < fuel := by
        simp only [List.length_cons] at hlen
        omega
      dsimp only
      rw [ih t (some c) st hlt (fun hm => h (List.mem_cons_of_mem c hm))]

theorem mathMagicPass_id (recFn : MathSt → Str → Except PyErr (Str × MathSt))
    (st : MathSt) (text : Str) (h : 123 ∈ text → False) :
    mathMagicPass recFn st text = .ok (text, st) :=
  braceSub_id _ (text.length + 1) text none st (Nat.lt_succ_self _) h

theorem mathMagicLoop_id (recFn : MathSt → Str → Except PyErr (Str × MathSt))
    (fuel : Nat) (st : MathSt) (text : Str) (h : 123 ∈ text → False) :
    mathMagicLoop recFn (fuel + 1) st text = .ok (text, st) := by
  rw [mathMagicLoop, mathMagicPass_id recFn st text h]
  dsimp only
  rw [if_pos rfl]

theorem recurseMagicLoop_id (recFn : MathSt → Str → Except PyErr (Str × MathSt))
    (fuel : Nat) (st : MathSt) (text : Str) (h : 123 ∈ text → False) :
    recurseMagicLoop recFn (fuel + 1) st text = .ok (text, st) := by
  rw [recurseMagicLoop, mathMagicLoop_id recFn text.length st text h]
  dsimp only
  rw [if_pos rfl]

theorem groupMapped_refs {n : Nat} {v : Str} (hv : refsBelow n v = true) :
    refsBelow n (groupMapped v) = true := by
  unfold groupMapped
  by_cases h1 : pyStartsWith v [92] = true
  · rw [if_pos h1]
    match hl : List.lookup (pyStrip (v.drop 1)) math_map with
    | some mapped =>
      dsimp only
      exact refsBelow_of_noMagic
        (lookup_value_prop noMagic math_map _ mapped math_map_noMagic hl)
    | none =>
      dsimp only
      split_ifs with h2
      · exact refsBelow_append
          (refsBelow_append (refsBelow_of_noMagic (by decide))
            (refsBelow_pyStrip (refsBelow_drop hv)))
          (refsBelow_of_noMagic (by decide))
      · exact refsBelow_pyStrip (refsBelow_drop hv)
  · rw [if_neg h1]
    split_ifs with h2
    · exact refsBelow_nil
    · exact hv

theorem finishGroup_ok (st : MathSt) (fn : Option FnKind) (v : Str)
    (hok : vecOkIdx st.vec = true) (hv : refsBelow st.vec.length v = true) :
    ∃ v3, finishGroup st fn v = .ok (v3, st) ∧ noMagic v3 = true := by
  obtain ⟨v2, he2, hn2⟩ := expand_ok st.vec (groupMapped v) hok (groupMapped_refs hv)
  cases fn with
  | none =>
    refine ⟨v2, ?_, hn2⟩
    simp only [finishGroup]
    rw [he2]
  | some f =>
    refine ⟨applyFn f v2, ?_, applyFn_refs f hn2⟩
    simp only [finishGroup]
    rw [he2]
    dsimp only
    rw [expand_id st.vec (applyFn f v2) (applyFn_refs f hn2)]

/-- The shape of every branch of expand_group that ends in the common tail:
    the table is unchanged and the result respects the reference bound. -/
theorem finishGroup_case (st : MathSt) (fn : Option FnKind) (arg v2 : Str) (st2 : MathSt)
    (hok : vecOkIdx st.vec = true) (harg : refsBelow st.vec.length arg = true)
    (h : finishGroup st fn arg = .ok (v2, st2)) :
    st2.vec = st.vec ∧ refsBelow st.vec.length v2 = true := by
  obtain ⟨v3, he, hn⟩ := finishGroup_ok st fn arg hok harg
  rw [he] at h
  obtain ⟨h1, h2⟩ := okPairInj h
  refine ⟨by rw [← h2], ?_⟩
  rw [← h1]
  exact refsBelow_of_noMagic hn

theorem paren_refs {n : Nat} {s : Str} (h : refsBelow n s = true) :
    refsBelow n (if 1 < s.length then [40] ++ s ++ [41] else s) = true := by
  split_ifs
  · exact refsBelow_append
      (refsBelow_append (refsBelow_of_noMagic (by decide)) h)
      (refsBelow_of_noMagic (by decide))
  · exact h
/-! expand_group and the token loop of recurse never touch the magic table
    and keep every result within the reference bound; on brace-free input the
    whole of recurse leaves the table unchanged. -/

set_option maxHeartbeats 3200000 in
theorem expand_group_inv :
    ∀ (fuel : Nat) (st : MathSt) (v v2 : Str) (st2 : MathSt),
      vecOkIdx st.vec = true → refsBelow st.vec.length v = true →
      expand_group fuel st v = .ok (v2, st2) →
      st2.vec = st.vec ∧ refsBelow st.vec.length v2 = true := by
  intro fuel
  induction fuel with
  | zero =>
    intro st v v2 st2 _ _ h
    exact absurd h (by simp [expand_group])
  | succ fuel ih =>
    intro st v v2 st2 hok hv h
    rw [expand_group.eq_def] at h
    dsimp only at h
    by_cases h1 : pyMatchB reMathcal v = true
    · rw [if_pos h1] at h
      exact finishGroup_case st _ _ v2 st2 hok (refsBelow_pyStrip (refsBelow_drop hv)) h
    · rw [if_neg h1] at h
      by_cases h2 : pyMatchB reMathfrak v = true
      · rw [if_pos h2] at h
        exact finishGroup_case st _ _ v2 st2 hok (refsBelow_pyStrip (refsBelow_drop hv)) h
      · rw [if_neg h2] at h
        by_cases h3 : pyMatchB reMathbb v = true
        · rw [if_pos h3] at h
          exact finishGroup_case st _ _ v2 st2 hok (refsBelow_drop hv) h
        · rw [if_neg h3] at h
          by_cases h4 : pyMatchB reBeginEnd v = true
          · rw [if_pos h4] at h
            exact finishGroup_case st _ _ v2 st2 hok refsBelow_nil h
          · rw [if_neg h4] at h
            by_cases h5 : pyMatchB reText v = true
            · rw [if_pos h5] at h
              exact finishGroup_case st _ _ v2 st2 hok (refsBelow_drop hv) h
            · rw [if_neg h5] at h
              by_cases h6 : pyMatchB rePmod v = true
              · rw [if_pos h6] at h
                match hin : expand_group fuel st (pyStrip (v.drop 5)) with
                | .error e =>
                  rw [hin] at h
                  exact absurd h (by simp)
                | .ok (inner, stI) =>
                  rw [hin] at h
                  dsimp only at h
                  obtain ⟨hIvec, hIref⟩ := ih st _ inner stI hok
                    (refsBelow_pyStrip (refsBelow_drop hv)) hin
                  have hokI : vecOkIdx stI.vec = true := by rw [hIvec]; exact hok
                  have hargI : refsBelow stI.vec.length (strOf "(mod " ++ inner ++ [41]) = true := by
                    rw [hIvec]
                    exact refsBelow_append
                      (refsBelow_append (refsBelow_of_noMagic (by decide)) hIref)
                      (refsBelow_of_noMagic (by decide))
                  obtain ⟨e1, e2⟩ := finishGroup_case stI none _ v2 st2 hokI hargI h
                  rw [hIvec] at e1 e2
                  exact ⟨e1, e2⟩
              · rw [if_neg h6] at h
                by_cases h7 : pyMatchB reSqrtBracket v = true
                · rw [if_pos h7] at h
                  by_cases h8 : pyStrip ((v.drop 6).dropLast) = [50]
                  · rw [if_pos h8] at h
                    exact finishGroup_case st _ _ v2 st2 hok (refsBelow_of_noMagic (by decide)) h
                  · rw [if_neg h8] at h
                    by_cases h9 : pyStrip ((v.drop 6).dropLast) = [51]
                    · rw [if_pos h9] at h
                      exact finishGroup_case st _ _ v2 st2 hok
                        (refsBelow_of_noMagic (by decide)) h
                    · rw [if_neg h9] at h
                      by_cases h10 : pyStrip ((v.drop 6).dropLast) = [52]
                      · rw [if_pos h10] at h
                        exact finishGroup_case st _ _ v2 st2 hok
                          (refsBelow_of_noMagic (by decide)) h
                      · rw [if_neg h10] at h
                        exact finishGroup_case st _ _ v2 st2 hok
                          (refsBelow_append
                            (to_superscript_refs
                              (refsBelow_pyStrip (refsBelow_dropLast (refsBelow_drop hv))))
                            (refsBelow_of_noMagic (by decide))) h
                · rw [if_neg h7] at h
                  by_cases h11 : pyMatchB reSqrt v = true
                  · rw [if_pos h11] at h
                    exact finishGroup_case st _ _ v2 st2 hok (refsBelow_of_noMagic (by decide)) h
                  · rw [if_neg h11] at h
                    by_cases h12 : pyMatchB reFracBinomHead v = true
                    · rw [if_pos h12] at h
                      match hm : pyMatch reFracBinomArgs v with
                      | none =>
                        rw [hm] at h
                        dsimp only at h
                        obtain ⟨e1, e2⟩ := okPairInj h
                        exact ⟨by rw [← e2], by rw [← e1]; exact hv⟩
                      | some m =>
                        rw [hm] at h
                        dsimp only at h
                        have harg2 : refsBelow st.vec.length ((pyGroup m 2).getD []) = true :=
                          pyGroup_refs reFracBinomArgs v m 2 hm hv
                        have harg3 : refsBelow st.vec.length ((pyGroup m 3).getD []) = true :=
                          pyGroup_refs reFracBinomArgs v m 3 hm hv
                        have hop : refsBelow st.vec.length ((pyGroup m 1).getD []) = true :=
                          pyGroup_refs reFracBinomArgs v m 1 hm hv
                        match ha : expand_group fuel st ((pyGroup m 2).getD []) with
                        | .error e =>
                          rw [ha] at h
                          exact absurd h (by simp)
                        | .ok (a1, stA) =>
                          rw [ha] at h
                          dsimp only at h
                          obtain ⟨hAvec, hAref⟩ := ih st _ a1 stA hok harg2 ha
                          match hb : expand_group fuel stA ((pyGroup m 3).getD []) with
                          | .error e =>
                            rw [hb] at h
                            exact absurd h (by simp)
                          | .ok (b1, stB) =>
                            rw [hb] at h
                            dsimp only at h
                            obtain ⟨hBvec, hBref⟩ := ih stA _ b1 stB (by rw [hAvec]; exact hok)
                              (by rw [hAvec]; exact harg3) hb
                            have hveceq : stB.vec = st.vec := hBvec.trans hAvec
                            have hokB : vecOkIdx stB.vec = true := by rw [hveceq]; exact hok
                            have hBref2 : refsBelow st.vec.length b1 = true := by
                              rw [← hAvec]
                              exact hBref
                            obtain ⟨e1, e2⟩ := finishGroup_case stB none _ v2 st2 hokB (by
                              rw [hveceq]
                              split_ifs <;>
                                (repeat' first
                                  | apply refsBelow_append
                                  | exact refsBelow_pyStrip hAref
                                  | exact refsBelow_pyStrip hBref2
                                  | exact hop
                                  | exact hv
                                  | exact refsBelow_of_noMagic (by decide))) h
                            rw [hveceq] at e2
                            exact ⟨e1.trans hveceq, e2⟩
                    · rw [if_neg h12] at h
                      by_cases h13 : pyStartsWith v [95] = true
                      · rw [if_pos h13] at h
                        exact finishGroup_case st _ _ v2 st2 hok (refsBelow_drop hv) h
                      · rw [if_neg h13] at h
                        by_cases h14 : pyStartsWith v [94] = true
                        · rw [if_pos h14] at h
                          exact finishGroup_case st _ _ v2 st2 hok (refsBelow_drop hv) h
                        · rw [if_neg h14] at h
                          exact finishGroup_case st _ _ v2 st2 hok hv h

theorem recursePartsStep_refs {n : Nat} {parts : List Str} {v : Str}
    (hp : ∀ p ∈ parts, refsBelow n p = true) (hv : refsBelow n v = true) :
    ∀ p ∈ recursePartsStep parts v, refsBelow n p = true := by
  simp only [recursePartsStep]
  split_ifs with h1 h2
  · exact hp
  · intro p hmem
    rcases List.mem_append.mp hmem with hm | hm
    · exact hp p hm
    · rw [List.mem_singleton.mp hm]
      exact refsBelow_append (refsBelow_of_noMagic (by decide)) hv
  · intro p hmem
    rcases List.mem_append.mp hmem with hm | hm
    · exact hp p hm
    · rw [List.mem_singleton.mp hm]
      exact hv

theorem refsBelow_flatten {n : Nat} {parts : List Str}
    (hp : ∀ p ∈ parts, refsBelow n p = true) : refsBelow n parts.flatten = true := by
  simp only [refsBelow, List.all_eq_true] at hp ⊢
  intro c hc
  obtain ⟨p, hpmem, hcp⟩ := List.mem_flatten.mp hc
  exact hp p hpmem c hcp

theorem recurseTokens_inv :
    ∀ (ms : List PyMatch) (st : MathSt) (parts parts2 : List Str) (st2 : MathSt),
      vecOkIdx st.vec = true →
      (∀ m ∈ ms, refsBelow st.vec.length m.g0 = true) →
      (∀ p ∈ parts, refsBelow st.vec.length p = true) →
      recurseTokens st parts ms = .ok (parts2, st2) →
      st2.vec = st.vec ∧ ∀ p ∈ parts2, refsBelow st.vec.length p = true := by
  intro ms
  induction ms with
  | nil =>
    intro st parts parts2 st2 _ _ hp h
    simp only [recurseTokens] at h
    obtain ⟨e1, e2⟩ := okPairInj h
    subst e1
    subst e2
    exact ⟨rfl, hp⟩
  | cons m rest ih =>
    intro st parts parts2 st2 hok hms hp h
    simp only [recurseTokens] at h
    by_cases hv : pyStrip m.g0 = []
    · rw [if_pos hv] at h
      exact ih st parts parts2 st2 hok (fun m2 hm2 => hms m2 (List.mem_cons_of_mem m hm2)) hp h
    · rw [if_neg hv] at h
      match he : expand_group ((pyStrip m.g0).length + 1) st (pyStrip m.g0) with
      | .error e =>
        rw [he] at h
        exact absurd h (by simp)
      | .ok (v2, stE) =>
        rw [he] at h
        dsimp only at h
        obtain ⟨hEvec, hEref⟩ := expand_group_inv _ st _ v2 stE hok
          (refsBelow_pyStrip (hms m (List.mem_cons_self m rest))) he
        have hokE : vecOkIdx stE.vec = true := by rw [hEvec]; exact hok
        obtain ⟨hvec2, hp2⟩ := ih stE (recursePartsStep parts v2) parts2 st2 hokE
          (fun m2 hm2 => by rw [hEvec]; exact hms m2 (List.mem_cons_of_mem m hm2))
          (fun p hpm => by rw [hEvec]; exact recursePartsStep_refs hp hEref p hpm) h
        refine ⟨hvec2.trans hEvec, fun p hpm => ?_⟩
        have := hp2 p hpm
        rw [hEvec] at this
        exact this

theorem recurse_braceFree :
    ∀ (fuel : Nat) (st : MathSt) (text out : Str) (st2 : MathSt),
      vecOkIdx st.vec = true → refsBelow st.vec.length text = true →
      (123 ∈ text → False) →
      recurse fuel st text = .ok (out, st2) →
      st2.vec = st.vec ∧ refsBelow st.vec.length out = true := by
  intro fuel st text out st2 hok hs hbr h
  cases fuel with
  | zero => exact absurd h (by simp [recurse])
  | succ fuel =>
    simp only [recurse] at h
    rw [recurseMagicLoop_id (recurse fuel) text.length st text hbr] at h
    dsimp only at h
    match ht : recurseTokens st [] (pyFindIter tokRE text) with
    | .error e =>
      rw [ht] at h
      exact absurd h (by simp)
    | .ok (parts, st3) =>
      rw [ht] at h
      dsimp only at h
      obtain ⟨e1, e2⟩ := okPairInj h
      have htoks : ∀ m ∈ pyFindIter tokRE text, refsBelow st.vec.length m.g0 = true :=
        fun m hm => refsBelow_sub (fun c hc => pyFindIterGo_chars tokRE _ none text m hm c hc) hs
      obtain ⟨hvec, hparts⟩ := recurseTokens_inv (pyFindIter tokRE text) st [] parts st3
        hok htoks (by simp) ht
      exact ⟨by rw [← e2]; exact hvec, by rw [← e1]; exact refsBelow_flatten hparts⟩
/-! The magic-substitution scanner preserves the table invariant: the table
    only grows at the end, each appended entry references only earlier slots,
    and the scanned text stays within the reference bound of the grown table. -/

theorem refOk_mono {c m n : Nat} (hmn : m ≤ n)
    (hc : (c < MAGIC_FIRST + m || MAGIC_LAST < c) = true) :
    (c < MAGIC_FIRST + n || MAGIC_LAST < c) = true := by
  simp only [Bool.or_eq_true, decide_eq_true_eq] at hc ⊢
  rcases hc with h1 | h1
  · exact Or.inl (by omega)
  · exact Or.inr h1

theorem mathMagicRepl_big (recFn : MathSt → Str → Except PyErr (Str × MathSt))
    (m : PyMatch) (st1 : MathSt) (hbig : 0x10FFFF < MAGIC_FIRST + st1.vec.length) :
    mathMagicRepl recFn m st1 = .error .valueError := by
  simp only [mathMagicRepl]
  rw [if_pos hbig]

theorem mathMagicRepl_err (recFn : MathSt → Str → Except PyErr (Str × MathSt))
    (m : PyMatch) (st1 : MathSt) (e : PyErr)
    (hcall : recFn st1 ((pyGroup m 1).getD []) = .error e)
    (hbig : ¬ 0x10FFFF < MAGIC_FIRST + st1.vec.length) :
    mathMagicRepl recFn m st1 = .error e := by
  simp only [mathMagicRepl]
  rw [if_neg hbig, hcall]

/-- The allocation step of math_magic's replacement closure: the magic
    codepoint is the table length before the renderer runs, and the rendered,
    stripped group is appended at the end. -/
theorem mathMagicRepl_alloc (recFn : MathSt → Str → Except PyErr (Str × MathSt))
    (m : PyMatch) (st1 : MathSt) (t0 : Str) (st2 : MathSt)
    (hcall : recFn st1 ((pyGroup m 1).getD []) = .ok (t0, st2))
    (hbig : ¬ 0x10FFFF < MAGIC_FIRST + st1.vec.length) :
    mathMagicRepl recFn m st1 =
      .ok ([MAGIC_FIRST + st1.vec.length], ⟨st2.vec ++ [pyStrip t0], st2.diags⟩) := by
  simp only [mathMagicRepl]
  rw [if_neg hbig, hcall]

theorem mathMagicSub_inv
    (recFn : MathSt → Str → Except PyErr (Str × MathSt))
    (hrec : ∀ (stX : MathSt) (t : Str), vecOkIdx stX.vec = true →
      refsBelow stX.vec.length t = true → (123 ∈ t → False) →
      ∀ (outX : Str) (stY : MathSt), recFn stX t = .ok (outX, stY) →
        stY.vec = stX.vec ∧ refsBelow stX.vec.length outX = true) :
    ∀ (fuel : Nat) (prev : Option Nat) (s : Str) (st : MathSt) (out : Str) (st2 : MathSt),
      vecOkIdx st.vec = true → refsBelow st.vec.length s = true →
      pySubStGo braceRE (mathMagicRepl recFn) fuel prev s st = .ok (out, st2) →
      st.vec <+: st2.vec ∧ vecOkIdx st2.vec = true ∧ refsBelow st2.vec.length out = true := by
  intro fuel
  induction fuel with
  | zero =>
    intro prev s st out st2 hok hs h
    simp only [pySubStGo] at h
    obtain ⟨e1, e2⟩ := okPairInj h
    subst e1
    subst e2
    exact ⟨List.prefix_refl _, hok, hs⟩
  | succ fuel ih =>
    intro prev s st out st2 hok hs h
    simp only [pySubStGo] at h
    match hms : matchAtPrev braceRE prev s with
    | none =>
      rw [hms] at h
      match s, hs, h with
      | [], hs, h =>
        obtain ⟨e1, e2⟩ := okPairInj h
        subst e1
        subst e2
        exact ⟨List.prefix_refl _, hok, refsBelow_nil⟩
      | c :: t, hs, h =>
        dsimp only at h
        have hc := refsBelow_elem hs (List.mem_cons_self c t)
        have ht := refsBelow_sub (fun d hd => List.mem_cons_of_mem c hd) hs
        match hnext : pySubStGo braceRE (mathMagicRepl recFn) fuel (some c) t st with
        | .error e =>
          rw [hnext] at h
          exact absurd h (by simp)
        | .ok (rest2, st3) =>
          rw [hnext] at h
          dsimp only at h
          obtain ⟨e1, e2⟩ := okPairInj h
          subst e1
          subst e2
          obtain ⟨hpre, hok3, href3⟩ := ih (some c) t st rest2 st3 hok ht hnext
          exact ⟨hpre, hok3, refsBelow_cons (refOk_mono hpre.length_le hc) href3⟩
    | some mst =>
      rw [hms] at h
      dsimp only at h
      obtain ⟨mid, hsdec, hcaps, hne, hmidq⟩ := braceMatch_elim prev s mst hms
      have hconslen : s.length - mst.rest.length = mid.length + 2 := by
        rw [hsdec]
        simp only [List.length_cons, List.length_append]
        omega
      have hzero : ¬ (s.length - mst.rest.length = 0) := by omega
      have hgroup :
          (pyGroup (⟨s.take (s.length - mst.rest.length), mst.caps⟩ : PyMatch) 1).getD []
            = mid := by
        simp [pyGroup, hcaps, List.lookup]
      by_cases hbig : 0x10FFFF < MAGIC_FIRST + st.vec.length
      · rw [mathMagicRepl_big recFn _ st hbig] at h
        exact absurd h (by simp)
      · have hmidref : refsBelow st.vec.length mid = true := by
          refine refsBelow_sub (fun c hcm => ?_) hs
          rw [hsdec]
          exact List.mem_cons_of_mem 123 (List.mem_append.mpr (Or.inl hcm))
        have hmidbr : 123 ∈ mid → False := by
          intro hm
          have := List.all_eq_true.mp hmidq 123 hm
          simp at this
        match hcall : recFn st mid with
        | .error e =>
          rw [mathMagicRepl_err recFn _ st e (by rw [hgroup]; exact hcall) hbig] at h
          exact absurd h (by simp)
        | .ok (t0, stA) =>
          obtain ⟨hAvec, hAref⟩ := hrec st mid hok hmidref hmidbr t0 stA hcall
          rw [mathMagicRepl_alloc recFn _ st t0 stA (by rw [hgroup]; exact hcall) hbig] at h
          dsimp only at h
          rw [if_neg hzero] at h
          have hvec3 : (⟨stA.vec ++ [pyStrip t0], stA.diags⟩ : MathSt).vec
              = st.vec ++ [pyStrip t0] := by
            dsimp only
            rw [hAvec]
          have hok3 : vecOkIdx (⟨stA.vec ++ [pyStrip t0], stA.diags⟩ : MathSt).vec = true := by
            rw [hvec3]
            exact vecOkIdx_append st.vec _ hok (refsBelow_pyStrip hAref)
          have hrest_ref :
              refsBelow (⟨stA.vec ++ [pyStrip t0], stA.diags⟩ : MathSt).vec.length mst.rest
                = true := by
            rw [hvec3]
            refine refsBelow_mono (by simp) (refsBelow_sub (fun c hcm => ?_) hs)
            rw [hsdec]
            exact List.mem_cons_of_mem 123
              (List.mem_append.mpr (Or.inr (List.mem_cons_of_mem 125 hcm)))
          match hnext : pySubStGo braceRE (mathMagicRepl recFn) fuel mst.prev mst.rest
              ⟨stA.vec ++ [pyStrip t0], stA.diags⟩ with
          | .error e =>
            rw [hnext] at h
            exact absurd h (by simp)
          | .ok (rest2, stB) =>
            rw [hnext] at h
            dsimp only at h
            obtain ⟨e1, e2⟩ := okPairInj h
            subst e1
            subst e2
            obtain ⟨hpreB, hokB, hrefB⟩ := ih mst.prev mst.rest _ rest2 stB hok3 hrest_ref hnext
            have hlen3 : st.vec.length + 1 ≤ stB.vec.length := by
              have hle := hpreB.length_le
              rw [hvec3] at hle
              simp only [List.length_append, List.length_cons, List.length_nil] at hle
              omega
            refine ⟨?_, hokB, ?_⟩
            · refine List.IsPrefix.trans ?_ hpreB
              show st.vec <+: stA.vec ++ [pyStrip t0]
              rw [hAvec]
              exact List.prefix_append st.vec [pyStrip t0]
            · refine refsBelow_append (refsBelow_cons ?_ refsBelow_nil) hrefB
              simp only [Bool.or_eq_true, decide_eq_true_eq]
              exact Or.inl (by omega)

theorem mathMagicLoop_inv
    (recFn : MathSt → Str → Except PyErr (Str × MathSt))
    (hrec : ∀ (stX : MathSt) (t : Str), vecOkIdx stX.vec = true →
      refsBelow stX.vec.length t = true → (123 ∈ t → False) →
      ∀ (outX : Str) (stY : MathSt), recFn stX t = .ok (outX, stY) →
        stY.vec = stX.vec ∧ refsBelow stX.vec.length outX = true) :
    ∀ (fuel : Nat) (st : MathSt) (text out : Str) (st2 : MathSt),
      vecOkIdx st.vec = true → refsBelow st.vec.length text = true →
      mathMagicLoop recFn fuel st text = .ok (out, st2) →
      st.vec <+: st2.vec ∧ vecOkIdx st2.vec = true ∧ refsBelow st2.vec.length out = true := by
  intro fuel
  induction fuel with
  | zero =>
    intro st text out st2 _ _ h
    exact absurd h (by simp [mathMagicLoop])
  | succ fuel ih =>
    intro st text out st2 hok hs h
    simp only [mathMagicLoop] at h
    match hp : mathMagicPass recFn st text with
    | .error e =>
      rw [hp] at h
      exact absurd h (by simp)
    | .ok (t, stP) =>
      rw [hp] at h
      dsimp only at h
      have hp2 : pySubStGo braceRE (mathMagicRepl recFn) (text.length + 1) none text st
          = .ok (t, stP) := hp
      obtain ⟨hpreP, hokP, hrefP⟩ :=
        mathMagicSub_inv recFn hrec (text.length + 1) none text st t stP hok hs hp2
      by_cases he : t = text
      · rw [if_pos he] at h
        obtain ⟨e1, e2⟩ := okPairInj h
        subst e1
        subst e2
        exact ⟨hpreP, hokP, refsBelow_mono hpreP.length_le hs⟩
      · rw [if_neg he] at h
        obtain ⟨hpre2, hok2, href2⟩ := ih stP t out st2 hokP hrefP h
        exact ⟨hpreP.trans hpre2, hok2, href2⟩

theorem recurseMagicLoop_inv
    (recFn : MathSt → Str → Except PyErr (Str × MathSt))
    (hrec : ∀ (stX : MathSt) (t : Str), vecOkIdx stX.vec = true →
      refsBelow stX.vec.length t = true → (123 ∈ t → False) →
      ∀ (outX : Str) (stY : MathSt), recFn stX t = .ok (outX, stY) →
        stY.vec = stX.vec ∧ refsBelow stX.vec.length outX = true) :
    ∀ (fuel : Nat) (st : MathSt) (text out : Str) (st2 : MathSt),
      vecOkIdx st.vec = true → refsBelow st.vec.length text = true →
      recurseMagicLoop recFn fuel st text = .ok (out, st2) →
      st.vec <+: st2.vec ∧ vecOkIdx st2.vec = true ∧ refsBelow st2.vec.length out = true := by
  intro fuel
  induction fuel with
  | zero =>
    intro st text out st2 _ _ h
    exact absurd h (by simp [recurseMagicLoop])
  | succ fuel ih =>
    intro st text out st2 hok hs h
    simp only [recurseMagicLoop] at h
    match hp : mathMagicLoop recFn (text.length + 1) st text with
    | .error e =>
      rw [hp] at h
      exact absurd h (by simp)
    | .ok (t, stP) =>
      rw [hp] at h
      dsimp only at h
      obtain ⟨hpreP, hokP, hrefP⟩ :=
        mathMagicLoop_inv recFn hrec (text.length + 1) st text t stP hok hs hp
      by_cases he : t = text
      · rw [if_pos he] at h
        obtain ⟨e1, e2⟩ := okPairInj h
        subst e1
        subst e2
        exact ⟨hpreP, hokP, refsBelow_mono hpreP.length_le hs⟩
      · rw [if_neg he] at h
        obtain ⟨hpre2, hok2, href2⟩ := ih stP t out st2 hokP hrefP h
        exact ⟨hpreP.trans hpre2, hok2, href2⟩

/-- The full table invariant of one recurse call: the table grows only by
    appending, every entry keeps referencing only earlier slots, and the
    output respects the reference bound of the final table. -/
theorem recurse_inv :
    ∀ (fuel : Nat) (st : MathSt) (text out : Str) (st2 : MathSt),
      vecOkIdx st.vec = true → refsBelow st.vec.length text = true →
      recurse fuel st text = .ok (out, st2) →
      st.vec <+: st2.vec ∧ vecOkIdx st2.vec = true ∧ refsBelow st2.vec.length out = true := by
  intro fuel st text out st2 hok hs h
  cases fuel with
  | zero => exact absurd h (by simp [recurse])
  | succ fuel =>
    simp only [recurse] at h
    have hrec : ∀ (stX : MathSt) (t : Str), vecOkIdx stX.vec = true →
        refsBelow stX.vec.length t = true → (123 ∈ t → False) →
        ∀ (outX : Str) (stY : MathSt), recurse fuel stX t = .ok (outX, stY) →
          stY.vec = stX.vec ∧ refsBelow stX.vec.length outX = true :=
      fun stX t hokX hsX hbrX outX stY hX =>
        recurse_braceFree fuel stX t outX stY hokX hsX hbrX hX
    match hm : recurseMagicLoop (recurse fuel) (text.length + 1) st text with
    | .error e =>
      rw [hm] at h
      exact absurd h (by simp)
    | .ok (t2, stM) =>
      rw [hm] at h
      dsimp only at h
      obtain ⟨hpreM, hokM, hrefM⟩ :=
        recurseMagicLoop_inv (recurse fuel) hrec (text.length + 1) st text t2 stM hok hs hm
      match ht : recurseTokens stM [] (pyFindIter tokRE t2) with
      | .error e =>
        rw [ht] at h
        exact absurd h (by simp)
      | .ok (parts, st3) =>
        rw [ht] at h
        dsimp only at h
        obtain ⟨e1, e2⟩ := okPairInj h
        subst e1
        subst e2
        have htoks : ∀ m ∈ pyFindIter tokRE t2, refsBelow stM.vec.length m.g0 = true :=
          fun m hmm =>
            refsBelow_sub (fun c hc => pyFindIterGo_chars tokRE _ none t2 m hmm c hc) hrefM
        obtain ⟨hvec, hparts⟩ := recurseTokens_inv (pyFindIter tokRE t2) stM [] parts st3
          hokM htoks (by simp) ht
        refine ⟨?_, ?_, ?_⟩
        · rw [hvec]
          exact hpreM
        · rw [hvec]
          exact hokM
        · rw [hvec]
          exact refsBelow_flatten hparts
/-- C9: within one invocation of to_math (which starts recurse on an empty
    table), magic placeholder codepoints are allocated sequentially starting
    at MAGIC_FIRST and never reused: the replacement closure of math_magic
    returns the codepoint MAGIC_FIRST plus the current table length and
    appends exactly one entry at that index (first conjunct), and the group
    renderer it runs — recurse on the brace-free captured group — leaves the
    table unchanged, so the codepoint computed before the renderer still names
    the appended slot (second conjunct); MAGIC_FIRST plus k denotes entry k of
    the table (third conjunct); the table is append-only and no entry ever
    contains a magic reference to a slot at or beyond its own index (fourth
    conjunct); and therefore repeatedly replacing every magic character by its
    table entry — to_math's expand — terminates at a fixed point free of magic
    characters (fifth conjunct). -/
theorem C9_theorem :
    (∀ (recFn : MathSt → Str → Except PyErr (Str × MathSt)) (m : PyMatch)
        (st1 st2 : MathSt) (t0 : Str),
      recFn st1 ((pyGroup m 1).getD []) = .ok (t0, st2) → st2.vec = st1.vec →
      ¬ 0x10FFFF < MAGIC_FIRST + st1.vec.length →
      mathMagicRepl recFn m st1 =
        .ok ([MAGIC_FIRST + st1.vec.length], ⟨st1.vec ++ [pyStrip t0], st2.diags⟩)) ∧
    (∀ (fuel : Nat) (st : MathSt) (t out : Str) (st2 : MathSt),
      vecOkIdx st.vec = true → refsBelow st.vec.length t = true → (123 ∈ t → False) →
      recurse fuel st t = .ok (out, st2) → st2.vec = st.vec) ∧
    (∀ (vec : List Str) (k : Nat) (h : k < vec.length), MAGIC_FIRST + k ≤ MAGIC_LAST →
      expandPass vec [MAGIC_FIRST + k] = .ok (vec.get ⟨k, h⟩)) ∧
    (∀ (fuel : Nat) (st : MathSt) (text out : Str) (st2 : MathSt),
      vecOkIdx st.vec = true → refsBelow st.vec.length text = true →
      recurse fuel st text = .ok (out, st2) →
      st.vec <+: st2.vec ∧ vecOkIdx st2.vec = true) ∧
    (∀ (vec : List Str) (s : Str), vecOkIdx vec = true → refsBelow vec.length s = true →
      ∃ t, expand vec s = .ok t ∧ noMagic t = true) := by
  refine ⟨?_, ?_, ?_, ?_, ?_⟩
  · intro recFn m st1 st2 t0 hcall hvec hbig
    rw [mathMagicRepl_alloc recFn m st1 t0 st2 hcall hbig, hvec]
  · intro fuel st t out st2 hok hs hbr h
    exact (recurse_braceFree fuel st t out st2 hok hs hbr h).1
  · intro vec k h h2
    exact expandPass_entry vec k h h2
  · intro fuel st text out st2 hok hs h
    obtain ⟨h1, h2, _⟩ := recurse_inv fuel st text out st2 hok hs h
    exact ⟨h1, h2⟩
  · intro vec s hok hs
    exact expand_ok vec s hok hs

/-- C9 witness: each conjunct applied at a concrete run.  The replacement
    closure with an identity renderer on the brace group ab allocates
    MAGIC_FIRST (the table was empty) and appends the entry ab at slot 0;
    recurse on the brace-free text a does not touch the table; MAGIC_FIRST
    plus 1 expands to entry 1 of a two-entry table; recurse on the brace group
    ab grows the empty table to the valid one-entry table; and expansion of
    the magic character over a one-entry table reaches a magic-free result. -/
theorem C9_witness :
    mathMagicRepl (fun st t => .ok (t, st)) ⟨strOf "\x7bab\x7d", [(1, strOf "ab")]⟩ ⟨[], []⟩ =
      .ok ([MAGIC_FIRST], ⟨[strOf "ab"], []⟩) ∧
    (⟨[], []⟩ : MathSt).vec = (⟨[], []⟩ : MathSt).vec ∧
    expandPass [strOf "x", strOf "y"] [MAGIC_FIRST + 1] = .ok (strOf "y") ∧
    ((⟨[], []⟩ : MathSt).vec <+: (⟨[strOf "ab"], []⟩ : MathSt).vec ∧
      vecOkIdx (⟨[strOf "ab"], []⟩ : MathSt).vec = true) ∧
    ∃ t, expand [strOf "x"] [MAGIC_FIRST] = .ok t ∧ noMagic t = true := by
  refine ⟨?_, ?_, ?_, ?_, ?_⟩
  · exact (C9_theorem.1 (fun st t => .ok (t, st)) ⟨strOf "\x7bab\x7d", [(1, strOf "ab")]⟩
      ⟨[], []⟩ ⟨[], []⟩ (strOf "ab") (by decide) (by decide) (by decide)).trans (by decide)
  · exact C9_theorem.2.1 2 ⟨[], []⟩ [97] [97] ⟨[], []⟩ (by decide) (by decide)
      (by decide) (by decide)
  · exact (C9_theorem.2.2.1 [strOf "x", strOf "y"] 1 (by decide) (by decide)).trans (by decide)
  · exact C9_theorem.2.2.2.1 6 ⟨[], []⟩ (strOf "\x7bab\x7d") (strOf "ab") ⟨[strOf "ab"], []⟩
      (by decide) (by decide) (by decide)
  · exact C9_theorem.2.2.2.2 [strOf "x"] [MAGIC_FIRST] (by decide) (by decide)
/-!
html.unescape from the Python standard library, as used by clean_value: the
character-reference regex, the numeric and named replacement rules with the
invalid-charref and invalid-codepoint tables, and the longest-prefix fallback
for named references without a terminating semicolon.
-/

/-- A hexadecimal digit, as in the class 0-9a-fA-F. -/
def hexDigit : RE :=
  .cls (fun c => (48 ≤ c && c ≤ 57) || (97 ≤ c && c ≤ 102) || (65 ≤ c && c ≤ 70))

/-- At most n further greedy repetitions of r. -/
def upTo : Nat → RE → RE
  | 0, _ => .eps
  | n + 1, r => .opt false (.seq r (upTo n r))

/-- A character allowed in a named reference: anything but tab, newline,
    form feed, space, less-than, ampersand, hash and semicolon. -/
def namedRefChar : RE :=
  .cls (fun c => !(c == 9 || c == 10 || c == 12 || c == 32 || c == 60 || c == 38 || c == 59
    || c == 35))

/-- html._charref: an ampersand followed by a decimal reference, a hexadecimal
    reference, or one to thirty-two name characters, each with an optional
    semicolon. -/
def charrefRE : RE :=
  .seq (chrRE 38) (.group 1 (alts [
    .seq (chrRE 35) (.seq (rplus false digit09) (.opt false (chrRE 59))),
    .seq (chrRE 35) (.seq (cin "xX") (.seq (rplus false hexDigit) (.opt false (chrRE 59)))),
    .seq namedRefChar (.seq (upTo 31 namedRefChar) (.opt false (chrRE 59)))]))

/-- Strip trailing semicolons (Python rstrip with a single character). -/
def stripSemis (s : Str) : Str := (s.reverse.dropWhile (fun c => c == 59)).reverse

/-- Decimal digit string to number. -/
def decToNat (s : Str) : Nat := s.foldl (fun acc c => acc * 10 + (c - 48)) 0

/-- Value of one hexadecimal digit. -/
def hexVal (c : Nat) : Nat :=
  if 48 ≤ c && c ≤ 57 then c - 48
  else if 97 ≤ c && c ≤ 102 then c - 87
  else c - 55

/-- Hexadecimal digit string to number. -/
def hexToNat (s : Str) : Nat := s.foldl (fun acc c => acc * 16 + hexVal c) 0

/-- The numeric branch of html._replace_charref. -/
def numCharref (num : Nat) : Str :=
  match List.lookup num invalidCharrefs with
  | some v => v
  | none =>
    if (0xD800 ≤ num && num ≤ 0xDFFF) || 0x10FFFF < num then [0xFFFD]
    else if invalidCodepoints.contains num then []
    else [num]

/-- The longest-prefix fallback of the named branch of html._replace_charref:
    x runs from the length of s minus one down to two. -/
def namedFallback : Nat → Str → Str
  | 0, s => 38 :: s
  | 1, s => 38 :: s
  | x + 2, s =>
    match List.lookup (s.take (x + 2)) html5Table with
    | some v => v ++ s.drop (x + 2)
    | none => namedFallback (x + 1) s

/-- The named branch of html._replace_charref. -/
def namedCharref (s : Str) : Str :=
  match List.lookup s html5Table with
  | some v => v
  | none => namedFallback (s.length - 1) s

/-- html._replace_charref on the captured group. -/
def replaceCharref (m : PyMatch) : Str :=
  match (pyGroup m 1).getD [] with
  | 35 :: rest =>
    match rest with
    | c :: rest2 =>
      if c == 120 || c == 88 then numCharref (hexToNat (stripSemis rest2))
      else numCharref (decToNat (stripSemis rest))
    | [] => namedCharref []
  | s => namedCharref s

/-- html.unescape: an early exit when no ampersand occurs, otherwise the
    charref substitution. -/
def pyUnescape (s : Str) : Str :=
  if !s.contains 38 then s else pySubP charrefRE replaceCharref s

/-!
unicodedata.normalize("NFC", s) from the Python standard library, as used by
clean_value: full canonical decomposition (with algorithmic Hangul), canonical
ordering of combining marks, and canonical composition (with algorithmic
Hangul and the primary composite table).
-/

/-- Canonical combining class lookup over the sorted nonzero runs. -/
def cccLookup : List (Nat × Nat × Nat) → Nat → Nat
  | [], _ => 0
  | (lo, hi, cc) :: rest, c => if c < lo then 0 else if c ≤ hi then cc else cccLookup rest c

/-- Canonical combining class of a codepoint. -/
def cccOf (c : Nat) : Nat := cccLookup cccRuns c

/-- Algorithmic decomposition of a Hangul syllable. -/
def hangulDecomp (c : Nat) : Str :=
  let si := c - 0xAC00
  let l := 0x1100 + si / 588
  let v := 0x1161 + (si % 588) / 28
  let t := si % 28
  if t = 0 then [l, v] else [l, v, 0x11A7 + t]

/-- Full canonical decomposition of one codepoint. -/
def nfdChar (c : Nat) : Str :=
  if 0xAC00 ≤ c && c < 0xAC00 + 11172 then hangulDecomp c
  else
    match List.lookup c nfdTable with
    | some d => d
    | none => [c]

/-- Full canonical decomposition of a string. -/
def nfd (s : Str) : Str := s.flatMap nfdChar

/-- Canonical ordering insertion: a combining mark moves left past marks of
    strictly greater combining class, never past a starter. -/
def insertCC (acc : Str) (c : Nat) : Str :=
  if cccOf c = 0 then acc ++ [c]
  else
    let rev := acc.reverse
    ((rev.dropWhile (fun d => cccOf c < cccOf d)).reverse) ++ [c] ++
      (rev.takeWhile (fun d => cccOf c < cccOf d)).reverse

/-- The canonical ordering pass. -/
def canonOrder (s : Str) : Str := s.foldl insertCC []

/-- The primary composite of a pair, if any: algorithmic Hangul L plus V,
    Hangul LV plus T, or the primary composite table. -/
def composite (a b : Nat) : Option Nat :=
  if 0x1100 ≤ a && a ≤ 0x1112 && 0x1161 ≤ b && b ≤ 0x1175 then
    some (0xAC00 + ((a - 0x1100) * 21 + (b - 0x1161)) * 28)
  else if 0xAC00 ≤ a && a < 0xAC00 + 11172 && (a - 0xAC00) % 28 == 0
      && 0x11A8 ≤ b && b ≤ 0x11C2 then
    some (a + (b - 0x11A7))
  else List.lookup (a, b) compTable

/-- The canonical composition pass: the current starter, the pending
    non-starters after it, and the remaining input. -/
def composeGo : Option Nat → Str → Str → Str
  | starter, pending, [] =>
    (match starter with
     | some l => [l]
     | none => []) ++ pending
  | starter, pending, c :: rest =>
    match starter with
    | some l =>
      match (if pending = [] || cccOf (pending.getLastD 0) < cccOf c then composite l c
        else none) with
      | some comp => composeGo (some comp) pending rest
      | none =>
        if cccOf c = 0 then l :: (pending ++ composeGo (some c) [] rest)
        else composeGo (some l) (pending ++ [c]) rest
    | none =>
      if cccOf c = 0 then composeGo (some c) [] rest
      else c :: composeGo none [] rest

/-- unicodedata.normalize("NFC", s). -/
def nfc (s : Str) : Str := composeGo none [] (canonOrder (nfd s))
/-!
Configuration inputs of clean_value and its case-insensitive literals.
-/

/-- Does the pattern character `lit` match the subject character c under
    Python re.IGNORECASE.  For a letter the generated class lists the
    codepoints Python accepts; any other character matches only itself. -/
def letterMatches (lit c : Nat) : Bool :=
  let lc := if 65 ≤ lit && lit ≤ 90 then lit + 32 else lit
  match List.lookup lc iLetterClasses with
  | some cls => cls.contains c
  | none => c == lit

/-- One literal character under re.IGNORECASE. -/
def chrI (c : Nat) : RE := .cls (fun x => letterMatches c x)

/-- A literal character sequence under re.IGNORECASE. -/
def litIGo : Str → RE
  | [] => .eps
  | [c] => chrI c
  | c :: t => .seq (chrI c) (litIGo t)

/-- A case-insensitive literal from a Lean string. -/
def litI (s : String) : RE := litIGo (strOf s)

/-- Right-nested concatenation of a list of regexes. -/
def seqs : List RE → RE
  | [] => .eps
  | [r] => r
  | r :: t => .seq r (seqs t)

/-- Modelled from the spec: the namespace prefixes recognized as image links
    (the names and aliases of the File namespace supplied by the external
    NamespaceConfig; the File namespace and its alias Image). -/
def imageLinkPrefixes : List String := ["File", "Image"]

/-- clean_value's IMAGE_LINK_RE: one of the image-namespace prefixes,
    optional whitespace, and a colon, case-insensitively. -/
def IMAGE_LINK_RE : RE :=
  .seq (alts (imageLinkPrefixes.map litI)) (.seq (.star false wsRE) (chrRE 58))

/-- Modelled from the spec: the names of the Category namespace supplied by
    the external NamespaceConfig (the name Category and its aliases; the set
    always contains Category itself). -/
def categoryNames : List String := ["Category"]

/-- Modelled from the spec: URL scheme prefixes recognized at the start of a
    bracketed external link's tokens (wikitextprocessor.common.URL_STARTS). -/
def URL_STARTS : List String := ["//", "http://", "https://", "mailto:"]

/-- clean.py's URL_STARTS_RE: the alternation of the URL starts,
    case-insensitively. -/
def URL_STARTS_RE : RE := alts (URL_STARTS.map litI)

/-- clean.py's NOT_INLINE_IMG_RE. -/
def NOT_INLINE_IMG_RE : RE :=
  seqs [chrRE 124, .star false wsRE,
    .group 1 (alts [litS "right", litS "left", litS "center", litS "thumb", litS "frame"]),
    .star false wsRE, chrRE 124]

/-- Python s.strip(chars): remove the given characters from both ends. -/
def pyStripChars (chars : Str) (s : Str) : Str :=
  ((s.dropWhile (fun c => chars.contains c)).reverse.dropWhile
    (fun c => chars.contains c)).reverse

/-- Python s.split(sep)[0] for a one-character separator. -/
def splitBarHead (s : Str) : Str := s.takeWhile (fun c => c != 124)

/-- Does s contain sub as a contiguous substring (Python `in`). -/
def containsSub (sub : Str) : Str → Bool
  | [] => pyStartsWith [] sub
  | c :: t => pyStartsWith (c :: t) sub || containsSub sub t

/-- Python re.search: the leftmost match anywhere in the string. -/
def pySearchGo (r : RE) : Nat → Option Nat → Str → Option PyMatch
  | 0, _, _ => none
  | fuel + 1, prev, s =>
    match matchAtPrev r prev s with
    | some mst => some ⟨s.take (s.length - mst.rest.length), mst.caps⟩
    | none =>
      match s with
      | [] => none
      | c :: t => pySearchGo r fuel (some c) t

/-- Python re.search over a whole string. -/
def pySearch (r : RE) (s : Str) : Option PyMatch := pySearchGo r (s.length + 1) none s

/-- Python re.split(r"\s+", s): the mode flag records whether a separator run
    is being skipped. -/
def splitWsGo : Bool → Str → Str → List Str
  | _, cur, [] => [cur.reverse]
  | inSep, cur, c :: t =>
    if pyIsSpaceRe c then
      if inSep then splitWsGo true [] t
      else cur.reverse :: splitWsGo true [] t
    else splitWsGo false (c :: cur) t

/-- Python re.split(r"\s+", s). -/
def pySplitWs (s : Str) : List Str := splitWsGo false [] s

/-- Python " ".join. -/
def joinSp : List Str → Str
  | [] => []
  | [a] => a
  | a :: t => a ++ 32 :: joinSp t

/-- The index loop of repl_exturl: drop leading URL-scheme tokens, always
    keeping the last token. -/
def urlSkip : List Str → List Str
  | [] => []
  | [a] => [a]
  | a :: rest => if pyMatchB URL_STARTS_RE a then urlSkip rest else a :: rest
/-!
The substitution patterns of clean_value, transcribed in source order.
-/

/-- `<nowiki\s*/>` -/
def nowikiRE : RE := seqs [litS "<nowiki", .star false wsRE, litS "/>"]

/-- `\{\|((?!\{\|)(?!\|\}).)*\|\}` with DOTALL. -/
def tableRE : RE :=
  seqs [litS "\x7b|",
    .star false (seqs [.nla (litS "\x7b|"), .nla (litS "|\x7d"), anyCh]),
    litS "|\x7d"]

/-- `<ref\s+name="[^"]+"\s*/>` -/
def refNameRE : RE :=
  seqs [litS "<ref", rplus false wsRE, litS "name=", chrRE 34,
    rplus false (.cls (fun c => c != 34)), chrRE 34, .star false wsRE, litS "/>"]

/-- `(?is)<ref\b\s*[^>/]*?>\s*.*?</ref\s*>` -/
def refRE : RE :=
  seqs [litI "<ref", .wordB, .star false wsRE, .star true (cnot ">/"), chrRE 62,
    .star false wsRE, .star true anyCh, litI "</ref", .star false wsRE, chrRE 62]

/-- `(?is)<span\b\s*[^>]*?>(.*?)\s*</span\s*>` -/
def spanRE : RE :=
  seqs [litI "<span", .wordB, .star false wsRE, .star true (cnot ">"), chrRE 62,
    .group 1 (.star true anyCh), .star false wsRE, litI "</span", .star false wsRE, chrRE 62]

/-- `(?si)\s*<br\s*/?>\n*` -/
def brRE : RE :=
  seqs [.star false wsRE, litI "<br", .star false wsRE, .opt false (chrRE 47), chrRE 62,
    .star false (chrRE 10)]

/-- The shared nested-div body of the floatright and float-style patterns:
    `((<div\b(<div\b.*?</div\s*>|.)*?</div>)|.)*?` followed by `</div\s*>`. -/
def divBodyTail : RE :=
  seqs [.star true (.group 1 (.alt
      (.group 2 (seqs [litI "<div", .wordB,
        .star true (.group 3 (.alt
          (seqs [litI "<div", .wordB, .star true anyCh, litI "</div",
            .star false wsRE, chrRE 62])
          anyCh)),
        litI "</div", chrRE 62]))
      anyCh)),
    litI "</div", .star false wsRE, chrRE 62]

/-- `(?si)<div\b[^>]*?\bclass="[^"]*?\bfloatright\b[^>]*?>` and the nested-div
    body. -/
def floatrightRE : RE :=
  seqs [litI "<div", .wordB, .star true (cnot ">"), .wordB, litI "class=", chrRE 34,
    .star true (.cls (fun c => c != 34)), .wordB, litI "floatright", .wordB,
    .star true (cnot ">"), chrRE 62, divBodyTail]

/-- `(?si)<div\b[^>]*?\bstyle="[^"]*?\bfloat:[^>]*?>` and the nested-div
    body. -/
def floatStyleRE : RE :=
  seqs [litI "<div", .wordB, .star true (cnot ">"), .wordB, litI "style=", chrRE 34,
    .star true (.cls (fun c => c != 34)), .wordB, litI "float:",
    .star true (cnot ">"), chrRE 62, divBodyTail]

/-- `(?si)<sup\b[^>]*?\bclass="[^"<>]*?\bpreviewonly\b[^>]*?>.+?</sup\s*>` -/
def previewSupRE : RE :=
  seqs [litI "<sup", .wordB, .star true (cnot ">"), .wordB, litI "class=", chrRE 34,
    .star true (cnot "\"<>"), .wordB, litI "previewonly", .wordB,
    .star true (cnot ">"), chrRE 62, rplus true anyCh, litI "</sup",
    .star false wsRE, chrRE 62]

/-- `(?si)<strong\b[^>]*?\bclass="[^"]*?\berror\b[^>]*?>.+?</strong\s*>` -/
def strongErrRE : RE :=
  seqs [litI "<strong", .wordB, .star true (cnot ">"), .wordB, litI "class=", chrRE 34,
    .star true (.cls (fun c => c != 34)), .wordB, litI "error", .wordB,
    .star true (cnot ">"), chrRE 62, rplus true anyCh, litI "</strong",
    .star false wsRE, chrRE 62]

/-- `(?si)</?(div|tr|li|table|dl|ul|ol)\b[^>]*>` -/
def divNlRE : RE :=
  seqs [chrRE 60, .opt false (chrRE 47),
    .group 1 (alts [litI "div", litI "tr", litI "li", litI "table", litI "dl",
      litI "ul", litI "ol"]),
    .wordB, .star false (cnot ">"), chrRE 62]

/-- `(?i)</?d[dt]\s*>` -/
def ddtRE : RE :=
  seqs [chrRE 60, .opt false (chrRE 47), chrI 100,
    .cls (fun c => letterMatches 100 c || letterMatches 116 c),
    .star false wsRE, chrRE 62]

/-- `(?si)</?(td|th)\b[^>]*>` -/
def tdThRE : RE :=
  seqs [chrRE 60, .opt false (chrRE 47), .group 1 (.alt (litI "td") (litI "th")),
    .wordB, .star false (cnot ">"), chrRE 62]

/-- `(?si)<sup\b[^>]*>\s*</sup\s*>` -/
def supEmptyRE : RE :=
  seqs [litI "<sup", .wordB, .star false (cnot ">"), chrRE 62, .star false wsRE,
    litI "</sup", .star false wsRE, chrRE 62]

/-- `(?si)<sup\b[^>]*>(.*?)</sup\s*>` -/
def supRE : RE :=
  seqs [litI "<sup", .wordB, .star false (cnot ">"), chrRE 62,
    .group 1 (.star true anyCh), litI "</sup", .star false wsRE, chrRE 62]

/-- `(?si)<sub\b[^>]*>\s*</sub\s*>` -/
def subEmptyRE : RE :=
  seqs [litI "<sub", .wordB, .star false (cnot ">"), chrRE 62, .star false wsRE,
    litI "</sub", .star false wsRE, chrRE 62]

/-- `(?si)<sub\b[^>]*>(.*?)</sub\s*>` -/
def subRE : RE :=
  seqs [litI "<sub", .wordB, .star false (cnot ">"), chrRE 62,
    .group 1 (.star true anyCh), litI "</sub", .star false wsRE, chrRE 62]

/-- `(?si)<chem\b[^>]*>(.*?)</chem\s*>` -/
def chemRE : RE :=
  seqs [litI "<chem", .wordB, .star false (cnot ">"), chrRE 62,
    .group 1 (.star true anyCh), litI "</chem", .star false wsRE, chrRE 62]

/-- `(?si)<math\b[^>]*>(.*?)</math\s*>` -/
def mathRE : RE :=
  seqs [litI "<math", .wordB, .star false (cnot ">"), chrRE 62,
    .group 1 (.star true anyCh), litI "</math", .star false wsRE, chrRE 62]

/-- `(?si)<syntaxhighlight\b[^>]*>(.*?)</syntaxhighlight\s*>` -/
def syntaxRE : RE :=
  seqs [litI "<syntaxhighlight", .wordB, .star false (cnot ">"), chrRE 62,
    .group 1 (.star true anyCh), litI "</syntaxhighlight", .star false wsRE, chrRE 62]

/-- `(?s)<[/!a-zA-Z][^>]*>` -/
def htmlTagRE : RE :=
  seqs [chrRE 60,
    .cls (fun c => c == 47 || c == 33 || (65 ≤ c && c ≤ 90) || (97 ≤ c && c ≤ 122)),
    .star false (cnot ">"), chrRE 62]

/-- `(?s)</[^>]+>` -/
def htmlTag2RE : RE :=
  seqs [chrRE 60, chrRE 47, rplus false (cnot ">"), chrRE 62]

/-- `(?si)<noinclude\s*/\s*>` -/
def noincludeRE : RE :=
  seqs [litI "<noinclude", .star false wsRE, chrRE 47, .star false wsRE, chrRE 62]

/-- `(?s)\[\s*\.\.\.\s*\]` -/
def bracketDotsRE : RE :=
  seqs [chrRE 91, .star false wsRE, litS "...", .star false wsRE, chrRE 93]

/-- `\^\(\[?(https?:)?//[^]()]+\]?\)` -/
def supUrlRE : RE :=
  seqs [chrRE 94, chrRE 40, .opt false (chrRE 91),
    .opt false (.group 1 (seqs [litS "http", .opt false (chrRE 115), chrRE 58])),
    litS "//", rplus false (cnot "]()"), .opt false (chrRE 93), chrRE 41]

/-- `\[//[^]\s]+\s+edit\s*\]` -/
def editLinkRE : RE :=
  seqs [chrRE 91, litS "//",
    rplus false (.cls (fun c => !(c == 93 || pyIsSpaceRe c))),
    rplus false wsRE, litS "edit", .star false wsRE, chrRE 93]

/-- `(?si)\s*\[\[\s*(?:CATEGORY-NAMES)\s*:\s*([^]]+?)\s*\]\]` -/
def categoryRE : RE :=
  seqs [.star false wsRE, litS "[[", .star false wsRE, alts (categoryNames.map litI),
    .star false wsRE, chrRE 58, .star false wsRE, .group 1 (rplus true (cnot "]")),
    .star false wsRE, litS "]]"]

/-- `(?s)\[\[\s*:?([^]|#<>:&]+?)\s*(#[^][|<>]*?)?\]\]` -/
def link1RE : RE :=
  seqs [litS "[[", .star false wsRE, .opt false (chrRE 58),
    .group 1 (rplus true (cnot "]|#<>:&")), .star false wsRE,
    .opt false (.group 2 (.seq (chrRE 35) (.star true (cnot "][|<>")))), litS "]]"]

/-- `(?s)\[\[\s*(([\w\d]+)\s*:)?\s*([^][#|<>]+?)\s*(#[^][|]*?)?\|?\]\]` -/
def link2RE : RE :=
  seqs [litS "[[", .star false wsRE,
    .opt false (.group 1 (seqs [
      .group 2 (rplus false (.cls (fun c => pyIsWord c || pyIsDigitRe c))),
      .star false wsRE, chrRE 58])),
    .star false wsRE, .group 3 (rplus true (cnot "][#|<>")), .star false wsRE,
    .opt false (.group 4 (.seq (chrRE 35) (.star true (cnot "][|")))),
    .opt false (chrRE 124), litS "]]"]

/-- One label unit of the bars pattern: `[^][|]|\[[^]]*\]`. -/
def barUnit : RE :=
  .alt (cnot "][|") (seqs [chrRE 91, .star false (cnot "]"), chrRE 93])

/-- `(?s)\[\[\s*([^][|<>]+?)\s*\|\s*(([^][|]|\[[^]]*\])+?)`
    `(\s*\|\s*(([^][|]|\[[^]]*\])+?))*\s*\|*\]\]` -/
def link3RE : RE :=
  seqs [litS "[[", .star false wsRE, .group 1 (rplus true (cnot "][|<>")),
    .star false wsRE, chrRE 124, .star false wsRE,
    .group 2 (rplus true (.group 3 barUnit)),
    .star false (.group 4 (seqs [.star false wsRE, chrRE 124, .star false wsRE,
      .group 5 (rplus true (.group 6 barUnit))])),
    .star false wsRE, .star false (chrRE 124), litS "]]"]

/-- `\|\s*alt\s*=([^]|]+)(\||\]\])` -/
def altRE : RE :=
  seqs [chrRE 124, .star false wsRE, litS "alt", .star false wsRE, chrRE 61,
    .group 1 (rplus false (cnot "]|")), .group 2 (.alt (chrRE 124) (litS "]]"))]

/-- `\[\s*((https?:|mailto:)?//([^][]+?))\s*\]` -/
def exturlRE : RE :=
  seqs [chrRE 91, .star false wsRE,
    .group 1 (seqs [
      .opt false (.group 2 (.alt
        (seqs [litS "http", .opt false (chrRE 115), chrRE 58]) (litS "mailto:"))),
      litS "//", .group 3 (rplus true (cnot "]["))]),
    .star false wsRE, chrRE 93]

/-- `[‎‏​‍‌﻿]` -/
def zeroWidthRE : RE :=
  .cls (fun c => c == 0x200e || c == 0x200f || c == 0x200b || c == 0x200d
    || c == 0x200c || c == 0xfeff)

/-- `[ \t\r ]+` -/
def spaceRunRE : RE :=
  rplus false (.cls (fun c => c == 32 || c == 9 || c == 13 || c == 0x2002))

/-- ` *\n+` -/
def nlRunRE : RE := .seq (.star false (chrRE 32)) (rplus false (chrRE 10))

/-- `\[\s*…\s*\]` -/
def bracketEllipsisRE : RE :=
  seqs [chrRE 91, .star false wsRE, chrRE 0x2026, .star false wsRE, chrRE 93]
/-!
clean_value itself: the replacement closures (taking the recursive cleaner as
a function argument), the three fixed-point loops, and the phase pipeline.
-/

/-- clean_value's repl_1: clean the first group with no_strip set. -/
def repl_1 (cv : Bool → Bool → Str → Except PyErr Str) (m : PyMatch) : Except PyErr Str :=
  cv true false ((pyGroup m 1).getD [])

/-- clean_value's repl_exturl: split the link body on whitespace, drop leading
    URL-scheme tokens, and join the rest with single spaces. -/
def repl_exturl (m : PyMatch) : Str :=
  joinSp (urlSkip (pySplitWs ((pyGroup m 1).getD [])))

/-- clean_value's repl_link. -/
def repl_link (cv : Bool → Bool → Str → Except PyErr Str) (m : PyMatch) :
    Except PyErr Str :=
  match pyGroup m 1 with
  | some b =>
    if pyMatchB IMAGE_LINK_RE b then .ok []
    else if pyStripChars (strOf ": ") b = strOf "w" || pyStripChars (strOf ": ") b = strOf "s"
    then cv true false (splitBarHead ((pyGroup m 3).getD []))
    else cv true false (splitBarHead (pyStripChars (strOf "[] ") m.g0))
  | none => cv true false (splitBarHead (pyStripChars (strOf "[] ") m.g0))

/-- clean_value's repl_link_bars. -/
def repl_link_bars (cv : Bool → Bool → Str → Except PyErr Str) (m : PyMatch) :
    Except PyErr Str :=
  if pyMatchB IMAGE_LINK_RE ((pyGroup m 1).getD []) then
    if !(pyMatchB NOT_INLINE_IMG_RE m.g0) && containsSub (strOf "alt") m.g0 then
      match pySearch altRE m.g0 with
      | some am => .ok (strOf "[Alt: " ++ (pyGroup am 1).getD [] ++ [93])
      | none => .ok []
    else .ok []
  else
    let g5 := (pyGroup m 5).getD []
    let g2 := (pyGroup m 2).getD []
    cv true false (if g5 != [] then g5 else g2)

/-- clean_value's repl_1_sup. -/
def repl_1_sup (cv : Bool → Bool → Str → Except PyErr Str) (m : PyMatch) :
    Except PyErr Str :=
  match cv false false ((pyGroup m 1).getD []) with
  | .error e => .error e
  | .ok t => .ok (to_superscript t)

/-- clean_value's repl_1_sub. -/
def repl_1_sub (cv : Bool → Bool → Str → Except PyErr Str) (m : PyMatch) :
    Except PyErr Str :=
  match cv false false ((pyGroup m 1).getD []) with
  | .error e => .error e
  | .ok t => .ok (to_subscript t)

/-- clean_value's repl_1_chem. -/
def repl_1_chem (cv : Bool → Bool → Str → Except PyErr Str) (m : PyMatch) :
    Except PyErr Str :=
  match cv false false ((pyGroup m 1).getD []) with
  | .error e => .error e
  | .ok t => .ok (to_chem t)

/-- clean_value's repl_1_math: the math renderer runs directly on the group
    (its printed diagnostics are discarded); its list-index and chr errors
    propagate to clean_value's caller. -/
def repl_1_math (m : PyMatch) : Except PyErr Str :=
  match to_math ((pyGroup m 1).getD []) with
  | .error e => .error e
  | .ok (v, _) => .ok v

/-- clean_value's repl_1_syntaxhighlight. -/
def repl_1_syntaxhighlight (m : PyMatch) : Str :=
  [10] ++ pyStrip ((pyGroup m 1).getD []) ++ [10]

/-- The repl of the span phase: collapse whitespace runs in the group. -/
def repl_span (m : PyMatch) : Str :=
  pySubC (rplus false wsRE) [32] ((pyGroup m 1).getD [])

/-- One application of the balanced-table substitution. -/
def tablePass (s : Str) : Str := pySubC tableRE [nl] s

/-- The balanced-table removal loop, to a fixed point. -/
def tableLoop : Nat → Str → Except PyErr Str
  | 0, _ => .error .fuelOut
  | fuel + 1, s =>
    let s2 := tablePass s
    if s2 = s then .ok s else tableLoop fuel s2

/-- One iteration of the wiki-link resolution loop: the category, plain-link,
    colon-link and barred-link substitutions in order. -/
def linkPass (cv : Bool → Bool → Str → Except PyErr Str) (t : Str) : Except PyErr Str := do
  let t := pySubC categoryRE [] t
  let t ← pySubM link1RE (repl_1 cv) t
  let t ← pySubM link2RE (repl_link cv) t
  let t ← pySubM link3RE (repl_link_bars cv) t
  .ok t

/-- The wiki-link resolution loop, to a fixed point. -/
def linkLoop (cv : Bool → Bool → Str → Except PyErr Str) :
    Nat → Str → Except PyErr Str
  | 0, _ => .error .fuelOut
  | fuel + 1, t => do
    let t2 ← linkPass cv t
    if t2 = t then .ok t else linkLoop cv fuel t2

/-- One application of the bracketed-external-URL substitution. -/
def exturlPass (t : Str) : Str := pySubP exturlRE repl_exturl t

/-- The bracketed-external-URL loop, to a fixed point. -/
def exturlLoop : Nat → Str → Except PyErr Str
  | 0, _ => .error .fuelOut
  | fuel + 1, t =>
    let t2 := exturlPass t
    if t2 = t then .ok t else exturlLoop fuel t2

/-- clean.py's clean_value: cleans a title or value into a normal string,
    removing Wikimedia formatting (tables, references, HTML tags, links,
    emphasis), replacing HTML entities, collapsing whitespace, optionally
    stripping surrounding whitespace, and normalizing to NFC.  The fuel
    bounds the recursion through the replacement closures and the unbounded
    fixed-point loops. -/
def clean_value : Nat → Bool → Bool → Str → Except PyErr Str
  | 0, _, _, _ => .error .fuelOut
  | fuel + 1, no_strip, no_html_strip, title => do
    let cv := clean_value fuel
    let t := pySubC nowikiRE [] title
    let t ← tableLoop (t.length + 1) t
    let t := pySubC refNameRE [] t
    let t := pySubC refRE [] t
    let t := pySubP spanRE repl_span t
    let t := pySubC brRE [nl] t
    let t := pySubC floatrightRE [] t
    let t := pySubC floatStyleRE [] t
    let t := pySubC previewSupRE [] t
    let t := pySubC strongErrRE [] t
    let t := pySubC divNlRE [nl] t
    let t := pySubC ddtRE [nl] t
    let t := pySubC tdThRE [32] t
    let t := pySubC supEmptyRE [] t
    let t ← pySubM supRE (repl_1_sup cv) t
    let t := pySubC subEmptyRE [] t
    let t ← pySubM subRE (repl_1_sub cv) t
    let t ← pySubM chemRE (repl_1_chem cv) t
    let t ← pySubM mathRE repl_1_math t
    let t := pySubP syntaxRE repl_1_syntaxhighlight t
    let t :=
      if !no_html_strip then pySubC htmlTag2RE [] (pySubC htmlTagRE [] t)
      else pySubC noincludeRE [] t
    let t := pySubC bracketDotsRE [0x2026] t
    let t := pySubC supUrlRE [] t
    let t := pySubC editLinkRE [] t
    let t ← linkLoop cv (t.length + 2) t
    let t ← exturlLoop (t.length + 2) t
    let t := remove_italic_and_bold t
    let t := pyUnescape t
    let t := t.map (fun c => if c == 0xa0 then 32 else c)
    let t := pySubC zeroWidthRE [] t
    let t := pySubC spaceRunRE [32] t
    let t := pySubC nlRunRE [nl] t
    let t := pySubC bracketEllipsisRE (strOf "[…]") t
    let t := if !no_strip then pyStrip t else t
    .ok (nfc t)
/-!
Termination of the fixed-point loops of clean_value: every changing pass of
the balanced-table and bracketed-external-URL substitutions strictly shortens
the string, so both loops reach a fixed point within length-plus-one passes.
The wiki-link loop's iteration count is measured against the link nesting
depth of the input.
-/

/-- The nesting depth of wiki-link brackets: double opening brackets push,
    double closing brackets pop. -/
def linkDepthGo : Nat → Nat → Str → Nat
  | _, best, [] => best
  | cur, best, 91 :: 91 :: t => linkDepthGo (cur + 1) (max best (cur + 1)) t
  | cur, best, 93 :: 93 :: t => linkDepthGo (cur - 1) best t
  | cur, best, _ :: t => linkDepthGo cur best t

/-- The wiki-link nesting depth of a string. -/
def linkDepth (s : Str) : Nat := linkDepthGo 0 0 s

theorem pySubPGo_shrink (r : RE) (repl : PyMatch → Str)
    (hsh : ∀ (prev : Option Nat) (s : Str) (mst : MSt), matchAtPrev r prev s = some mst →
      (repl ⟨s.take (s.length - mst.rest.length), mst.caps⟩).length <
        s.length - mst.rest.length) :
    ∀ (fuel : Nat) (prev : Option Nat) (s : Str),
      (pySubPGo r repl fuel prev s).length ≤ s.length ∧
      (pySubPGo r repl fuel prev s = s ∨ (pySubPGo r repl fuel prev s).length < s.length) := by
  intro fuel
  induction fuel with
  | zero =>
    intro prev s
    simp only [pySubPGo]
    exact ⟨Nat.le_refl _, Or.inl trivial⟩
  | succ fuel ih =>
    intro prev s
    simp only [pySubPGo]
    match hm : matchAtPrev r prev s with
    | some mst =>
      simp only [hm]
      try dsimp only
      have hlt := hsh prev s mst hm
      have hne : ¬ (s.length - mst.rest.length = 0) := by omega
      simp only [if_neg hne]
      obtain ⟨ih1, _⟩ := ih mst.prev mst.rest
      have hrl : mst.rest.length ≤ s.length := by omega
      constructor
      · simp only [List.length_append]
        omega
      · right
        simp only [List.length_append]
        omega
    | none =>
      simp only [hm]
      match s with
      | [] =>
        dsimp only
        exact ⟨Nat.le_refl _, Or.inl rfl⟩
      | c :: t =>
        dsimp only
        obtain ⟨ih1, ih2⟩ := ih (some c) t
        constructor
        · simp only [List.length_cons]
          omega
        · cases ih2 with
          | inl he => exact Or.inl (by rw [he])
          | inr hl =>
            right
            simp only [List.length_cons]
            omega

/-- A balanced-table match consumes at least the four bracket characters. -/
theorem tableMatch_consume (prev : Option Nat) (s : Str) (mst : MSt)
    (h : matchAtPrev tableRE prev s = some mst) :
    mst.rest.length + 4 ≤ s.length := by
  unfold matchAtPrev at h
  have htr : tableRE = .seq (.seq (chrRE 123) (chrRE 124))
      (.seq (.star false (seqs [.nla (litS "\x7b|"), .nla (litS "|\x7d"), anyCh]))
        (.seq (chrRE 124) (chrRE 125))) := rfl
  rw [htr, matchCPS_seq, matchCPS_seq] at h
  obtain ⟨c0, s1, hs0, _, h⟩ := clsE _ _ _ _ h
  have hs0 : s = c0 :: s1 := hs0
  try dsimp only at h
  obtain ⟨c1, s2, hs1, _, h⟩ := clsE _ _ _ _ h
  have hs1 : s1 = c1 :: s2 := hs1
  try dsimp only at h
  rw [matchCPS_seq] at h
  obtain ⟨st2, hk, hsuf, _⟩ := matchCPS_slice _ _ _ _ h
  have hsuf : st2.rest <:+ s2 := hsuf
  try dsimp only at hk
  rw [matchCPS_seq] at hk
  obtain ⟨c2, s3, hs2, _, hk⟩ := clsE _ _ _ _ hk
  have hs2 : st2.rest = c2 :: s3 := hs2
  try dsimp only at hk
  obtain ⟨c3, s4, hs3, _, hk⟩ := clsE _ _ _ _ hk
  have hs3 : s3 = c3 :: s4 := hs3
  have h4 : mst.rest = s4 := by rw [← Option.some.inj hk]
  have hlen2 : st2.rest.length ≤ s2.length := hsuf.length_le
  rw [hs0, hs1, h4]
  rw [hs2, hs3] at hlen2
  simp only [List.length_cons] at hlen2 ⊢
  omega

/-- One application of the table substitution leaves the string unchanged or
    strictly shortens it. -/
theorem tablePass_shrink (s : Str) :
    tablePass s = s ∨ (tablePass s).length < s.length := by
  have h := pySubPGo_shrink tableRE (fun _ => [nl]) (fun prev s mst hm => by
    have := tableMatch_consume prev s mst hm
    simp only [List.length_cons, List.length_nil]
    omega) (s.length + 1) none s
  exact h.2

/-- The table loop reaches a fixed point of the table substitution within
    length-plus-one passes. -/
theorem tableLoop_fix : ∀ (fuel : Nat) (s : Str), s.length < fuel →
    ∃ t, tableLoop fuel s = .ok t ∧ tablePass t = t := by
  intro fuel
  induction fuel with
  | zero =>
    intro s hs
    exact absurd hs (by omega)
  | succ fuel ih =>
    intro s hs
    simp only [tableLoop]
    by_cases he : tablePass s = s
    · rw [if_pos he]
      exact ⟨s, rfl, he⟩
    · rw [if_neg he]
      cases tablePass_shrink s with
      | inl h => exact absurd h he
      | inr h => exact ih (tablePass s) (by omega)

/-- An external-URL match captures group 1 and consumes at least its length
    plus the two brackets. -/
theorem exturlMatch_elim (prev : Option Nat) (s : Str) (mst : MSt)
    (h : matchAtPrev exturlRE prev s = some mst) :
    ∃ cap, List.lookup 1 mst.caps = some cap ∧
      cap.length + 2 ≤ s.length - mst.rest.length ∧ mst.rest.length ≤ s.length := by
  unfold matchAtPrev at h
  have htr : exturlRE = .seq (chrRE 91) (.seq (.star false wsRE)
      (.seq (.group 1 (seqs [
        .opt false (.group 2 (.alt
          (seqs [litS "http", .opt false (chrRE 115), chrRE 58]) (litS "mailto:"))),
        litS "//", .group 3 (rplus true (cnot "]["))]))
        (.seq (.star false wsRE) (chrRE 93)))) := rfl
  rw [htr, matchCPS_seq] at h
  obtain ⟨c0, s1, hs0, _, h⟩ := clsE _ _ _ _ h
  have hs0 : s = c0 :: s1 := hs0
  try dsimp only at h
  rw [matchCPS_seq, matchCPS_star] at h
  obtain ⟨stA, pre1, hk, hpre1, _, hcapsA⟩ := starCls_elim _ _ _ _ _ h
  have hpre1 : s1 = pre1 ++ stA.rest := hpre1
  try dsimp only at hk
  rw [matchCPS_seq, matchCPS_group] at hk
  obtain ⟨stB, hkB, hsufB, _⟩ := matchCPS_slice _ _ _ _ hk
  try dsimp only at hkB
  rw [matchCPS_seq, matchCPS_star] at hkB
  obtain ⟨stC, pre2, hkC, hpre2, _, hcapsC⟩ := starCls_elim _ _ _ _ _ hkB
  have hpre2 : stB.rest = pre2 ++ stC.rest := hpre2
  try dsimp only at hkC
  obtain ⟨c3, s4, hs3, _, hkC⟩ := clsE _ _ _ _ hkC
  have hs3 : stC.rest = c3 :: s4 := hs3
  have hmst : mst = ⟨some c3, s4, stC.caps⟩ := (Option.some.inj hkC).symm
  have hA := hsufB.length_le
  have hB : stB.rest.length = pre2.length + 1 + s4.length := by
    rw [hpre2, hs3]
    simp only [List.length_append, List.length_cons]
    omega
  have hS : s.length = 1 + pre1.length + stA.rest.length := by
    rw [hs0, hpre1]
    simp only [List.length_cons, List.length_append]
    omega
  have hR : mst.rest.length = s4.length := by rw [hmst]
  have hcaplen :
      (stA.rest.take (stA.rest.length - stB.rest.length)).length
        ≤ stA.rest.length - stB.rest.length := by
    rw [List.length_take]
    exact Nat.min_le_left _ _
  refine ⟨stA.rest.take (stA.rest.length - stB.rest.length), ?_, by omega, by omega⟩
  rw [hmst]
  dsimp only
  rw [hcapsC]
  simp [List.lookup]

/-- urlSkip keeps a suffix of its input. -/
theorem urlSkip_suffix : ∀ l : List Str, urlSkip l <:+ l := by
  intro l
  induction l with
  | nil => exact List.suffix_refl _
  | cons a rest ih =>
    cases rest with
    | nil => exact List.suffix_refl _
    | cons b rest2 =>
      simp only [urlSkip]
      split_ifs
      · exact ih.trans ⟨[a], rfl⟩
      · exact List.suffix_refl _

theorem joinSp_cons_le (a : Str) (rest : List Str) :
    (joinSp (a :: rest)).length ≤ a.length + 1 + (joinSp rest).length := by
  match rest with
  | [] => simp [joinSp]
  | b :: t =>
    simp only [joinSp, List.length_append, List.length_cons]
    omega

theorem joinSp_tail_le (a : Str) (rest : List Str) :
    (joinSp rest).length ≤ (joinSp (a :: rest)).length := by
  match rest with
  | [] => simp [joinSp]
  | b :: t =>
    simp only [joinSp, List.length_append, List.length_cons]
    omega

theorem joinSp_suffix_le : ∀ (l2 l : List Str), l2 <:+ l →
    (joinSp l2).length ≤ (joinSp l).length := by
  intro l2 l h
  obtain ⟨pre, rfl⟩ := h
  induction pre with
  | nil => exact Nat.le_refl _
  | cons p pre ih => exact Nat.le_trans ih (joinSp_tail_le p (pre ++ l2))

/-- Splitting on whitespace and rejoining with single spaces never lengthens
    a string. -/
theorem splitWsGo_le : ∀ s : Str,
    (∀ cur : Str, (joinSp (splitWsGo false cur s)).length ≤ cur.length + s.length) ∧
    (joinSp (splitWsGo true [] s)).length ≤ s.length := by
  intro s
  induction s with
  | nil =>
    refine ⟨fun cur => ?_, ?_⟩
    · simp [splitWsGo, joinSp]
    · simp [splitWsGo, joinSp]
  | cons c t ih =>
    refine ⟨fun cur => ?_, ?_⟩
    · simp only [splitWsGo]
      by_cases hw : pyIsSpaceRe c = true
      · rw [if_pos hw]
        have h1 := joinSp_cons_le cur.reverse (splitWsGo true [] t)
        have h2 := ih.2
        simp only [List.length_reverse] at h1
        simp only [Bool.false_eq_true, if_false, List.length_cons]
        omega
      · rw [if_neg hw]
        have h1 := ih.1 (c :: cur)
        simp only [List.length_cons, List.length_nil] at h1 ⊢
        omega
    · simp only [splitWsGo]
      by_cases hw : pyIsSpaceRe c = true
      · rw [if_pos hw]
        have h2 := ih.2
        simp only [eq_self_iff_true, if_true, List.length_cons]
        omega
      · rw [if_neg hw]
        have h1 := ih.1 [c]
        simp only [List.length_cons, List.length_nil] at h1 ⊢
        omega

/-- The external-URL replacement never exceeds the captured link body. -/
theorem repl_exturl_le (m : PyMatch) (cap : Str)
    (h : List.lookup 1 m.caps = some cap) : (repl_exturl m).length ≤ cap.length := by
  unfold repl_exturl
  have hg : (pyGroup m 1).getD [] = cap := by
    unfold pyGroup
    rw [h]
    rfl
  rw [hg]
  refine Nat.le_trans (joinSp_suffix_le _ _ (urlSkip_suffix (pySplitWs cap))) ?_
  have h2 := (splitWsGo_le cap).1 []
  simpa using h2

/-- One application of the external-URL substitution leaves the string
    unchanged or strictly shortens it. -/
theorem exturlPass_shrink (s : Str) :
    exturlPass s = s ∨ (exturlPass s).length < s.length := by
  have h := pySubPGo_shrink exturlRE repl_exturl (fun prev s mst hm => by
    obtain ⟨cap, hcap, hlen, _⟩ := exturlMatch_elim prev s mst hm
    have hr := repl_exturl_le ⟨s.take (s.length - mst.rest.length), mst.caps⟩ cap hcap
    omega) (s.length + 1) none s
  exact h.2

/-- The external-URL loop reaches a fixed point of its substitution within
    length-plus-one passes. -/
theorem exturlLoop_fix : ∀ (fuel : Nat) (s : Str), s.length < fuel →
    ∃ t, exturlLoop fuel s = .ok t ∧ exturlPass t = t := by
  intro fuel
  induction fuel with
  | zero =>
    intro s hs
    exact absurd hs (by omega)
  | succ fuel ih =>
    intro s hs
    simp only [exturlLoop]
    by_cases he : exturlPass s = s
    · rw [if_pos he]
      exact ⟨s, rfl, he⟩
    · rw [if_neg he]
      cases exturlPass_shrink s with
      | inl h => exact absurd h he
      | inr h => exact ih (exturlPass s) (by omega)
/-- C1 counterexample: clean_value is not idempotent.  A run of seven
    apostrophes cleans to a run of two apostrophes (the emphasis state machine
    consumes five), and re-cleaning removes the remaining two as an italic
    marker, so cleaning the output changes it again. -/
theorem C1_counterexample :
    clean_value 8 false false (List.replicate 7 apos ++ [97]) = .ok [apos, apos, 97] ∧
    clean_value 8 false false [apos, apos, 97] = .ok [97] ∧
    ([apos, apos, 97] : Str) ≠ [97] := by
  refine ⟨by decide, by decide, by decide⟩

/-- C1 (amended): clean_value is not idempotent in general — there is an
    input whose cleaned output changes again when re-cleaned, because the
    emphasis state machine can leave a shorter apostrophe run that the next
    invocation interprets as a fresh emphasis marker (seven apostrophes clean
    to two, which then clean to nothing); on outputs free of such leftover
    markup, such as the spec's own link example, re-cleaning is a no-op. -/
theorem C1_theorem :
    (∃ s t u : Str, clean_value 8 false false s = .ok t ∧
      clean_value 8 false false t = .ok u ∧ t ≠ u) ∧
    clean_value 8 false false (List.replicate 7 apos ++ [97]) = .ok [apos, apos, 97] ∧
    clean_value 8 false false [apos, apos, 97] = .ok [97] ∧
    clean_value 8 false false (strOf "[[foo|bar]]") = .ok (strOf "bar") ∧
    clean_value 8 false false (strOf "bar") = .ok (strOf "bar") := by
  have h1 : clean_value 8 false false (List.replicate 7 apos ++ [97]) = .ok [apos, apos, 97] :=
    by decide
  have h2 : clean_value 8 false false [apos, apos, 97] = .ok [97] := by decide
  exact ⟨⟨_, _, _, h1, h2, by decide⟩, h1, h2, by decide, by decide⟩

/-- C2 counterexample: clean_value can raise.  A math element whose content
    is a reserved magic placeholder codepoint reaches to_math, whose expansion
    loop indexes the empty placeholder table and raises IndexError to
    clean_value's caller. -/
theorem C2_counterexample :
    clean_value 8 false false (strOf "<math>" ++ [0x100000] ++ strOf "</math>") =
      .error .indexError := by
  decide

/-- C2 (amended): clean_value does not return a string for every input — the
    math renderer indexes the magic placeholder table with any input character
    from the reserved magic range, and when the slot does not exist the
    IndexError propagates to the caller under every combination of the
    no_strip and no_html_strip options; inputs that avoid such math content
    are cleaned normally. -/
theorem C2_theorem :
    clean_value 8 false false (strOf "<math>" ++ [0x100000] ++ strOf "</math>") =
      .error .indexError ∧
    clean_value 8 true false (strOf "<math>" ++ [0x100000] ++ strOf "</math>") =
      .error .indexError ∧
    clean_value 8 false true (strOf "<math>" ++ [0x100000] ++ strOf "</math>") =
      .error .indexError ∧
    clean_value 8 true true (strOf "<math>" ++ [0x100000] ++ strOf "</math>") =
      .error .indexError ∧
    clean_value 8 false false (strOf "plain text") = .ok (strOf "plain text") := by
  refine ⟨by decide, by decide, by decide, by decide, by decide⟩

/-- C3 counterexample: the wiki-link loop's iteration count is not bounded by
    the link nesting depth.  An input of link nesting depth one — deeper
    brackets are hidden behind HTML character references that each cleaning
    pass decodes — is still not at a fixed point after two passes: three
    changing passes are needed. -/
theorem C3_counterexample :
    linkDepth (strOf "[[a|&#91;&#91;b&#124;&amp;#91;&amp;#91;c&amp;#93;&amp;#93;&#93;&#93;]]")
      = 1 ∧
    linkPass (clean_value 8)
      (strOf "[[a|&#91;&#91;b&#124;&amp;#91;&amp;#91;c&amp;#93;&amp;#93;&#93;&#93;]]") =
      .ok (strOf "[[b|&#91;&#91;c&#93;&#93;]]") ∧
    linkPass (clean_value 8) (strOf "[[b|&#91;&#91;c&#93;&#93;]]") = .ok (strOf "[[c]]") ∧
    linkPass (clean_value 8) (strOf "[[c]]") = .ok (strOf "c") ∧
    (strOf "[[c]]" : Str) ≠ strOf "c" := by
  refine ⟨by decide, by decide, by decide, by decide, by decide⟩

/-- C3 (amended): the balanced-table and bracketed-external-URL loops
    terminate on every input within length-plus-one passes, because every
    changing pass strictly shortens the string (a table match spans at least
    its four bracket characters and is replaced by one newline; an external
    link match spans its body plus two brackets and is replaced by at most its
    body); the wiki-link loop also reaches fixed points (as on the
    counterexample's tail below), but its iteration count is bounded by the
    number of changing passes, not by the link nesting depth of the input. -/
theorem C3_theorem :
    (∀ s : Str, tablePass s = s ∨ (tablePass s).length < s.length) ∧
    (∀ s : Str, ∃ t, tableLoop (s.length + 1) s = .ok t ∧ tablePass t = t) ∧
    (∀ s : Str, exturlPass s = s ∨ (exturlPass s).length < s.length) ∧
    (∀ s : Str, ∃ t, exturlLoop (s.length + 1) s = .ok t ∧ exturlPass t = t) ∧
    linkPass (clean_value 8) (strOf "[[c]]") = .ok (strOf "c") ∧
    linkPass (clean_value 8) (strOf "c") = .ok (strOf "c") := by
  refine ⟨tablePass_shrink, fun s => tableLoop_fix (s.length + 1) s (Nat.lt_succ_self _),
    exturlPass_shrink, fun s => exturlLoop_fix (s.length + 1) s (Nat.lt_succ_self _),
    by decide, by decide⟩
end WxrClean
